import Mathlib

/-!
Verification development for the `rjscompiler` JavaScript minifier.

The definitions below are a shallow embedding of the Rust sources:
  * `src/parser/ast_types.rs`   — the AST data model,
  * `src/analyzer/*`            — scope building and semantic analysis,
  * `src/transformer/*`         — the five-pass transformer,
  * `src/generator/printer.rs`  — the printer,
  * `src/generator/source_maps.rs` — base-64 VLQ encoding.

Modelling conventions:
  * Rust `HashMap` values are modelled as insertion-ordered association
    lists (`AList`); `insert` replaces the value at an existing key in
    place, matching `HashMap::insert`'s key semantics.  Wherever a result
    we prove about could depend on the (unspecified) iteration order of a
    Rust `HashMap`, the input has at most one relevant entry, so the
    statements are order-independent.
  * `f64` number-literal values are modelled as `Int`: every number any
    claim touches is an integer-valued double, on which the source's
    `value == value.trunc()` test is true by construction.
  * Machine integers (`u32` ids, `usize` lengths) are modelled as `Nat`;
    none of the verified paths can overflow them.  The `i32` input of
    `encode_vlq` is modelled as `Int`, and the theorems about it restrict
    to the range where the source's `value << 1` cannot overflow.
  * Functions whose Rust signature is `Result<_, E>` but that return `Ok`
    on every path (all of `scope_builder.rs` and `semantic_analysis.rs`)
    are embedded as total functions; the top-level `analyze_ast` is still
    wrapped in `Except` so that claims about its error behaviour can be
    stated.
  * Side effects that cannot influence any returned value (verbose
    `println!` logging, wall-clock timing, pre-allocated caches and
    performance counters) are omitted.
-/

set_option maxHeartbeats 1600000

namespace Rjs

/-! ## Association lists (model of `std::collections::HashMap`) -/

/-- Lookup in an association list, first match wins (models `HashMap::get`). -/
def alGet {α β : Type} [DecidableEq α] : List (α × β) → α → Option β
  | [], _ => none
  | (k, v) :: rest, key => if k = key then some v else alGet rest key

/-- Insert into an association list: replace the value at an existing key in
place, otherwise append (models `HashMap::insert` key semantics with a
deterministic order). -/
def alInsert {α β : Type} [DecidableEq α] : List (α × β) → α → β → List (α × β)
  | [], key, value => [(key, value)]
  | (k, v) :: rest, key, value =>
      if k = key then (k, value) :: rest else (k, v) :: alInsert rest key value

/-- Update the value at a key if present; no-op otherwise (models the
`if let Some(x) = map.get_mut(key) { … }` pattern). -/
def alModify {α β : Type} [DecidableEq α] : List (α × β) → α → (β → β) → List (α × β)
  | [], _, _ => []
  | (k, v) :: rest, key, f =>
      if k = key then (k, f v) :: rest else (k, v) :: alModify rest key f

/-- Membership of a key (models `HashMap::contains_key`). -/
def alContains {α β : Type} [DecidableEq α] (l : List (α × β)) (key : α) : Bool :=
  (alGet l key).isSome

/-! ## AST data model (from `src/parser/ast_types.rs`) -/

/-- Identifier node: carries only the name. -/
structure Identifier where
  name : String
deriving Repr, DecidableEq

/-- Program source type (`script` or `module`). -/
inductive ProgramSourceType where
  | Script
  | Module
deriving Repr, DecidableEq

/-- Variable declaration kind: `var`, `let` or `const`. -/
inductive VariableDeclarationKind where
  | Var
  | Let
  | Const
deriving Repr, DecidableEq

/-- String literal node. -/
structure StringLiteral where
  value : String
deriving Repr, DecidableEq

/-- Number literal node.  The source stores an `f64`; every literal the
claims touch is an integer-valued double, so the value is modelled as
`Int` (see the module conventions above). -/
structure NumberLiteral where
  value : Int
deriving Repr, DecidableEq

/-- Boolean literal node. -/
structure BooleanLiteral where
  value : Bool
deriving Repr, DecidableEq

/-- Regular-expression literal node. -/
structure RegExpLiteral where
  pattern : String
  flags : String
deriving Repr, DecidableEq

/-- Literal values. -/
inductive Literal where
  | String (lit : StringLiteral)
  | Number (lit : NumberLiteral)
  | Boolean (lit : BooleanLiteral)
  | Null
  | RegExp (lit : RegExpLiteral)
deriving Repr, DecidableEq

/-- Binary operators. -/
inductive BinaryOperator where
  | Add | Subtract | Multiply | Divide | Remainder | Exponentiation
  | Equal | NotEqual | StrictEqual | StrictNotEqual
  | LessThan | LessThanEqual | GreaterThan | GreaterThanEqual
  | LeftShift | RightShift | UnsignedRightShift
  | BitwiseAnd | BitwiseOr | BitwiseXor
  | LogicalAnd | LogicalOr
  | In | Instanceof
deriving Repr, DecidableEq

/-- Unary operators. -/
inductive UnaryOperator where
  | Plus | Minus | LogicalNot | BitwiseNot | Typeof | Void | Delete
deriving Repr, DecidableEq

/-- Assignment operators. -/
inductive AssignmentOperator where
  | Assign | AddAssign | SubtractAssign | MultiplyAssign | DivideAssign
  | RemainderAssign | ExponentiationAssign | LeftShiftAssign
  | RightShiftAssign | UnsignedRightShiftAssign | BitwiseAndAssign
  | BitwiseOrAssign | BitwiseXorAssign | LogicalAndAssign | LogicalOrAssign
  | NullishCoalescingAssign
deriving Repr, DecidableEq

/-- Update operators (`++`, `--`). -/
inductive UpdateOperator where
  | Increment
  | Decrement
deriving Repr, DecidableEq

/-- Method kind on class elements. -/
inductive MethodKind where
  | Constructor | Method | Get | Set
deriving Repr, DecidableEq

/-- Property kind on object properties. -/
inductive PropertyKind where
  | Init | Get | Set
deriving Repr, DecidableEq

/-- Private name (`#x`). -/
structure PrivateName where
  name : String
deriving Repr, DecidableEq

/-- Property key. -/
inductive PropertyKey where
  | Identifier (id : Identifier)
  | Literal (lit : Literal)
  | PrivateName (p : PrivateName)
deriving Repr, DecidableEq

/-- Template element (quasi). -/
structure TemplateElement where
  value : String
  tail : Bool
deriving Repr, DecidableEq

/-- Import specifiers. -/
inductive ImportSpecifier where
  | ImportDefaultSpecifier (local_ : Identifier)
  | ImportNamespaceSpecifier (local_ : Identifier)
  | ImportSpecifier (imported : Identifier) (local_ : Identifier)
deriving Repr, DecidableEq

/-- Export specifiers. -/
inductive ExportSpecifier where
  | ExportSpecifier (local_ : Identifier) (exported : Identifier)
deriving Repr, DecidableEq

mutual

/-- JavaScript statements (tagged variants of `Statement` in
`ast_types.rs`). -/
inductive Statement where
  | VariableDeclaration (declarations : List VariableDeclarator)
      (kind : VariableDeclarationKind)
  | FunctionDeclaration (id : Option Identifier) (params : List Pattern)
      (body : BlockStatement) (is_async : Bool) (is_generator : Bool)
  | ClassDeclaration (id : Option Identifier)
      (super_class : Option Expression) (body : ClassBody)
  | ExpressionStatement (expression : Expression)
  | BlockStatement (body : List Statement)
  | ReturnStatement (argument : Option Expression)
  | IfStatement (test : Expression) (consequent : Statement)
      (alternate : Option Statement)
  | WhileStatement (test : Expression) (body : Statement)
  | ForStatement (init : Option ForInit) (test : Option Expression)
      (update : Option Expression) (body : Statement)
  | ImportDeclaration (specifiers : List ImportSpecifier)
      (source : StringLiteral)
  | ExportNamedDeclaration (declaration : Option Statement)
      (specifiers : List ExportSpecifier) (source : Option StringLiteral)

/-- A single declarator `id = init` inside a variable declaration. -/
inductive VariableDeclarator where
  | mk (id : Pattern) (init : Option Expression)

/-- Block statement wrapper. -/
inductive BlockStatement where
  | mk (body : List Statement)

/-- Class body wrapper. -/
inductive ClassBody where
  | mk (body : List ClassElement)

/-- Class elements (property or method definitions). -/
inductive ClassElement where
  | PropertyDefinition (key : PropertyKey) (value : Option Expression)
      (is_static : Bool) (is_private : Bool)
  | MethodDefinition (key : PropertyKey) (value : FunctionExpression)
      (kind : MethodKind) (is_static : Bool) (is_private : Bool)

/-- For-loop initialiser. -/
inductive ForInit where
  | VariableDeclaration (declarations : List VariableDeclarator)
      (kind : VariableDeclarationKind)
  | Expression (e : Expression)

/-- JavaScript expressions (tagged variants of `Expression` in
`ast_types.rs`).  `ThisExpression` is not present in the `Expression` enum
of `ast_types.rs`, but the analyzer (`semantic_analysis.rs`), the printer
(`printer.rs`) and the generator tests all match on
`Expression::ThisExpression`; it is included here as those files require. -/
inductive Expression where
  | Identifier (id : Identifier)
  | Literal (lit : Literal)
  | BinaryExpression (left : Expression) (operator : BinaryOperator)
      (right : Expression)
  | UnaryExpression (operator : UnaryOperator) (argument : Expression)
      (prefix_flag : Bool)
  | AssignmentExpression (left : Expression) (operator : AssignmentOperator)
      (right : Expression)
  | UpdateExpression (operator : UpdateOperator) (argument : Expression)
      (prefix_flag : Bool)
  | CallExpression (callee : Expression) (arguments : List Expression)
  | MemberExpression (object : Expression) (property : Expression)
      (computed : Bool)
  | FunctionExpression (f : FunctionExpression)
  | ArrowFunctionExpression (params : List Pattern)
      (body : ArrowFunctionBody) (is_async : Bool)
  | ObjectExpression (properties : List ObjectProperty)
  | ArrayExpression (elements : List (Option Expression))
  | TemplateLiteral (quasis : List TemplateElement)
      (expressions : List Expression)
  | ConditionalExpression (test : Expression) (consequent : Expression)
      (alternate : Expression)
  | ThisExpression

/-- Function expression node. -/
inductive FunctionExpression where
  | mk (id : Option Identifier) (params : List Pattern)
      (body : BlockStatement) (is_async : Bool) (is_generator : Bool)

/-- Body of an arrow function. -/
inductive ArrowFunctionBody where
  | BlockStatement (b : BlockStatement)
  | Expression (e : Expression)

/-- Object properties. -/
inductive ObjectProperty where
  | Property (key : PropertyKey) (value : Expression) (kind : PropertyKind)
      (method : Bool) (shorthand : Bool) (computed : Bool)
  | SpreadElement (argument : Expression)

/-- Binding patterns. -/
inductive Pattern where
  | Identifier (id : Identifier)
  | ArrayPattern (elements : List (Option Pattern))
  | ObjectPattern (properties : List ObjectPatternProperty)
  | AssignmentPattern (left : Pattern) (right : Expression)
  | RestElement (argument : Pattern)

/-- Object-pattern properties. -/
inductive ObjectPatternProperty where
  | Property (key : PropertyKey) (value : Pattern) (computed : Bool)
      (shorthand : Bool)
  | RestElement (argument : Pattern)

end

/-- Field accessor for `VariableDeclarator.id`. -/
def VariableDeclarator.id : VariableDeclarator → Pattern
  | .mk i _ => i

/-- Field accessor for `VariableDeclarator.init`. -/
def VariableDeclarator.init : VariableDeclarator → Option Expression
  | .mk _ i => i

/-- Field accessor for `BlockStatement.body`. -/
def BlockStatement.body : BlockStatement → List Statement
  | .mk b => b

/-- Field accessor for `ClassBody.body`. -/
def ClassBody.body : ClassBody → List ClassElement
  | .mk b => b

/-- Field accessor for `FunctionExpression.params`. -/
def FunctionExpression.params : FunctionExpression → List Pattern
  | .mk _ p _ _ _ => p

/-- Field accessor for `FunctionExpression.body`. -/
def FunctionExpression.body : FunctionExpression → BlockStatement
  | .mk _ _ b _ _ => b

/-- Root program node. -/
structure Program where
  body : List Statement
  source_type : ProgramSourceType

/-! ### Structural size of AST nodes

The recursive traversals below (scope analysis, semantic analysis, printing,
validation) are embedded with an explicit fuel parameter; the entry points
supply a fuel computed from the following structural size functions, which
over-approximates the depth of any chain of recursive calls the traversal can
make, so that the fuel never runs out on the actual call tree. -/

mutual

/-- Structural size of a statement. -/
def stmt_size : Statement → Nat
  | .VariableDeclaration declarations _ => 1 + declarator_list_size declarations
  | .FunctionDeclaration _ params body _ _ =>
      match body with
      | .mk bs => 1 + pattern_list_size params + stmt_list_size bs
  | .ClassDeclaration _ super_class body =>
      (match super_class with | some e => expr_size e | none => 0) +
      (match body with | .mk elements => 1 + class_element_list_size elements)
  | .ExpressionStatement e => 1 + expr_size e
  | .BlockStatement body => 1 + stmt_list_size body
  | .ReturnStatement arg =>
      match arg with | some e => 1 + expr_size e | none => 1
  | .IfStatement test consequent alternate =>
      1 + expr_size test + stmt_size consequent +
      (match alternate with | some alt => stmt_size alt | none => 0)
  | .WhileStatement test body => 1 + expr_size test + stmt_size body
  | .ForStatement init test update body =>
      1 +
      (match init with
       | some (.VariableDeclaration declarations _) =>
           1 + declarator_list_size declarations
       | some (.Expression e) => 1 + expr_size e
       | none => 0) +
      (match test with | some e => expr_size e | none => 0) +
      (match update with | some e => expr_size e | none => 0) +
      stmt_size body
  | .ImportDeclaration _ _ => 1
  | .ExportNamedDeclaration declaration _ _ =>
      match declaration with | some d => 1 + stmt_size d | none => 1

/-- Structural size of a statement list. -/
def stmt_list_size : List Statement → Nat
  | [] => 0
  | stmt :: rest => 1 + stmt_size stmt + stmt_list_size rest

/-- Structural size of a declarator list. -/
def declarator_list_size : List VariableDeclarator → Nat
  | [] => 0
  | .mk pat init :: rest =>
      1 + pattern_size pat +
      (match init with | some e => expr_size e | none => 0) +
      declarator_list_size rest

/-- Structural size of a class-element list. -/
def class_element_list_size : List ClassElement → Nat
  | [] => 0
  | element :: rest => 1 + class_element_size element + class_element_list_size rest

/-- Structural size of a class element. -/
def class_element_size : ClassElement → Nat
  | .PropertyDefinition _ value _ _ =>
      match value with | some e => 1 + expr_size e | none => 1
  | .MethodDefinition _ value _ _ _ => 1 + fnexpr_size value

/-- Structural size of an expression. -/
def expr_size : Expression → Nat
  | .Identifier _ => 1
  | .Literal _ => 1
  | .BinaryExpression left _ right => 1 + expr_size left + expr_size right
  | .UnaryExpression _ argument _ => 1 + expr_size argument
  | .AssignmentExpression left _ right => 1 + expr_size left + expr_size right
  | .UpdateExpression _ argument _ => 1 + expr_size argument
  | .CallExpression callee arguments => 1 + expr_size callee + expr_list_size arguments
  | .MemberExpression object property _ => 1 + expr_size object + expr_size property
  | .FunctionExpression f => 1 + fnexpr_size f
  | .ArrowFunctionExpression params body _ =>
      1 + pattern_list_size params +
      (match body with
       | .BlockStatement (.mk bs) => 1 + stmt_list_size bs
       | .Expression e => 1 + expr_size e)
  | .ObjectExpression properties => 1 + obj_prop_list_size properties
  | .ArrayExpression elements => 1 + opt_expr_list_size elements
  | .TemplateLiteral quasis expressions =>
      1 + quasis.length + expr_list_size expressions
  | .ConditionalExpression test consequent alternate =>
      1 + expr_size test + expr_size consequent + expr_size alternate
  | .ThisExpression => 1

/-- Structural size of an expression list. -/
def expr_list_size : List Expression → Nat
  | [] => 0
  | e :: rest => 1 + expr_size e + expr_list_size rest

/-- Structural size of a list of optional expressions. -/
def opt_expr_list_size : List (Option Expression) → Nat
  | [] => 0
  | none :: rest => 1 + opt_expr_list_size rest
  | some e :: rest => 1 + expr_size e + opt_expr_list_size rest

/-- Structural size of a function-expression node. -/
def fnexpr_size : FunctionExpression → Nat
  | .mk _ params body _ _ =>
      match body with
      | .mk bs => 1 + pattern_list_size params + stmt_list_size bs

/-- Structural size of an object-property list. -/
def obj_prop_list_size : List ObjectProperty → Nat
  | [] => 0
  | .Property _ value _ _ _ _ :: rest =>
      1 + expr_size value + obj_prop_list_size rest
  | .SpreadElement argument :: rest =>
      1 + expr_size argument + obj_prop_list_size rest

/-- Structural size of a pattern. -/
def pattern_size : Pattern → Nat
  | .Identifier _ => 1
  | .ArrayPattern elements => 1 + opt_pattern_list_size elements
  | .ObjectPattern properties => 1 + obj_pat_prop_list_size properties
  | .AssignmentPattern left right => 1 + pattern_size left + expr_size right
  | .RestElement argument => 1 + pattern_size argument

/-- Structural size of a pattern list. -/
def pattern_list_size : List Pattern → Nat
  | [] => 0
  | p :: rest => 1 + pattern_size p + pattern_list_size rest

/-- Structural size of a list of optional patterns. -/
def opt_pattern_list_size : List (Option Pattern) → Nat
  | [] => 0
  | none :: rest => 1 + opt_pattern_list_size rest
  | some p :: rest => 1 + pattern_size p + opt_pattern_list_size rest

/-- Structural size of an object-pattern property list. -/
def obj_pat_prop_list_size : List ObjectPatternProperty → Nat
  | [] => 0
  | .Property _ value _ _ :: rest =>
      1 + pattern_size value + obj_pat_prop_list_size rest
  | .RestElement argument :: rest =>
      1 + pattern_size argument + obj_pat_prop_list_size rest

end

/-- Structural size of a whole program. -/
def program_size (p : Program) : Nat := 1 + stmt_list_size p.body

/-! ## Analyzer data model (from `src/analyzer/mod.rs`) -/

/-- Unique identifier for scopes (`pub type ScopeId = u32`). -/
abbrev ScopeId := Nat

/-- Unique identifier for symbols (`pub type SymbolId = u32`). -/
abbrev SymbolId := Nat

/-- Analyzer configuration. -/
structure AnalyzerConfig where
  verbose : Bool
  preserve_exports : Bool
  aggressive_optimization : Bool
  strict_mode : Bool
deriving Repr, DecidableEq

/-- Default analyzer configuration. -/
def AnalyzerConfig.default : AnalyzerConfig :=
  { verbose := false
    preserve_exports := true
    aggressive_optimization := false
    strict_mode := true }

/-- Errors that can occur during semantic analysis.  None of the embedded
analysis paths ever constructs one (every `scope_builder.rs` and
`semantic_analysis.rs` path returns `Ok`), but the type is needed to state
claims about `analyze_ast`'s error behaviour. -/
inductive AnalysisError where
  | ScopeAnalysisFailed (message : String)
  | SymbolResolutionFailed (identifier : String) (location : String)
  | InvalidScopeNesting (details : String)
  | TemporalDeadZoneViolation (identifier : String)
  | UnsafeScope (reason : String)
  | InternalError (message : String)
deriving Repr, DecidableEq

/-- Types of scopes. -/
inductive ScopeType where
  | Global | Function | Block | Module | Class | Catch | With
deriving Repr, DecidableEq

/-- Individual scope information. -/
structure Scope where
  id : ScopeId
  scope_type : ScopeType
  parent_id : Option ScopeId
  children : List ScopeId
  bindings : List SymbolId
  is_safe : Bool
deriving Repr, DecidableEq

/-- Hierarchical scope tree; the `scopes` HashMap is an association list. -/
structure ScopeTree where
  scopes : List (ScopeId × Scope)
  root_scope_id : ScopeId
  next_scope_id : ScopeId
deriving Repr, DecidableEq

/-- Variable kinds. -/
inductive VariableKind where
  | Var | Let | Const
deriving Repr, DecidableEq

/-- Types of symbols. -/
inductive SymbolType where
  | Variable (kind : VariableKind)
  | Function
  | Class
  | Parameter
  | Import
  | Export
  | Property
deriving Repr, DecidableEq

/-- Source code location. -/
structure SourceLocation where
  line : Nat
  column : Nat
  offset : Nat
deriving Repr, DecidableEq

/-- Types of symbol references. -/
inductive ReferenceType where
  | Read | Write | Call | PropertyAccess
deriving Repr, DecidableEq

/-- Reference to a symbol with usage context. -/
structure SymbolReference where
  location : SourceLocation
  reference_type : ReferenceType
  scope_id : ScopeId
deriving Repr, DecidableEq

/-- Individual symbol information. -/
structure Symbol where
  id : SymbolId
  name : String
  symbol_type : SymbolType
  scope_id : ScopeId
  references : List SymbolReference
  is_captured : Bool
  is_exported : Bool
  is_renamable : Bool
deriving Repr, DecidableEq

/-- Symbol table: `symbols` and the per-scope name→id binding maps are
association lists. -/
structure SymbolTable where
  symbols : List (SymbolId × Symbol)
  scope_bindings : List (ScopeId × List (String × SymbolId))
  next_symbol_id : SymbolId
deriving Repr, DecidableEq

/-- Empty symbol table (`SymbolTable::new`). -/
def SymbolTable.new : SymbolTable :=
  { symbols := [], scope_bindings := [], next_symbol_id := 0 }

/-- Reasons why a scope or symbol is not safe for optimization. -/
inductive UnsafeReason where
  | EvalUsage
  | WithStatement
  | DynamicThis
  | IndirectAccess
  | ExternalDependency
  | Unknown
deriving Repr, DecidableEq

/-- Semantic flags for optimization safety. -/
structure SemanticFlags where
  unsafe_scopes : List (ScopeId × UnsafeReason)
  unsafe_symbols : List (SymbolId × UnsafeReason)
  global_references : List SymbolId
deriving Repr, DecidableEq

/-- Analysis metadata; `analysis_time_ms` is wall-clock time in the source
and is modelled as 0. -/
structure AnalysisMetadata where
  scope_count : Nat
  symbol_count : Nat
  capture_count : Nat
  export_count : Nat
  analysis_time_ms : Nat
deriving Repr, DecidableEq

/-- Complete analysis result. -/
structure SemanticAnalysis where
  symbol_table : SymbolTable
  scope_tree : ScopeTree
  semantic_flags : SemanticFlags
  metadata : AnalysisMetadata
deriving Repr, DecidableEq

/-- Scope tree with a fresh root scope (`ScopeTree::new`). -/
def ScopeTree.new (root_scope_type : ScopeType) : ScopeTree :=
  { scopes := [(0, { id := 0
                     scope_type := root_scope_type
                     parent_id := none
                     children := []
                     bindings := []
                     is_safe := true })]
    root_scope_id := 0
    next_scope_id := 1 }

/-- Lookup a scope by id (`ScopeTree::get_scope`). -/
def ScopeTree.get_scope (t : ScopeTree) (scope_id : ScopeId) : Option Scope :=
  alGet t.scopes scope_id

/-! ## Scope builder (from `src/analyzer/scope_builder.rs`) -/

/-- Context threaded through scope analysis (`ScopeAnalysisContext`).
The `config` field is carried for fidelity; it only gates `println!`
logging in the source and has no effect on any result. -/
structure Ctx where
  current_scope : ScopeId
  scope_tree : ScopeTree
  symbol_table : SymbolTable
  semantic_flags : SemanticFlags
  config : AnalyzerConfig
  current_location : SourceLocation
deriving Repr, DecidableEq

/-- Creates a new scope, adds it to the tree and registers it as a child of
its parent (`create_scope`). -/
def create_scope (scope_type : ScopeType) (parent_id : Option ScopeId)
    (ctx : Ctx) : ScopeId × Ctx :=
  let scope_id := ctx.scope_tree.next_scope_id
  let scope : Scope :=
    { id := scope_id, scope_type := scope_type, parent_id := parent_id
      children := [], bindings := [], is_safe := true }
  let scopes := alInsert ctx.scope_tree.scopes scope_id scope
  let scopes :=
    match parent_id with
    | some parent =>
        alModify scopes parent (fun p => { p with children := p.children ++ [scope_id] })
    | none => scopes
  (scope_id,
   { ctx with scope_tree := { ctx.scope_tree with
                               scopes := scopes
                               next_scope_id := scope_id + 1 } })

/-- Declares a new symbol in the given scope, or returns the existing id if
the name is already bound there (`declare_symbol`; the source returns
`Ok` on every path). -/
def declare_symbol (name : String) (symbol_type : SymbolType)
    (scope_id : ScopeId) (ctx : Ctx) : SymbolId × Ctx :=
  match alGet ctx.symbol_table.scope_bindings scope_id with
  | some scope_bindings =>
      match alGet scope_bindings name with
      | some existing_symbol_id => (existing_symbol_id, ctx)
      | none => declare_symbol_fresh name symbol_type scope_id ctx
  | none => declare_symbol_fresh name symbol_type scope_id ctx
where
  /-- The fall-through path of `declare_symbol` that allocates a fresh id. -/
  declare_symbol_fresh (name : String) (symbol_type : SymbolType)
      (scope_id : ScopeId) (ctx : Ctx) : SymbolId × Ctx :=
    let symbol_id := ctx.symbol_table.next_symbol_id
    let symbol : Symbol :=
      { id := symbol_id, name := name, symbol_type := symbol_type
        scope_id := scope_id, references := []
        is_captured := false, is_exported := false, is_renamable := true }
    let symbols := alInsert ctx.symbol_table.symbols symbol_id symbol
    let scope_bindings :=
      match alGet ctx.symbol_table.scope_bindings scope_id with
      | some existing =>
          alInsert ctx.symbol_table.scope_bindings scope_id
            (alInsert existing name symbol_id)
      | none =>
          alInsert ctx.symbol_table.scope_bindings scope_id [(name, symbol_id)]
    let scope_tree :=
      { ctx.scope_tree with
        scopes := alModify ctx.scope_tree.scopes scope_id
          (fun s => { s with bindings := s.bindings ++ [symbol_id] }) }
    (symbol_id,
     { ctx with
       symbol_table := { symbols := symbols
                         scope_bindings := scope_bindings
                         next_symbol_id := symbol_id + 1 }
       scope_tree := scope_tree })

/-- Fuel-bounded walk of the parent chain (`resolve_symbol`'s loop).  The
source loop terminates because the scope tree built by the analyzer is
acyclic; the fuel (instantiated with one more than the number of scopes)
bounds the length of any acyclic parent chain.  The parent step of the
loop appears once per lookup-miss branch, as in the source's single loop
body. -/
def resolve_symbol_go (name : String) : ScopeId → Ctx → Nat → Option SymbolId
  | _, _, 0 => none
  | scope_id, ctx, fuel + 1 =>
      match alGet ctx.symbol_table.scope_bindings scope_id with
      | some scope_bindings =>
          match alGet scope_bindings name with
          | some symbol_id => some symbol_id
          | none =>
              match ctx.scope_tree.get_scope scope_id with
              | some scope =>
                  match scope.parent_id with
                  | some parent_id => resolve_symbol_go name parent_id ctx fuel
                  | none => none
              | none => none
      | none =>
          match ctx.scope_tree.get_scope scope_id with
          | some scope =>
              match scope.parent_id with
              | some parent_id => resolve_symbol_go name parent_id ctx fuel
              | none => none
          | none => none

/-- Resolves a symbol name through the scope chain (`resolve_symbol`). -/
def resolve_symbol (name : String) (current_scope : ScopeId) (ctx : Ctx) :
    Option SymbolId :=
  resolve_symbol_go name current_scope ctx (ctx.scope_tree.scopes.length + 1)

/-- Records a reference to a symbol, marking a capture when the reference's
scope differs from the declaring scope (`reference_symbol`). -/
def reference_symbol (name : String) (reference_type : ReferenceType)
    (ctx : Ctx) : Ctx :=
  match resolve_symbol name ctx.current_scope ctx with
  | some symbol_id =>
      let reference : SymbolReference :=
        { location := ctx.current_location
          reference_type := reference_type
          scope_id := ctx.current_scope }
      { ctx with
        symbol_table := { ctx.symbol_table with
          symbols := alModify ctx.symbol_table.symbols symbol_id
            (fun symbol =>
              let symbol := { symbol with references := symbol.references ++ [reference] }
              if symbol.scope_id ≠ ctx.current_scope then
                { symbol with is_captured := true }
              else symbol) } }
  | none => ctx

/-- Marks the most recently declared symbol of the current scope as
exported and non-renamable (`mark_last_declaration_as_exported`). -/
def mark_last_declaration_as_exported (ctx : Ctx) : Ctx :=
  match ctx.scope_tree.get_scope ctx.current_scope with
  | some scope =>
      match scope.bindings.getLast? with
      | some last_symbol_id =>
          { ctx with
            symbol_table := { ctx.symbol_table with
              symbols := alModify ctx.symbol_table.symbols last_symbol_id
                (fun symbol => { symbol with is_exported := true, is_renamable := false }) } }
      | none => ctx
  | none => ctx

/-- Pre-declares a `var` binding found while hoisting
(`hoist_pattern_declaration`); non-identifier patterns are skipped
(destructuring is unimplemented in the source). -/
def hoist_pattern_declaration (pattern : Pattern) (ctx : Ctx) : Ctx :=
  match pattern with
  | .Identifier id =>
      (declare_symbol id.name (.Variable .Var) ctx.current_scope ctx).2
  | _ => ctx

/-- Hoists a `var` declarator list during the hoisting phase. -/
def hoist_declarator_list (declarations : List VariableDeclarator) (ctx : Ctx) : Ctx :=
  match declarations with
  | [] => ctx
  | declarator :: rest =>
      hoist_declarator_list rest (hoist_pattern_declaration declarator.id ctx)

mutual

/-- Hoists `var` and function declarations inside one statement
(`hoist_statement_declarations`). -/
def hoist_statement_declarations (fuel : Nat) (statement : Statement) (ctx : Ctx) : Ctx :=
  match fuel with
  | 0 => ctx
  | fuel + 1 =>
      match statement with
      | .VariableDeclaration declarations kind =>
          match kind with
          | .Var => hoist_declarator_list declarations ctx
          | _ => ctx
      | .FunctionDeclaration id _ _ _ _ =>
          match id with
          | some function_id =>
              (declare_symbol function_id.name .Function ctx.current_scope ctx).2
          | none => ctx
      | .BlockStatement body => hoist_statement_list fuel body ctx
      | .IfStatement _ consequent alternate =>
          let ctx := hoist_statement_declarations fuel consequent ctx
          match alternate with
          | some alt => hoist_statement_declarations fuel alt ctx
          | none => ctx
      | .WhileStatement _ body => hoist_statement_declarations fuel body ctx
      | .ForStatement _ _ _ body => hoist_statement_declarations fuel body ctx
      | _ => ctx

/-- Hoisting over a statement list. -/
def hoist_statement_list (fuel : Nat) (statements : List Statement) (ctx : Ctx) : Ctx :=
  match fuel with
  | 0 => ctx
  | fuel + 1 =>
      match statements with
      | [] => ctx
      | stmt :: rest => hoist_statement_list fuel rest (hoist_statement_declarations fuel stmt ctx)

    end

/-- Import-specifier loop of `analyze_import_declaration`. -/
def analyze_import_declaration (specifiers : List ImportSpecifier) (ctx : Ctx) : Ctx :=
  match specifiers with
  | [] => ctx
  | specifier :: rest =>
      let ctx :=
        match specifier with
        | .ImportDefaultSpecifier local_ =>
            (declare_symbol local_.name .Import ctx.current_scope ctx).2
        | .ImportNamespaceSpecifier local_ =>
            (declare_symbol local_.name .Import ctx.current_scope ctx).2
        | .ImportSpecifier _ local_ =>
            (declare_symbol local_.name .Import ctx.current_scope ctx).2
      analyze_import_declaration rest ctx

/-- Declares an identifier pattern binding (`analyze_pattern_binding`);
non-identifier patterns are unimplemented in the source and skipped. -/
def analyze_pattern_binding (pattern : Pattern) (var_kind : VariableKind)
    (ctx : Ctx) : Ctx :=
  match pattern with
  | .Identifier id =>
      (declare_symbol id.name (.Variable var_kind) ctx.current_scope ctx).2
  | _ => ctx

mutual

/-- Analyzes one statement, updating scope information
(`analyze_statement`). -/
def analyze_statement (fuel : Nat) (statement : Statement) (ctx : Ctx) : Ctx :=
  match fuel with
  | 0 => ctx
  | fuel + 1 =>
      match statement with
      | .VariableDeclaration declarations kind =>
          analyze_variable_declaration fuel declarations kind ctx
      | .FunctionDeclaration id params body _ _ =>
          analyze_function_declaration fuel id params body ctx
      | .ClassDeclaration id super_class body =>
          analyze_class_declaration fuel id super_class body ctx
      | .ExpressionStatement expression => analyze_expression fuel expression ctx
      | .BlockStatement body => analyze_block_statement fuel body ctx
      | .ReturnStatement argument =>
          match argument with
          | some expr => analyze_expression fuel expr ctx
          | none => ctx
      | .IfStatement test consequent alternate =>
          let ctx := analyze_expression fuel test ctx
          let ctx := analyze_statement fuel consequent ctx
          match alternate with
          | some alt => analyze_statement fuel alt ctx
          | none => ctx
      | .WhileStatement test body =>
          analyze_statement fuel body (analyze_expression fuel test ctx)
      | .ForStatement init test update body =>
          analyze_for_statement fuel init test update body ctx
      | .ImportDeclaration specifiers _ =>
          analyze_import_declaration specifiers ctx
      | .ExportNamedDeclaration declaration _ _ =>
          match declaration with
          | some decl =>
              mark_last_declaration_as_exported (analyze_statement fuel decl ctx)
          | none => ctx

/-- Statement-list traversal used by block and function bodies. -/
def analyze_statement_list (fuel : Nat) (statements : List Statement) (ctx : Ctx) : Ctx :=
  match fuel with
  | 0 => ctx
  | fuel + 1 =>
      match statements with
      | [] => ctx
      | stmt :: rest => analyze_statement_list fuel rest (analyze_statement fuel stmt ctx)

/-- Analyzes a variable declaration (`analyze_variable_declaration`):
`var` declarators were already hoisted, `let`/`const` are declared here;
initializers are analyzed in either case. -/
def analyze_variable_declaration (fuel : Nat) (declarations : List VariableDeclarator)
    (kind : VariableDeclarationKind) (ctx : Ctx) : Ctx :=
  match fuel with
  | 0 => ctx
  | fuel + 1 =>
      match declarations with
      | [] => ctx
      | .mk pat init_opt :: rest =>
          let var_kind : VariableKind :=
            match kind with
            | .Var => .Var
            | .Let => .Let
            | .Const => .Const
          let ctx :=
            match kind with
            | .Var => ctx
            | _ => analyze_pattern_binding pat var_kind ctx
          let ctx :=
            match init_opt with
            | some init => analyze_expression fuel init ctx
            | none => ctx
          analyze_variable_declaration fuel rest kind ctx

/-- Analyzes a function declaration, creating and entering a new function
scope (`analyze_function_declaration`). -/
def analyze_function_declaration (fuel : Nat) (_id : Option Identifier)
    (params : List Pattern) (body : BlockStatement) (ctx : Ctx) : Ctx :=
  match fuel with
  | 0 => ctx
  | fuel + 1 =>
      match body with
      | .mk body_statements =>
          let (function_scope_id, ctx) :=
            create_scope .Function (some ctx.current_scope) ctx
          let previous_scope := ctx.current_scope
          let ctx := { ctx with current_scope := function_scope_id }
          let ctx := hoist_statement_list fuel body_statements ctx
          let ctx := analyze_param_list fuel params ctx
          let ctx := analyze_statement_list fuel body_statements ctx
          { ctx with current_scope := previous_scope }

/-- Parameter binding loop inside function analysis (parameters are
declared `var`-like). -/
def analyze_param_list (fuel : Nat) (params : List Pattern) (ctx : Ctx) : Ctx :=
  match fuel with
  | 0 => ctx
  | fuel + 1 =>
      match params with
      | [] => ctx
      | param :: rest => analyze_param_list fuel rest (analyze_pattern_binding param .Var ctx)

/-- Analyzes a class declaration (`analyze_class_declaration`). -/
def analyze_class_declaration (fuel : Nat) (id : Option Identifier)
    (super_class : Option Expression) (body : ClassBody) (ctx : Ctx) : Ctx :=
  match fuel with
  | 0 => ctx
  | fuel + 1 =>
      match body with
      | .mk elements =>
          let ctx :=
            match id with
            | some class_id => (declare_symbol class_id.name .Class ctx.current_scope ctx).2
            | none => ctx
          let ctx :=
            match super_class with
            | some super_expr => analyze_expression fuel super_expr ctx
            | none => ctx
          let (class_scope_id, ctx) := create_scope .Class (some ctx.current_scope) ctx
          let previous_scope := ctx.current_scope
          let ctx := { ctx with current_scope := class_scope_id }
          let ctx := analyze_class_element_list fuel elements ctx
          { ctx with current_scope := previous_scope }

/-- Class-element traversal (`analyze_class_element`). -/
def analyze_class_element (fuel : Nat) (element : ClassElement) (ctx : Ctx) : Ctx :=
  match fuel with
  | 0 => ctx
  | fuel + 1 =>
      match element with
      | .PropertyDefinition _ value _ _ =>
          match value with
          | some expr => analyze_expression fuel expr ctx
          | none => ctx
      | .MethodDefinition _ value _ _ _ => analyze_function_expression fuel value ctx

/-- Class-element list traversal. -/
def analyze_class_element_list (fuel : Nat) (elements : List ClassElement) (ctx : Ctx) : Ctx :=
  match fuel with
  | 0 => ctx
  | fuel + 1 =>
      match elements with
      | [] => ctx
      | element :: rest => analyze_class_element_list fuel rest (analyze_class_element fuel element ctx)

/-- Analyzes a block statement, creating a block scope only when the block
directly contains a `let`/`const` declaration (`analyze_block_statement`). -/
def analyze_block_statement (fuel : Nat) (body : List Statement) (ctx : Ctx) : Ctx :=
  match fuel with
  | 0 => ctx
  | fuel + 1 =>
      let needs_block_scope := body.any fun stmt =>
        match stmt with
        | .VariableDeclaration _ .Let => true
        | .VariableDeclaration _ .Const => true
        | _ => false
      if needs_block_scope then
        let (block_scope_id, ctx) := create_scope .Block (some ctx.current_scope) ctx
        let previous_scope := ctx.current_scope
        let ctx := { ctx with current_scope := block_scope_id }
        let ctx := hoist_statement_list fuel body ctx
        let ctx := analyze_statement_list fuel body ctx
        { ctx with current_scope := previous_scope }
      else
        analyze_statement_list fuel body ctx

/-- Analyzes a for statement (`analyze_for_statement`), creating a loop
scope when the initializer is a `let`/`const` declaration. -/
def analyze_for_statement (fuel : Nat) (init : Option ForInit) (test : Option Expression)
    (update : Option Expression) (body : Statement) (ctx : Ctx) : Ctx :=
  match fuel with
  | 0 => ctx
  | fuel + 1 =>
      let needs_loop_scope :=
        match init with
        | some (.VariableDeclaration _ .Let) => true
        | some (.VariableDeclaration _ .Const) => true
        | _ => false
      if needs_loop_scope then
        let (loop_scope_id, ctx) := create_scope .Block (some ctx.current_scope) ctx
        let previous_scope := ctx.current_scope
        let ctx := { ctx with current_scope := loop_scope_id }
        let ctx := analyze_for_parts fuel init test update body ctx
        { ctx with current_scope := previous_scope }
      else
        analyze_for_parts fuel init test update body ctx

/-- The shared init/test/update/body sequence of `analyze_for_statement`. -/
def analyze_for_parts (fuel : Nat) (init : Option ForInit) (test : Option Expression)
    (update : Option Expression) (body : Statement) (ctx : Ctx) : Ctx :=
  match fuel with
  | 0 => ctx
  | fuel + 1 =>
      let ctx :=
        match init with
        | some for_init => analyze_for_init fuel for_init ctx
        | none => ctx
      let ctx :=
        match test with
        | some test_expr => analyze_expression fuel test_expr ctx
        | none => ctx
      let ctx :=
        match update with
        | some update_expr => analyze_expression fuel update_expr ctx
        | none => ctx
      analyze_statement fuel body ctx

/-- Analyzes a for-loop initializer (`analyze_for_init`). -/
def analyze_for_init (fuel : Nat) (init : ForInit) (ctx : Ctx) : Ctx :=
  match fuel with
  | 0 => ctx
  | fuel + 1 =>
      match init with
      | .VariableDeclaration declarations kind =>
          analyze_variable_declaration fuel declarations kind ctx
      | .Expression expr => analyze_expression fuel expr ctx

/-- Analyzes an expression, recording identifier references
(`analyze_expression`).  Update, object, array, template and conditional
expressions fall into the source's `_ => Ok(())` arm. -/
def analyze_expression (fuel : Nat) (expression : Expression) (ctx : Ctx) : Ctx :=
  match fuel with
  | 0 => ctx
  | fuel + 1 =>
      match expression with
      | .Identifier id => reference_symbol id.name .Read ctx
      | .BinaryExpression left _ right =>
          analyze_expression fuel right (analyze_expression fuel left ctx)
      | .UnaryExpression _ argument _ => analyze_expression fuel argument ctx
      | .AssignmentExpression left _ right =>
          analyze_expression fuel right (analyze_assignment_target fuel left ctx)
      | .CallExpression callee arguments =>
          analyze_expression_list fuel arguments (analyze_call_callee fuel callee ctx)
      | .FunctionExpression func_expr => analyze_function_expression fuel func_expr ctx
      | .ArrowFunctionExpression params body _ => analyze_arrow_function fuel params body ctx
      | .MemberExpression object property _ =>
          analyze_member_property fuel property (analyze_expression fuel object ctx)
      | .Literal _ => ctx
      | _ => ctx

/-- The `if let Expression::Identifier(id) = left` branch of the
assignment-expression case: an identifier target is a `Write` reference,
anything else is analyzed as an expression. -/
def analyze_assignment_target (fuel : Nat) (left : Expression) (ctx : Ctx) : Ctx :=
  match fuel with
  | 0 => ctx
  | fuel + 1 =>
      match left with
      | .Identifier id => reference_symbol id.name .Write ctx
      | other => analyze_expression fuel other ctx

/-- The `if let Expression::Identifier(id) = callee` branch of the
call-expression case: an identifier callee is a `Call` reference. -/
def analyze_call_callee (fuel : Nat) (callee : Expression) (ctx : Ctx) : Ctx :=
  match fuel with
  | 0 => ctx
  | fuel + 1 =>
      match callee with
      | .Identifier id => reference_symbol id.name .Call ctx
      | other => analyze_expression fuel other ctx

/-- The member-expression property branch: an identifier property is a
`PropertyAccess` reference, anything else is analyzed as an expression. -/
def analyze_member_property (fuel : Nat) (property : Expression) (ctx : Ctx) : Ctx :=
  match fuel with
  | 0 => ctx
  | fuel + 1 =>
      match property with
      | .Identifier id => reference_symbol id.name .PropertyAccess ctx
      | other => analyze_expression fuel other ctx

/-- Expression-list traversal (call arguments). -/
def analyze_expression_list (fuel : Nat) (expressions : List Expression) (ctx : Ctx) : Ctx :=
  match fuel with
  | 0 => ctx
  | fuel + 1 =>
      match expressions with
      | [] => ctx
      | expr :: rest => analyze_expression_list fuel rest (analyze_expression fuel expr ctx)

/-- Analyzes a function expression (`analyze_function_expression`). -/
def analyze_function_expression (fuel : Nat) (func_expr : FunctionExpression) (ctx : Ctx) : Ctx :=
  match fuel with
  | 0 => ctx
  | fuel + 1 =>
      match func_expr with
      | .mk _ params body _ _ =>
          match body with
          | .mk body_statements =>
              let (function_scope_id, ctx) :=
                create_scope .Function (some ctx.current_scope) ctx
              let previous_scope := ctx.current_scope
              let ctx := { ctx with current_scope := function_scope_id }
              let ctx := hoist_statement_list fuel body_statements ctx
              let ctx := analyze_param_list fuel params ctx
              let ctx := analyze_statement_list fuel body_statements ctx
              { ctx with current_scope := previous_scope }

/-- Analyzes an arrow function (`analyze_arrow_function`). -/
def analyze_arrow_function (fuel : Nat) (params : List Pattern) (body : ArrowFunctionBody)
    (ctx : Ctx) : Ctx :=
  match fuel with
  | 0 => ctx
  | fuel + 1 =>
      let (function_scope_id, ctx) := create_scope .Function (some ctx.current_scope) ctx
      let previous_scope := ctx.current_scope
      let ctx := { ctx with current_scope := function_scope_id }
      let ctx :=
        match body with
        | .BlockStatement (.mk block_statements) => hoist_statement_list fuel block_statements ctx
        | _ => ctx
      let ctx := analyze_param_list fuel params ctx
      let ctx :=
        match body with
        | .Expression expr => analyze_expression fuel expr ctx
        | .BlockStatement (.mk block_statements) => analyze_statement_list fuel block_statements ctx
      { ctx with current_scope := previous_scope }

    end

/-- Scope analysis entry point (`analyze_scopes`): hoisting phase followed
by the normal walk of the program body. -/
def analyze_scopes (ast : Program) (ctx : Ctx) : Ctx :=
  let fuel := 4 * program_size ast + 8
  let ctx := hoist_statement_list fuel ast.body ctx
  analyze_statement_list fuel ast.body ctx

/-! ## Semantic analysis (from `src/analyzer/semantic_analysis.rs`) -/

/-- Context threaded through semantic analysis
(`SemanticAnalysisContext`). -/
structure SemCtx where
  current_scope : ScopeId
  scope_tree : ScopeTree
  symbol_table : SymbolTable
  semantic_flags : SemanticFlags
  config : AnalyzerConfig
  strict_mode : Bool
  in_arrow_function : Bool
deriving Repr, DecidableEq

/-- Walk of a parent scope's children looking for the first child of the
given type (`find_child_scope_of_type`; the source compares
`std::mem::discriminant`s, which for the argument-free `ScopeType` enum is
plain equality). -/
def find_child_in (sctx : SemCtx) (scope_type : ScopeType) :
    List ScopeId → Option ScopeId
  | [] => none
  | child_id :: rest =>
      match sctx.scope_tree.get_scope child_id with
      | some child_scope =>
          if child_scope.scope_type = scope_type then some child_id
          else find_child_in sctx scope_type rest
      | none => find_child_in sctx scope_type rest

/-- Finds a child scope of a specific type (`find_child_scope_of_type`). -/
def find_child_scope_of_type (parent_scope_id : ScopeId)
    (scope_type : ScopeType) (sctx : SemCtx) : Option ScopeId :=
  match sctx.scope_tree.get_scope parent_scope_id with
  | some parent_scope => find_child_in sctx scope_type parent_scope.children
  | none => none

/-- The symbol loop of `mark_scope_unsafe`: flags every binding of the
scope as an unrenamable symbol. -/
def mark_symbols_of_scope (reason : UnsafeReason)
    (bindings : List (String × SymbolId)) (sctx : SemCtx) : SemCtx :=
  match bindings with
  | [] => sctx
  | (_, symbol_id) :: rest =>
      let sctx :=
        { sctx with
          semantic_flags := { sctx.semantic_flags with
            unsafe_symbols := alInsert sctx.semantic_flags.unsafe_symbols symbol_id reason }
          symbol_table := { sctx.symbol_table with
            symbols := alModify sctx.symbol_table.symbols symbol_id
              (fun symbol => { symbol with is_renamable := false }) } }
      mark_symbols_of_scope reason rest sctx

/-- Marks a scope as unsafe for optimization (`mark_scope_unsafe` in the
source; renamed here): records the reason, clears the scope's `is_safe`
flag, and makes every symbol declared in the scope unrenamable. -/
def mark_scope_unsafe_and_symbols (scope_id : ScopeId) (reason : UnsafeReason)
    (sctx : SemCtx) : SemCtx :=
  let sctx :=
    { sctx with
      semantic_flags := { sctx.semantic_flags with
        unsafe_scopes := alInsert sctx.semantic_flags.unsafe_scopes scope_id reason }
      scope_tree := { sctx.scope_tree with
        scopes := alModify sctx.scope_tree.scopes scope_id
          (fun scope => { scope with is_safe := false }) } }
  match alGet sctx.symbol_table.scope_bindings scope_id with
  | some scope_bindings => mark_symbols_of_scope reason scope_bindings sctx
  | none => sctx

/-- The eval check on a call's callee
(`if let Expression::Identifier(id) = callee … id.name == "eval"`). -/
def check_eval_callee (callee : Expression) (sctx : SemCtx) : SemCtx :=
  match callee with
  | .Identifier id =>
      if id.name = "eval" then
        mark_scope_unsafe_and_symbols sctx.current_scope .EvalUsage sctx
      else sctx
  | _ => sctx

/-- The `window`/`global` computed-access check of the member-expression
case (`if let Expression::Identifier(obj_id) = object …`). -/
def check_indirect_global_access (object : Expression) (sctx : SemCtx) : SemCtx :=
  match object with
  | .Identifier obj_id =>
      if obj_id.name = "window" ∨ obj_id.name = "global" then
        mark_scope_unsafe_and_symbols sctx.current_scope .IndirectAccess sctx
      else sctx
  | _ => sctx

mutual

/-- Analyzes a statement for semantic issues
(`analyze_statement_semantics`). -/
def analyze_statement_semantics (fuel : Nat) (statement : Statement) (sctx : SemCtx) : SemCtx :=
  match fuel with
  | 0 => sctx
  | fuel + 1 =>
      match statement with
      | .VariableDeclaration declarations _ =>
          analyze_declarator_inits_semantics fuel declarations sctx
      | .FunctionDeclaration _ _ body _ _ =>
          match body with
          | .mk body_statements =>
              match find_child_scope_of_type sctx.current_scope .Function sctx with
              | some function_scope =>
                  let previous_scope := sctx.current_scope
                  let previous_arrow_state := sctx.in_arrow_function
                  let sctx := { sctx with current_scope := function_scope
                                          in_arrow_function := false }
                  let sctx := analyze_statement_list_semantics fuel body_statements sctx
                  { sctx with current_scope := previous_scope
                              in_arrow_function := previous_arrow_state }
              | none => sctx
      | .ClassDeclaration _ super_class body =>
          match body with
          | .mk elements =>
              let sctx :=
                match super_class with
                | some super_expr => analyze_expression_semantics fuel super_expr sctx
                | none => sctx
              match find_child_scope_of_type sctx.current_scope .Class sctx with
              | some class_scope =>
                  let previous_scope := sctx.current_scope
                  let sctx := { sctx with current_scope := class_scope }
                  let sctx := analyze_class_element_list_semantics fuel elements sctx
                  { sctx with current_scope := previous_scope }
              | none => sctx
      | .ExpressionStatement expression => analyze_expression_semantics fuel expression sctx
      | .BlockStatement body =>
          match find_child_scope_of_type sctx.current_scope .Block sctx with
          | some scope_id =>
              let previous_scope := sctx.current_scope
              let sctx := { sctx with current_scope := scope_id }
              let sctx := analyze_statement_list_semantics fuel body sctx
              { sctx with current_scope := previous_scope }
          | none => analyze_statement_list_semantics fuel body sctx
      | .ReturnStatement argument =>
          match argument with
          | some expr => analyze_expression_semantics fuel expr sctx
          | none => sctx
      | .IfStatement test consequent alternate =>
          let sctx := analyze_expression_semantics fuel test sctx
          let sctx := analyze_statement_semantics fuel consequent sctx
          match alternate with
          | some alt => analyze_statement_semantics fuel alt sctx
          | none => sctx
      | .WhileStatement test body =>
          analyze_statement_semantics fuel body (analyze_expression_semantics fuel test sctx)
      | .ForStatement init test update body =>
          match find_child_scope_of_type sctx.current_scope .Block sctx with
          | some scope_id =>
              let previous_scope := sctx.current_scope
              let sctx := { sctx with current_scope := scope_id }
              let sctx := analyze_for_parts_semantics fuel init test update body sctx
              { sctx with current_scope := previous_scope }
          | none => analyze_for_parts_semantics fuel init test update body sctx
      | .ImportDeclaration _ _ => sctx
      | .ExportNamedDeclaration declaration _ _ =>
          match declaration with
          | some decl => analyze_statement_semantics fuel decl sctx
          | none => sctx

/-- Statement-list walk of the semantic pass. -/
def analyze_statement_list_semantics (fuel : Nat) (statements : List Statement)
    (sctx : SemCtx) : SemCtx :=
  match fuel with
  | 0 => sctx
  | fuel + 1 =>
      match statements with
      | [] => sctx
      | stmt :: rest =>
          analyze_statement_list_semantics fuel rest (analyze_statement_semantics fuel stmt sctx)

/-- Initializer walk of the variable-declaration case of the semantic
pass. -/
def analyze_declarator_inits_semantics (fuel : Nat) (declarations : List VariableDeclarator)
    (sctx : SemCtx) : SemCtx :=
  match fuel with
  | 0 => sctx
  | fuel + 1 =>
      match declarations with
      | [] => sctx
      | .mk _ init_opt :: rest =>
          let sctx :=
            match init_opt with
            | some init => analyze_expression_semantics fuel init sctx
            | none => sctx
          analyze_declarator_inits_semantics fuel rest sctx

/-- Class-element walk of the semantic pass
(`analyze_class_element_semantics`). -/
def analyze_class_element_semantics (fuel : Nat) (element : ClassElement) (sctx : SemCtx) : SemCtx :=
  match fuel with
  | 0 => sctx
  | fuel + 1 =>
      match element with
      | .PropertyDefinition _ value _ _ =>
          match value with
          | some expr => analyze_expression_semantics fuel expr sctx
          | none => sctx
      | .MethodDefinition _ value _ _ _ =>
          analyze_function_expression_semantics fuel value sctx

/-- Class-element list walk of the semantic pass. -/
def analyze_class_element_list_semantics (fuel : Nat) (elements : List ClassElement)
    (sctx : SemCtx) : SemCtx :=
  match fuel with
  | 0 => sctx
  | fuel + 1 =>
      match elements with
      | [] => sctx
      | element :: rest =>
          analyze_class_element_list_semantics fuel rest (analyze_class_element_semantics fuel element sctx)

/-- The shared init/test/update/body sequence of the for-statement case of
the semantic pass. -/
def analyze_for_parts_semantics (fuel : Nat) (init : Option ForInit) (test : Option Expression)
    (update : Option Expression) (body : Statement) (sctx : SemCtx) : SemCtx :=
  match fuel with
  | 0 => sctx
  | fuel + 1 =>
      let sctx :=
        match init with
        | some for_init => analyze_for_init_semantics fuel for_init sctx
        | none => sctx
      let sctx :=
        match test with
        | some test_expr => analyze_expression_semantics fuel test_expr sctx
        | none => sctx
      let sctx :=
        match update with
        | some update_expr => analyze_expression_semantics fuel update_expr sctx
        | none => sctx
      analyze_statement_semantics fuel body sctx

/-- For-initializer walk of the semantic pass
(`analyze_for_init_semantics`). -/
def analyze_for_init_semantics (fuel : Nat) (init : ForInit) (sctx : SemCtx) : SemCtx :=
  match fuel with
  | 0 => sctx
  | fuel + 1 =>
      match init with
      | .VariableDeclaration declarations _ =>
          analyze_declarator_inits_semantics fuel declarations sctx
      | .Expression expr => analyze_expression_semantics fuel expr sctx

/-- Analyzes an expression for semantic issues
(`analyze_expression_semantics`): `eval` identifiers and calls mark the
current scope `EvalUsage`; `this` in a non-arrow function marks
`DynamicThis`; computed member access on `window`/`global` marks
`IndirectAccess`.  Update, object, array and template expressions fall
into the source's `_ => Ok(())` arm. -/
def analyze_expression_semantics (fuel : Nat) (expression : Expression) (sctx : SemCtx) : SemCtx :=
  match fuel with
  | 0 => sctx
  | fuel + 1 =>
      match expression with
      | .Identifier id =>
          if id.name = "eval" then
            mark_scope_unsafe_and_symbols sctx.current_scope .EvalUsage sctx
          else sctx
      | .CallExpression callee arguments =>
          let sctx := check_eval_callee callee sctx
          let sctx := analyze_expression_semantics fuel callee sctx
          analyze_expression_list_semantics fuel arguments sctx
      | .ThisExpression =>
          if sctx.in_arrow_function then sctx
          else mark_scope_unsafe_and_symbols sctx.current_scope .DynamicThis sctx
      | .BinaryExpression left _ right =>
          analyze_expression_semantics fuel right (analyze_expression_semantics fuel left sctx)
      | .UnaryExpression _ argument _ => analyze_expression_semantics fuel argument sctx
      | .AssignmentExpression left _ right =>
          analyze_expression_semantics fuel right (analyze_expression_semantics fuel left sctx)
      | .MemberExpression object property computed =>
          let sctx := analyze_expression_semantics fuel object sctx
          if computed then
            let sctx := analyze_expression_semantics fuel property sctx
            check_indirect_global_access object sctx
          else
            analyze_member_property_semantics fuel property sctx
      | .FunctionExpression func_expr =>
          analyze_function_expression_semantics fuel func_expr sctx
      | .ArrowFunctionExpression _ body _ =>
          match find_child_scope_of_type sctx.current_scope .Function sctx with
          | some function_scope =>
              let previous_scope := sctx.current_scope
              let previous_arrow_state := sctx.in_arrow_function
              let sctx := { sctx with current_scope := function_scope
                                      in_arrow_function := true }
              let sctx :=
                match body with
                | .Expression expr => analyze_expression_semantics fuel expr sctx
                | .BlockStatement (.mk block_statements) =>
                    analyze_statement_list_semantics fuel block_statements sctx
              { sctx with current_scope := previous_scope
                          in_arrow_function := previous_arrow_state }
          | none => sctx
      | .ConditionalExpression test consequent alternate =>
          let sctx := analyze_expression_semantics fuel test sctx
          let sctx := analyze_expression_semantics fuel consequent sctx
          analyze_expression_semantics fuel alternate sctx
      | .Literal _ => sctx
      | _ => sctx

/-- The non-computed member-property branch: an identifier property is
static access (safe, nothing recorded); anything else is analyzed. -/
def analyze_member_property_semantics (fuel : Nat) (property : Expression) (sctx : SemCtx) : SemCtx :=
  match fuel with
  | 0 => sctx
  | fuel + 1 =>
      match property with
      | .Identifier _ => sctx
      | other => analyze_expression_semantics fuel other sctx

/-- Expression-list walk of the semantic pass (call arguments). -/
def analyze_expression_list_semantics (fuel : Nat) (expressions : List Expression)
    (sctx : SemCtx) : SemCtx :=
  match fuel with
  | 0 => sctx
  | fuel + 1 =>
      match expressions with
      | [] => sctx
      | expr :: rest =>
          analyze_expression_list_semantics fuel rest (analyze_expression_semantics fuel expr sctx)

/-- Function-expression walk of the semantic pass
(`analyze_function_expression_semantics`). -/
def analyze_function_expression_semantics (fuel : Nat) (func_expr : FunctionExpression)
    (sctx : SemCtx) : SemCtx :=
  match fuel with
  | 0 => sctx
  | fuel + 1 =>
      match func_expr with
      | .mk _ _ body _ _ =>
          match body with
          | .mk body_statements =>
              match find_child_scope_of_type sctx.current_scope .Function sctx with
              | some function_scope =>
                  let previous_scope := sctx.current_scope
                  let previous_arrow_state := sctx.in_arrow_function
                  let sctx := { sctx with current_scope := function_scope
                                          in_arrow_function := false }
                  let sctx := analyze_statement_list_semantics fuel body_statements sctx
                  { sctx with current_scope := previous_scope
                              in_arrow_function := previous_arrow_state }
              | none => sctx

    end

/-- One step of the upward-propagation loop of
`propagate_unsafe_flag_upward`.  The source's `while` loop terminates
because the analyzer's scope tree is acyclic; the fuel (instantiated with
one more than the number of scopes) bounds the length of any acyclic
parent chain. -/
def propagate_upward_go : Nat → ScopeId → SemCtx → SemCtx
  | 0, _, sctx => sctx
  | fuel + 1, current_scope, sctx =>
      match sctx.scope_tree.get_scope current_scope with
      | some scope =>
          match scope.parent_id with
          | some parent_id =>
              match alGet sctx.semantic_flags.unsafe_scopes current_scope with
              | some reason =>
                  match reason with
                  | .EvalUsage =>
                      let sctx :=
                        if alContains sctx.semantic_flags.unsafe_scopes parent_id then sctx
                        else mark_scope_unsafe_and_symbols parent_id .EvalUsage sctx
                      propagate_upward_go fuel parent_id sctx
                  | .WithStatement =>
                      let sctx :=
                        if alContains sctx.semantic_flags.unsafe_scopes parent_id then sctx
                        else mark_scope_unsafe_and_symbols parent_id .WithStatement sctx
                      propagate_upward_go fuel parent_id sctx
                  | .DynamicThis => sctx
                  | .IndirectAccess => sctx
                  | .ExternalDependency =>
                      let sctx :=
                        if alContains sctx.semantic_flags.unsafe_scopes parent_id then sctx
                        else mark_scope_unsafe_and_symbols parent_id .ExternalDependency sctx
                      propagate_upward_go fuel parent_id sctx
                  | .Unknown =>
                      let sctx :=
                        if alContains sctx.semantic_flags.unsafe_scopes parent_id then sctx
                        else mark_scope_unsafe_and_symbols parent_id .Unknown sctx
                      propagate_upward_go fuel parent_id sctx
              | none => sctx
          | none => sctx
      | none => sctx

/-- Propagates an unsafe flag from a scope to its ancestors
(`propagate_unsafe_flag_upward`). -/
def propagate_unsafe_flag_upward (scope_id : ScopeId) (sctx : SemCtx) : SemCtx :=
  propagate_upward_go (sctx.scope_tree.scopes.length + 1) scope_id sctx

/-- The key loop of `propagate_unsafe_flags` over the snapshot of unsafe
scope ids. -/
def propagate_keys (keys : List ScopeId) (sctx : SemCtx) : SemCtx :=
  match keys with
  | [] => sctx
  | scope_id :: rest => propagate_keys rest (propagate_unsafe_flag_upward scope_id sctx)

/-- Propagates unsafe flags upward through the scope chain
(`propagate_unsafe_flags`; the source iterates the keys of the
`unsafe_scopes` HashMap in unspecified order, modelled here in insertion
order). -/
def propagate_unsafe_flags (sctx : SemCtx) : SemCtx :=
  propagate_keys (sctx.semantic_flags.unsafe_scopes.map (·.1)) sctx

/-- Semantic-analysis entry point (`analyze_semantics`): walks the program
body and then propagates unsafe flags upward. -/
def analyze_semantics (ast : Program) (sctx : SemCtx) : SemCtx :=
  let fuel := 4 * program_size ast + 8
  let sctx := analyze_statement_list_semantics fuel ast.body sctx
  propagate_unsafe_flags sctx

/-! ## Analyzer entry point (from `src/analyzer/mod.rs`) -/

/-- Main analysis function (`analyze_ast`): scope analysis followed by
semantic analysis.  Both sub-passes return `Ok` on every path in the
source, so this always produces `Except.ok`; the `Except` wrapper mirrors
the `AnalysisResult<SemanticAnalysis>` signature. -/
def analyze_ast (ast : Program) (config : AnalyzerConfig) :
    Except AnalysisError SemanticAnalysis :=
  let ctx : Ctx :=
    { current_scope := 0
      scope_tree := ScopeTree.new .Global
      symbol_table := SymbolTable.new
      semantic_flags := { unsafe_scopes := [], unsafe_symbols := [], global_references := [] }
      config := config
      current_location := { line := 1, column := 0, offset := 0 } }
  let ctx := analyze_scopes ast ctx
  let sctx : SemCtx :=
    { current_scope := ctx.scope_tree.root_scope_id
      scope_tree := ctx.scope_tree
      symbol_table := ctx.symbol_table
      semantic_flags := ctx.semantic_flags
      config := config
      strict_mode := config.strict_mode
      in_arrow_function := false }
  let sctx := analyze_semantics ast sctx
  let metadata : AnalysisMetadata :=
    { scope_count := sctx.scope_tree.next_scope_id
      symbol_count := sctx.symbol_table.next_symbol_id
      capture_count := (sctx.symbol_table.symbols.filter (fun s => s.2.is_captured)).length
      export_count := (sctx.symbol_table.symbols.filter (fun s => s.2.is_exported)).length
      analysis_time_ms := 0 }
  .ok { symbol_table := sctx.symbol_table
        scope_tree := sctx.scope_tree
        semantic_flags := sctx.semantic_flags
        metadata := metadata }

/-! ## Transformer (from `src/transformer/`) -/

/-- Transformer configuration (`TransformerConfig`). -/
structure TransformerConfig where
  enable_identifier_renaming : Bool
  enable_dead_code_elimination : Bool
  enable_expression_simplification : Bool
  enable_property_minification : Bool
  enable_function_minification : Bool
  enable_rollback : Bool
  verbose : Bool
  aggressive_optimization : Bool
deriving Repr, DecidableEq

/-- Default transformer configuration: all five passes and rollback
enabled. -/
def TransformerConfig.default : TransformerConfig :=
  { enable_identifier_renaming := true
    enable_dead_code_elimination := true
    enable_expression_simplification := true
    enable_property_minification := true
    enable_function_minification := true
    enable_rollback := true
    verbose := false
    aggressive_optimization := false }

/-- Errors that can occur during transformation (`TransformError`). -/
inductive TransformError where
  | IdentifierRenamingError (msg : String)
  | DeadCodeEliminationError (msg : String)
  | ExpressionSimplificationError (msg : String)
  | PropertyMinificationError (msg : String)
  | FunctionMinificationError (msg : String)
  | RollbackRequired (msg : String)
  | InvalidState (msg : String)
deriving Repr, DecidableEq

/-- Statistics about the transformation process (`TransformationStats`);
`transformation_time_ms` is wall-clock time in the source and is modelled
as 0. -/
structure TransformationStats where
  identifiers_renamed : Nat
  dead_statements_removed : Nat
  expressions_simplified : Nat
  properties_renamed : Nat
  functions_inlined : Nat
  rollbacks_performed : Nat
  transformation_time_ms : Nat
deriving Repr, DecidableEq

/-- Zero-initialised statistics (`TransformationStats::default`). -/
def TransformationStats.default : TransformationStats :=
  { identifiers_renamed := 0, dead_statements_removed := 0
    expressions_simplified := 0, properties_renamed := 0
    functions_inlined := 0, rollbacks_performed := 0
    transformation_time_ms := 0 }

/-- Result of identifier renaming (`IdentifierRenameResult`); the
`mapping` HashMap is an association list. -/
structure IdentifierRenameResult where
  renamed_count : Nat
  mapping : List (String × String)
  warnings : List String
deriving Repr, DecidableEq

/-- Pass 1, `rename_identifiers` in `identifier_renaming.rs`.  The source
is an explicit placeholder (its body is a `TODO`): it ignores the AST
(taken as `_ast: &mut Program` and never touched), ignores the symbol
table except for a verbose log, and always returns zero renames with an
empty mapping and a fixed warning. -/
def rename_identifiers (_ast : Program) (_symbol_table : SymbolTable)
    (_config : TransformerConfig) :
    Except TransformError IdentifierRenameResult :=
  .ok { renamed_count := 0
        mapping := []
        warnings := ["Identifier renaming not yet fully implemented"] }

/-- Result of dead-code elimination (`DeadCodeEliminationResult`). -/
structure DeadCodeEliminationResult where
  removed_count : Nat
  warnings : List String
deriving Repr, DecidableEq

/-- Pass 2, `eliminate_dead_code` in `dead_code_elimination.rs`: a
placeholder that removes nothing. -/
def eliminate_dead_code (_ast : Program) (_symbol_table : SymbolTable)
    (_config : TransformerConfig) :
    Except TransformError DeadCodeEliminationResult :=
  .ok { removed_count := 0
        warnings := ["Dead code elimination not yet fully implemented"] }

/-- Result of expression simplification
(`ExpressionSimplificationResult`). -/
structure ExpressionSimplificationResult where
  simplified_count : Nat
  rollbacks : Nat
  warnings : List String
deriving Repr, DecidableEq

/-- Pass 3, `simplify_expressions` in `expression_simplification.rs`: a
placeholder that simplifies nothing. -/
def simplify_expressions (_ast : Program) (_config : TransformerConfig) :
    Except TransformError ExpressionSimplificationResult :=
  .ok { simplified_count := 0, rollbacks := 0
        warnings := ["Expression simplification not yet fully implemented"] }

/-- Result of property minification (`PropertyMinificationResult`). -/
structure PropertyMinificationResult where
  renamed_count : Nat
  warnings : List String
deriving Repr, DecidableEq

/-- Pass 4, `minify_properties` in `property_minification.rs`: a
placeholder that renames nothing. -/
def minify_properties (_ast : Program) (_analysis_result : SemanticAnalysis)
    (_config : TransformerConfig) :
    Except TransformError PropertyMinificationResult :=
  .ok { renamed_count := 0
        warnings := ["Property minification not yet implemented"] }

/-- Result of function minification (`FunctionMinificationResult`). -/
structure FunctionMinificationResult where
  inlined_count : Nat
  warnings : List String
deriving Repr, DecidableEq

/-- Pass 5, `minify_functions` in `function_minification.rs`: a
placeholder that inlines nothing. -/
def minify_functions (_ast : Program) (_analysis_result : SemanticAnalysis)
    (_config : TransformerConfig) :
    Except TransformError FunctionMinificationResult :=
  .ok { inlined_count := 0
        warnings := ["Function minification not yet implemented"] }

/-- Rollback configuration (`RollbackConfig` in `rollback.rs`). -/
structure RollbackConfig where
  auto_rollback : Bool
  max_checkpoints : Nat
  verbose : Bool
deriving Repr, DecidableEq

/-- A transformation checkpoint (`TransformationCheckpoint`). -/
structure TransformationCheckpoint where
  original_ast : Program
  pass_name : String
  reason : String

/-- Rollback manager (`RollbackManager`). -/
structure RollbackManager where
  config : RollbackConfig
  checkpoints : List TransformationCheckpoint

/-- Creates a rollback manager (`RollbackManager::new`). -/
def RollbackManager.new (config : RollbackConfig) : RollbackManager :=
  { config := config, checkpoints := [] }

/-- Captures a checkpoint, keeping at most `max_checkpoints`
(`RollbackManager::create_checkpoint`). -/
def RollbackManager.create_checkpoint (m : RollbackManager) (ast : Program)
    (pass_name : String) (reason : String) : RollbackManager :=
  let checkpoints := m.checkpoints ++
    [{ original_ast := ast, pass_name := pass_name, reason := reason }]
  let checkpoints :=
    if m.config.max_checkpoints < checkpoints.length then checkpoints.drop 1
    else checkpoints
  { m with checkpoints := checkpoints }

/-- Result of the transformation process (`TransformationResult`). -/
structure TransformationResult where
  transformed_ast : Program
  stats : TransformationStats
  identifier_mapping : List (String × String)
  warnings : List String

/-- The transformer (`Transformer`). -/
structure Transformer where
  config : TransformerConfig
  analysis_result : SemanticAnalysis
  rollback_manager : RollbackManager

/-- Creates a transformer (`Transformer::new`). -/
def Transformer.new (config : TransformerConfig)
    (analysis_result : SemanticAnalysis) : Transformer :=
  let rollback_config : RollbackConfig :=
    { auto_rollback := config.enable_rollback
      max_checkpoints := 10
      verbose := config.verbose }
  { config := config
    analysis_result := analysis_result
    rollback_manager := RollbackManager.new rollback_config }

/-- Runs all enabled transformation passes (`Transformer::transform`).
The source takes `&mut self` (for the rollback manager) and `mut ast`; the
embedding returns the result together with the updated transformer.
`transformation_time_ms` is wall-clock time in the source, modelled as
0. -/
def Transformer.transform (t : Transformer) (ast : Program) :
    Except TransformError (TransformationResult × Transformer) := do
  let stats := TransformationStats.default
  let identifier_mapping : List (String × String) := []
  let warnings : List String := []
  -- Pass 1: Identifier Renaming
  let (stats, identifier_mapping, warnings, ast, t) ←
    if t.config.enable_identifier_renaming then do
      let t :=
        if t.config.enable_rollback then
          let m := t.rollback_manager.create_checkpoint ast "identifier_renaming" "Before identifier renaming transformation"
          { t with rollback_manager := m }
        else t
      let rename_result ← rename_identifiers ast t.analysis_result.symbol_table t.config
      pure ({ stats with identifiers_renamed := rename_result.renamed_count },
            identifier_mapping ++ rename_result.mapping,
            warnings ++ rename_result.warnings, ast, t)
    else pure (stats, identifier_mapping, warnings, ast, t)
  -- Pass 2: Dead Code Elimination
  let (stats, warnings, ast, t) ←
    if t.config.enable_dead_code_elimination then do
      let t :=
        if t.config.enable_rollback then
          let m := t.rollback_manager.create_checkpoint ast "dead_code_elimination" "Before dead code elimination transformation"
          { t with rollback_manager := m }
        else t
      let dce_result ← eliminate_dead_code ast t.analysis_result.symbol_table t.config
      pure ({ stats with dead_statements_removed := dce_result.removed_count },
            warnings ++ dce_result.warnings, ast, t)
    else pure (stats, warnings, ast, t)
  -- Pass 3: Expression Simplification
  let (stats, warnings, ast, t) ←
    if t.config.enable_expression_simplification then do
      let t :=
        if t.config.enable_rollback then
          let m := t.rollback_manager.create_checkpoint ast "expression_simplification" "Before expression simplification transformation"
          { t with rollback_manager := m }
        else t
      let simplify_result ← simplify_expressions ast t.config
      pure ({ stats with
                expressions_simplified := simplify_result.simplified_count
                rollbacks_performed := stats.rollbacks_performed + simplify_result.rollbacks },
            warnings ++ simplify_result.warnings, ast, t)
    else pure (stats, warnings, ast, t)
  -- Pass 4: Property Minification
  let (stats, warnings, ast, t) ←
    if t.config.enable_property_minification then do
      let prop_result ← minify_properties ast t.analysis_result t.config
      pure ({ stats with properties_renamed := prop_result.renamed_count },
            warnings ++ prop_result.warnings, ast, t)
    else pure (stats, warnings, ast, t)
  -- Pass 5: Function Minification
  let (stats, warnings, ast, t) ←
    if t.config.enable_function_minification then do
      let func_result ← minify_functions ast t.analysis_result t.config
      pure ({ stats with functions_inlined := func_result.inlined_count },
            warnings ++ func_result.warnings, ast, t)
    else pure (stats, warnings, ast, t)
  pure ({ transformed_ast := ast
          stats := stats
          identifier_mapping := identifier_mapping
          warnings := warnings }, t)

/-- Convenience entry point with the default configuration
(`transform_ast`). -/
def transform_ast (ast : Program) (analysis_result : SemanticAnalysis) :
    Except TransformError TransformationResult := do
  let config := TransformerConfig.default
  let transformer := Transformer.new config analysis_result
  let (result, _) ← transformer.transform ast
  pure result

/-! ## Generator configuration and printer (from `src/generator/`) -/

/-- ECMAScript target version. -/
inductive EcmaScriptVersion where
  | ES5 | ES2015 | Latest
deriving Repr, DecidableEq

/-- Output format style. -/
inductive OutputFormat where
  | Compact | Readable | Pretty
deriving Repr, DecidableEq

/-- Semicolon insertion strategy. -/
inductive SemicolonStrategy where
  | Auto | Always | Remove
deriving Repr, DecidableEq

/-- Quote character strategy. -/
inductive QuoteStrategy where
  | Auto | Single | Double
deriving Repr, DecidableEq

/-- Comment preservation level. -/
inductive CommentPreservation where
  | None | License | All
deriving Repr, DecidableEq

/-- Source map generation mode. -/
inductive SourceMapMode where
  | None | File | Inline | Indexed
deriving Repr, DecidableEq

/-- Mapping granularity for source maps. -/
inductive MappingGranularity where
  | Token | Statement
deriving Repr, DecidableEq

/-- Newline style for output. -/
inductive NewlineStyle where
  | Lf | Crlf
deriving Repr, DecidableEq

/-- Character set escape mode. -/
inductive CharsetEscapes where
  | Minimal | AsciiOnly
deriving Repr, DecidableEq

/-- Generator configuration (`GeneratorConfig`). -/
structure GeneratorConfig where
  ecma : EcmaScriptVersion
  format : OutputFormat
  semicolon : SemicolonStrategy
  quote : QuoteStrategy
  preserve_comments : CommentPreservation
  source_map : SourceMapMode
  source_root : Option String
  include_sources_content : Bool
  mapping_granularity : MappingGranularity
  newline : NewlineStyle
  max_line_len : Option Nat
  charset_escapes : CharsetEscapes
deriving Repr, DecidableEq

/-- Default generator configuration: Compact format, Auto semicolons,
Auto quotes (`GeneratorConfig::default`). -/
def GeneratorConfig.default : GeneratorConfig :=
  { ecma := .Latest
    format := .Compact
    semicolon := .Auto
    quote := .Auto
    preserve_comments := .None
    source_map := .None
    source_root := none
    include_sources_content := false
    mapping_granularity := .Token
    newline := .Lf
    max_line_len := none
    charset_escapes := .Minimal }

/-- Generator error types (`GeneratorError`); the `IoError`/`JsonError`
variants wrap external library types and are not modelled (no embedded
path constructs them). -/
inductive GeneratorError where
  | MalformedAst (message : String) (node_type : String)
  | UnsupportedNode (target : String) (node_type : String)
  | SourceMapError (message : String)
  | PathSecurityError (path : String)
  | MissingRequiredField (field : String) (node_type : String)
  | InvalidPrecedence (operator : String) (context : String)
  | StringProcessingError (message : String) (content : String)
  | NumericValueError (message : String) (value : String)
  | AsiHazard (message : String) (line : Nat) (column : Nat)
  | MemoryLimitExceeded (current_usage : Nat) (limit : Nat)
  | OutputSizeLimitExceeded (current_size : Nat) (limit : Nat)
  | GenerationTimeout (timeout_ms : Nat)
  | InvalidConfiguration (message : String)
  | TemplateLiteralError (message : String) (template : String)
  | IdentifierError (message : String) (identifier : String)
deriving Repr, DecidableEq

/-- Result alias for generator operations (`GeneratorResult<T>`). -/
abbrev GeneratorResult (α : Type) := Except GeneratorError α

/-- Operator precedence levels (`Precedence`; each variant carries the
source's explicit discriminant via `val`). -/
inductive Precedence where
  | Sequence | Assignment | Conditional | LogicalOr | LogicalAnd
  | BitwiseOr | BitwiseXor | BitwiseAnd | Equality | Relational
  | Shift | Additive | Multiplicative | Exponentiation | Unary
  | Postfix | Member
deriving Repr, DecidableEq

/-- The explicit discriminant values of `Precedence`; the source's
`PartialOrd` compares these. -/
def Precedence.val : Precedence → Nat
  | .Sequence => 1
  | .Assignment => 3
  | .Conditional => 4
  | .LogicalOr => 5
  | .LogicalAnd => 6
  | .BitwiseOr => 7
  | .BitwiseXor => 8
  | .BitwiseAnd => 9
  | .Equality => 10
  | .Relational => 11
  | .Shift => 12
  | .Additive => 13
  | .Multiplicative => 14
  | .Exponentiation => 15
  | .Unary => 16
  | .Postfix => 17
  | .Member => 19

/-- Token types for ASI detection (`TokenType`). -/
inductive TokenType where
  | Identifier | Number | String | CloseParen | CloseBracket
  | Increment | Decrement | Regex
deriving Repr, DecidableEq

/-- Printer state (`Printer`).  The pre-allocated `string_buffer`, the
`indent_cache` and the `chars_written` counter are performance artifacts
with no effect on the produced output and are omitted. -/
structure Printer where
  config : GeneratorConfig
  output : String
  warnings : List String
  prev_token : Option TokenType
  indent_level : Nat
deriving Repr, DecidableEq

/-- Creates a printer (`Printer::new`). -/
def Printer.new (config : GeneratorConfig) : Printer :=
  { config := config, output := "", warnings := [], prev_token := none
    indent_level := 0 }

/-- Appends to the output buffer (`Printer::write`; the source's
`GeneratorResult<()>` wrapper returns `Ok` on every path).  The source
counts bytes via `String::len`; output lengths are modelled as character
counts, which agree on the ASCII output all claims concern. -/
def Printer.write (p : Printer) (s : String) : Printer :=
  { p with output := p.output ++ s }

/-- Space emission (`print_space_if_needed`): every format branch writes
one space. -/
def Printer.print_space_if_needed (p : Printer) : Printer :=
  match p.config.format with
  | .Compact => p.write " "
  | .Readable => p.write " "
  | .Pretty => p.write " "

/-- Newline emission (`print_newline_if_needed`): nothing in compact
mode. -/
def Printer.print_newline_if_needed (p : Printer) : Printer :=
  match p.config.format with
  | .Compact => p
  | _ =>
      match p.config.newline with
      | .Lf => p.write "\n"
      | .Crlf => p.write "\r\n"

/-- Indentation emission (`print_indent_if_needed`): pretty format only. -/
def Printer.print_indent_if_needed (p : Printer) : Printer :=
  match p.config.format with
  | .Pretty => p.write (String.join (List.replicate p.indent_level "  "))
  | _ => p

/-- ASI decision (`needs_semicolon_for_asi`): the source always returns
`true` ("for safety, always emit semicolons in auto mode for now"). -/
def Printer.needs_semicolon_for_asi (_p : Printer) : Bool := true

/-- Semicolon emission (`print_semicolon_if_needed`). -/
def Printer.print_semicolon_if_needed (p : Printer) : Printer :=
  match p.config.semicolon with
  | .Always => p.write ";"
  | .Auto => if p.needs_semicolon_for_asi then p.write ";" else p
  | .Remove => p

/-- Assignment operator emission (`print_assignment_operator`). -/
def Printer.print_assignment_operator (p : Printer) : Printer :=
  match p.config.format with
  | .Compact => p.write "="
  | _ => p.write " = "

/-- Statement separator (`print_statement_separator`): nothing in compact
mode, a newline otherwise. -/
def Printer.print_statement_separator (p : Printer) : Printer :=
  match p.config.format with
  | .Compact => p
  | _ => p.print_newline_if_needed

/-- Quote-character selection (`choose_quote_character`): under `Auto`,
counts `'` and `"` occurrences and picks single quote when
`single_count <= double_count`, double quote otherwise. -/
def choose_quote_character (config : GeneratorConfig) (content : String) : Char :=
  match config.quote with
  | .Single => '\''
  | .Double => '"'
  | .Auto =>
      let single_count := content.data.countP (fun c => c = '\'')
      let double_count := content.data.countP (fun c => c = '"')
      if single_count ≤ double_count then '\'' else '"'

/-- String escaping (`escape_string`): escapes line terminators, tabs,
backslash and the chosen delimiter. -/
def escape_string_go (quote_char : Char) : List Char → String
  | [] => ""
  | ch :: rest =>
      let piece :=
        if ch = '\n' then "\\n"
        else if ch = '\r' then "\\r"
        else if ch = '\t' then "\\t"
        else if ch = '\\' then "\\\\"
        else if ch = quote_char then String.singleton '\\' ++ String.singleton ch
        else String.singleton ch
      piece ++ escape_string_go quote_char rest

/-- String escaping entry point (`escape_string`). -/
def escape_string (content : String) (quote_char : Char) : String :=
  escape_string_go quote_char content.data

/-- Template-element escaping (`escape_template_element`): escapes
backticks, backslashes and `${` openers (the peeked pair). -/
def escape_template_element_go : List Char → String
  | [] => ""
  | '$' :: '{' :: rest => "\\$\x7b" ++ escape_template_element_go rest
  | ch :: rest =>
      let piece :=
        if ch = '`' then "\\`"
        else if ch = '\\' then "\\\\"
        else String.singleton ch
      piece ++ escape_template_element_go rest

/-- Template-element escaping entry point (`escape_template_element`). -/
def escape_template_element (content : String) : String :=
  escape_template_element_go content.data

/-- Number canonicalization (`canonicalize_number`).  The source tests
`value == value.trunc() && value.abs() < 1e15` and prints `value as i64`
in that case, `value` (f64 `Display`) otherwise.  On the integer-valued
doubles of this model the first conjunct always holds, the `as i64` cast
is exact below `1e15`, and both `i64` and `f64` `Display` print the plain
decimal form, mirrored by `toString`. -/
def canonicalize_number (value : Int) : String :=
  if value.natAbs < 1000000000000000 then toString value else toString value

/-- Identifier emission (`print_identifier`). -/
def Printer.print_identifier (p : Printer) (id : Identifier) : Printer :=
  let p := p.write id.name
  { p with prev_token := some .Identifier }

/-- String-literal emission (`print_string_literal`). -/
def Printer.print_string_literal (p : Printer) (lit : StringLiteral) : Printer :=
  let quote_char := choose_quote_character p.config lit.value
  let escaped := escape_string lit.value quote_char
  let p := p.write (String.singleton quote_char ++ escaped ++ String.singleton quote_char)
  { p with prev_token := some .String }

/-- Number-literal emission (`print_number_literal`). -/
def Printer.print_number_literal (p : Printer) (lit : NumberLiteral) : Printer :=
  let p := p.write (canonicalize_number lit.value)
  { p with prev_token := some .Number }

/-- Boolean-literal emission (`print_boolean_literal`). -/
def Printer.print_boolean_literal (p : Printer) (lit : BooleanLiteral) : Printer :=
  let p := p.write (if lit.value then "true" else "false")
  { p with prev_token := some .Identifier }

/-- Null-literal emission (`print_null_literal`). -/
def Printer.print_null_literal (p : Printer) : Printer :=
  let p := p.write "null"
  { p with prev_token := some .Identifier }

/-- Regexp-literal emission (`print_regexp_literal`). -/
def Printer.print_regexp_literal (p : Printer) (lit : RegExpLiteral) : Printer :=
  let p := p.write ("/" ++ lit.pattern ++ "/" ++ lit.flags)
  { p with prev_token := some .Regex }

/-- `this` emission (`print_this_expression`). -/
def Printer.print_this_expression (p : Printer) : Printer :=
  let p := p.write "this"
  { p with prev_token := some .Identifier }

/-- Literal dispatch (`print_literal`). -/
def Printer.print_literal (p : Printer) (lit : Literal) : Printer :=
  match lit with
  | .String s => p.print_string_literal s
  | .Number n => p.print_number_literal n
  | .Boolean b => p.print_boolean_literal b
  | .Null => p.print_null_literal
  | .RegExp r => p.print_regexp_literal r

/-- Pattern emission (`print_pattern`): identifier patterns only. -/
def Printer.print_pattern (p : Printer) (pattern : Pattern) : Printer :=
  match pattern with
  | .Identifier id => p.print_identifier id
  | _ => p.write "/* PATTERN */"

/-- Parameter-list emission (`print_parameter_list`); `i` is the
enumeration index. -/
def print_parameter_list_go (params : List Pattern) (i : Nat) (p : Printer) : Printer :=
  match params with
  | [] => p
  | param :: rest =>
      let p := if i > 0 then (p.write ",").print_space_if_needed else p
      let p := p.print_pattern param
      print_parameter_list_go rest (i + 1) p

/-- Parameter-list entry point (`print_parameter_list`). -/
def Printer.print_parameter_list (p : Printer) (params : List Pattern) : Printer :=
  print_parameter_list_go params 0 p

/-- Binary operator precedence (`get_binary_operator_precedence`); the
source's `_` arm maps every remaining operator to `Equality`. -/
def get_binary_operator_precedence (op : BinaryOperator) : Precedence :=
  match op with
  | .Add => .Additive
  | .Subtract => .Additive
  | .Multiply => .Multiplicative
  | .Divide => .Multiplicative
  | .Remainder => .Multiplicative
  | .Exponentiation => .Exponentiation
  | .Equal => .Equality
  | .NotEqual => .Equality
  | .StrictEqual => .Equality
  | .StrictNotEqual => .Equality
  | .LogicalAnd => .LogicalAnd
  | .LogicalOr => .LogicalOr
  | _ => .Equality

/-- Binary operator emission (`print_binary_operator`); operators missing
from the source's table print as `/* OP */`. -/
def Printer.print_binary_operator (p : Printer) (op : BinaryOperator) : Printer :=
  let op_str :=
    match op with
    | .Add => "+"
    | .Subtract => "-"
    | .Multiply => "*"
    | .Divide => "/"
    | .Remainder => "%"
    | .Exponentiation => "**"
    | .Equal => "=="
    | .NotEqual => "!="
    | .StrictEqual => "==="
    | .StrictNotEqual => "!=="
    | .LessThan => "<"
    | .LessThanEqual => "<="
    | .GreaterThan => ">"
    | .GreaterThanEqual => ">="
    | .LogicalAnd => "&&"
    | .LogicalOr => "||"
    | _ => "/* OP */"
  match p.config.format with
  | .Compact => p.write op_str
  | _ => ((p.write " ").write op_str).write " "

mutual

/-- Statement dispatch (`print_statement`); statement forms the source
leaves unimplemented print as `/* STMT */`. -/
def print_statement (fuel : Nat) (stmt : Statement) (p : Printer) : Printer :=
  match fuel with
  | 0 => p
  | fuel + 1 =>
      match stmt with
      | .VariableDeclaration declarations kind =>
          print_variable_declaration fuel declarations kind p
      | .FunctionDeclaration id params body is_async is_generator =>
          print_function_declaration fuel id params body is_async is_generator p
      | .ExpressionStatement expression => print_expression_statement fuel expression p
      | .BlockStatement body => print_block_statement fuel body p
      | .ReturnStatement argument => print_return_statement fuel argument p
      | _ => p.write "/* STMT */"

/-- Variable-declaration emission (`print_variable_declaration`). -/
def print_variable_declaration (fuel : Nat) (declarations : List VariableDeclarator)
    (kind : VariableDeclarationKind) (p : Printer) : Printer :=
  match fuel with
  | 0 => p
  | fuel + 1 =>
      let p :=
        match kind with
        | .Var => p.write "var"
        | .Let => p.write "let"
        | .Const => p.write "const"
      let p := p.print_space_if_needed
      let p := print_declarator_list fuel declarations 0 p
      p.print_semicolon_if_needed

/-- The declarator loop of `print_variable_declaration`; `i` is the
enumeration index. -/
def print_declarator_list (fuel : Nat) (declarations : List VariableDeclarator) (i : Nat)
    (p : Printer) : Printer :=
  match fuel with
  | 0 => p
  | fuel + 1 =>
      match declarations with
      | [] => p
      | declarator :: rest =>
          let p := if i > 0 then (p.write ",").print_space_if_needed else p
          let p := print_variable_declarator fuel declarator p
          print_declarator_list fuel rest (i + 1) p

/-- Declarator emission (`print_variable_declarator`). -/
def print_variable_declarator (fuel : Nat) (declarator : VariableDeclarator) (p : Printer) : Printer :=
  match fuel with
  | 0 => p
  | fuel + 1 =>
      match declarator with
      | .mk id init =>
          let p := p.print_pattern id
          match init with
          | some init_expr =>
              let p := p.print_assignment_operator
              print_expression fuel init_expr .Assignment p
          | none => p

/-- Function-declaration emission (`print_function_declaration`). -/
def print_function_declaration (fuel : Nat) (id : Option Identifier) (params : List Pattern)
    (body : BlockStatement) (is_async : Bool) (is_generator : Bool)
    (p : Printer) : Printer :=
  match fuel with
  | 0 => p
  | fuel + 1 =>
      match body with
      | .mk body_statements =>
          let p := if is_async then (p.write "async").print_space_if_needed else p
          let p := p.write "function"
          let p := if is_generator then p.write "*" else p
          let p :=
            match id with
            | some id_node => p.print_space_if_needed.print_identifier id_node
            | none => p
          let p := p.write "("
          let p := p.print_parameter_list params
          let p := p.write ")"
          print_block_statement_body fuel body_statements p

/-- Expression-statement emission (`print_expression_statement`): object
and function expressions are wrapped in parentheses. -/
def print_expression_statement (fuel : Nat) (expression : Expression) (p : Printer) : Printer :=
  match fuel with
  | 0 => p
  | fuel + 1 =>
      let needs_wrapping :=
        match expression with
        | .ObjectExpression _ => true
        | .FunctionExpression _ => true
        | _ => false
      let p := if needs_wrapping then p.write "(" else p
      let p := print_expression fuel expression .Sequence p
      let p := if needs_wrapping then p.write ")" else p
      p.print_semicolon_if_needed

/-- Block-statement emission (`print_block_statement`). -/
def print_block_statement (fuel : Nat) (body : List Statement) (p : Printer) : Printer :=
  match fuel with
  | 0 => p
  | fuel + 1 =>
      print_block_statement_body fuel body p

/-- Braced block emission (`print_block_statement_body`). -/
def print_block_statement_body (fuel : Nat) (body : List Statement) (p : Printer) : Printer :=
  match fuel with
  | 0 => p
  | fuel + 1 =>
      let p := p.write "\x7b"
      let p :=
        if body.isEmpty then p
        else
          let p := p.print_newline_if_needed
          let p := { p with indent_level := p.indent_level + 1 }
          let p := print_block_body_list fuel body p
          let p := { p with indent_level := p.indent_level - 1 }
          p.print_indent_if_needed
      p.write "\x7d"

/-- The per-statement loop of `print_block_statement_body`: indent,
statement, newline. -/
def print_block_body_list (fuel : Nat) (body : List Statement) (p : Printer) : Printer :=
  match fuel with
  | 0 => p
  | fuel + 1 =>
      match body with
      | [] => p
      | stmt :: rest =>
          let p := p.print_indent_if_needed
          let p := print_statement fuel stmt p
          let p := p.print_newline_if_needed
          print_block_body_list fuel rest p

/-- Return-statement emission (`print_return_statement`). -/
def print_return_statement (fuel : Nat) (argument : Option Expression) (p : Printer) : Printer :=
  match fuel with
  | 0 => p
  | fuel + 1 =>
      let p := p.write "return"
      let p := { p with prev_token := some .Identifier }
      let p :=
        match argument with
        | some arg =>
            let p := p.print_space_if_needed
            print_expression fuel arg .Sequence p
        | none => p
      p.print_semicolon_if_needed

/-- Expression dispatch with precedence context (`print_expression`);
expression forms the source leaves unimplemented print as `/* EXPR */`. -/
def print_expression (fuel : Nat) (expr : Expression) (parent_precedence : Precedence)
    (p : Printer) : Printer :=
  match fuel with
  | 0 => p
  | fuel + 1 =>
      match expr with
      | .Identifier id => p.print_identifier id
      | .Literal lit => p.print_literal lit
      | .BinaryExpression left operator right =>
          print_binary_expression fuel left operator right parent_precedence p
      | .TemplateLiteral quasis expressions =>
          print_template_literal fuel quasis expressions p
      | .ThisExpression => p.print_this_expression
      | _ => p.write "/* EXPR */"

/-- Binary-expression emission (`print_binary_expression`): the child is
parenthesized exactly when its operator precedence is strictly below the
parent precedence; both operands are printed at the operator's own
precedence. -/
def print_binary_expression (fuel : Nat) (left : Expression) (operator : BinaryOperator)
    (right : Expression) (parent_precedence : Precedence) (p : Printer) : Printer :=
  match fuel with
  | 0 => p
  | fuel + 1 =>
      let precedence := get_binary_operator_precedence operator
      let needs_parens := precedence.val < parent_precedence.val
      let p := if needs_parens then p.write "(" else p
      let p := print_expression fuel left precedence p
      let p := p.print_binary_operator operator
      let p := print_expression fuel right precedence p
      if needs_parens then p.write ")" else p

/-- Template-literal emission (`print_template_literal`). -/
def print_template_literal (fuel : Nat) (quasis : List TemplateElement)
    (expressions : List Expression) (p : Printer) : Printer :=
  match fuel with
  | 0 => p
  | fuel + 1 =>
      let p := p.write "`"
      let p := print_template_quasis fuel quasis 0 expressions p
      p.write "`"

/-- The quasi loop of `print_template_literal`: each non-tail quasi with
an in-range index is followed by its embedded expression. -/
def print_template_quasis (fuel : Nat) (quasis : List TemplateElement) (i : Nat)
    (expressions : List Expression) (p : Printer) : Printer :=
  match fuel with
  | 0 => p
  | fuel + 1 =>
      match quasis with
      | [] => p
      | quasi :: rest =>
          let p := p.write (escape_template_element quasi.value)
          let p :=
            if h : quasi.tail = false ∧ i < expressions.length then
              let p := p.write "$\x7b"
              let p := print_expression fuel (expressions.get ⟨i, h.2⟩) .Sequence p
              p.write "\x7d"
            else p
          print_template_quasis fuel rest (i + 1) expressions p

    end

/-! ### Printer validation (from `printer.rs`) -/

/-- Identifier validation (`validate_identifier`): non-empty and starting
with a letter, underscore or dollar sign.  (Rust's `char::is_alphabetic`
is Unicode-aware, Lean's `Char.isAlpha` is ASCII; they agree on the ASCII
identifiers all claims concern.) -/
def validate_identifier (id : Identifier) : GeneratorResult Unit :=
  if id.name.isEmpty then
    .error (.IdentifierError "Identifier name cannot be empty" "<empty>")
  else
    let c := id.name.data.head?.getD '_'
    if ¬ c.isAlpha ∧ c ≠ '_' ∧ c ≠ '$' then
      .error (.IdentifierError
        "Identifier must start with letter, underscore, or dollar sign" id.name)
    else .ok ()

/-- Literal validation (`validate_literal`): rejects strings containing a
null character and empty regexp patterns.  The source also rejects
`NaN`/infinite numbers; integer-valued doubles are never either, so the
number arm always succeeds here. -/
def validate_literal (lit : Literal) : GeneratorResult Unit :=
  match lit with
  | .String s =>
      if s.value.data.any (fun c => c = Char.ofNat 0) then
        .error (.StringProcessingError "String contains null character" s.value)
      else .ok ()
  | .Number _ => .ok ()
  | .RegExp r =>
      if r.pattern.isEmpty then
        .error (.StringProcessingError "RegExp pattern cannot be empty" r.pattern)
      else .ok ()
  | _ => .ok ()

/-- Pattern validation (`validate_pattern`): identifier patterns only. -/
def validate_pattern (pattern : Pattern) : GeneratorResult Unit :=
  match pattern with
  | .Identifier id => validate_identifier id
  | _ => .ok ()

/-- Parameter-list validation loop of `validate_statement`. -/
def validate_param_list (params : List Pattern) : GeneratorResult Unit :=
  match params with
  | [] => .ok ()
  | param :: rest => do
      validate_pattern param
      validate_param_list rest

mutual

/-- Statement validation (`validate_statement`). -/
def validate_statement (fuel : Nat) (stmt : Statement) : GeneratorResult Unit :=
  match fuel with
  | 0 => .ok ()
  | fuel + 1 =>
      match stmt with
      | .VariableDeclaration declarations _ =>
          if declarations.isEmpty then
            .error (.MissingRequiredField "declarations" "VariableDeclaration")
          else validate_declarator_list fuel declarations
      | .FunctionDeclaration id params body _ _ => do
          match id with
          | some id_node => validate_identifier id_node
          | none => pure ()
          validate_param_list params
          validate_block_statement fuel body
      | .ExpressionStatement expression => validate_expression fuel expression
      | .BlockStatement body => validate_statement_list fuel body
      | .ReturnStatement argument =>
          match argument with
          | some expr => validate_expression fuel expr
          | none => .ok ()
      | _ => .ok ()

/-- Statement-list validation. -/
def validate_statement_list (fuel : Nat) (statements : List Statement) : GeneratorResult Unit :=
  match fuel with
  | 0 => .ok ()
  | fuel + 1 =>
      match statements with
      | [] => .ok ()
      | stmt :: rest => do
          validate_statement fuel stmt
          validate_statement_list fuel rest

/-- Declarator-list validation loop. -/
def validate_declarator_list (fuel : Nat) (declarations : List VariableDeclarator) :
    GeneratorResult Unit :=
  match fuel with
  | 0 => .ok ()
  | fuel + 1 =>
      match declarations with
      | [] => .ok ()
      | declarator :: rest => do
          validate_variable_declarator fuel declarator
          validate_declarator_list fuel rest

/-- Declarator validation (`validate_variable_declarator`). -/
def validate_variable_declarator (fuel : Nat) (declarator : VariableDeclarator) :
    GeneratorResult Unit :=
  match fuel with
  | 0 => .ok ()
  | fuel + 1 =>
      match declarator with
      | .mk id init => do
          validate_pattern id
          match init with
          | some init_expr => validate_expression fuel init_expr
          | none => pure ()

/-- Block validation (`validate_block_statement`). -/
def validate_block_statement (fuel : Nat) (block : BlockStatement) : GeneratorResult Unit :=
  match fuel with
  | 0 => .ok ()
  | fuel + 1 =>
      match block with
      | .mk body => validate_statement_list fuel body

/-- Expression validation (`validate_expression`); unimplemented
expression forms are accepted. -/
def validate_expression (fuel : Nat) (expr : Expression) : GeneratorResult Unit :=
  match fuel with
  | 0 => .ok ()
  | fuel + 1 =>
      match expr with
      | .Identifier id => validate_identifier id
      | .Literal lit => validate_literal lit
      | .BinaryExpression left _ right => do
          validate_expression fuel left
          validate_expression fuel right
      | .TemplateLiteral quasis expressions =>
          if quasis.isEmpty then
            .error (.MissingRequiredField "quasis" "TemplateLiteral")
          else if expressions.length ≠ quasis.length - 1 ∧
              ¬(expressions.isEmpty ∧ quasis.length = 1) then
            .error (.TemplateLiteralError
              "Invalid template literal structure: quasis and expressions count mismatch"
              ("quasis: " ++ toString quasis.length ++ ", expressions: " ++
                toString expressions.length))
          else validate_expression_list fuel expressions
      | _ => .ok ()

/-- Expression-list validation (template-literal expressions). -/
def validate_expression_list (fuel : Nat) (expressions : List Expression) : GeneratorResult Unit :=
  match fuel with
  | 0 => .ok ()
  | fuel + 1 =>
      match expressions with
      | [] => .ok ()
      | expr :: rest => do
          validate_expression fuel expr
          validate_expression_list fuel rest

    end

/-- Program validation (`validate_program`): statement errors of kind
`MalformedAst` are re-wrapped with the statement index. -/
def validate_program_go (fuel : Nat) (statements : List Statement) (i : Nat) :
    GeneratorResult Unit :=
  match statements with
  | [] => .ok ()
  | stmt :: rest =>
      match validate_statement fuel stmt with
      | .ok _ => validate_program_go fuel rest (i + 1)
      | .error e =>
          match e with
          | .MalformedAst message node_type =>
              .error (.MalformedAst ("Statement " ++ toString i ++ ": " ++ message)
                node_type)
          | _ => .error e

/-- Program validation entry point (`validate_program`). -/
def validate_program (program : Program) : GeneratorResult Unit :=
  if program.body.isEmpty then .ok ()
  else validate_program_go (4 * program_size program + 8) program.body 0

/-- ASI-hazard check (`check_asi_hazard`): a `TODO` in the source, always
`Ok`. -/
def Printer.check_asi_hazard (_p : Printer) (_stmt : Statement) :
    GeneratorResult Unit := .ok ()

/-- The printer's hard output cap: 10 MiB (`MAX_OUTPUT_SIZE`). -/
def MAX_OUTPUT_SIZE : Nat := 10 * 1024 * 1024

/-- Output-size check (`check_memory_limits`): errors when the output
exceeds `MAX_OUTPUT_SIZE`. -/
def Printer.check_memory_limits (p : Printer) : GeneratorResult Unit :=
  if MAX_OUTPUT_SIZE < p.output.length then
    .error (.OutputSizeLimitExceeded p.output.length MAX_OUTPUT_SIZE)
  else .ok ()

/-- The statement loop of `print_program`: separator before every
statement but the first, the (no-op) ASI check, a size check every 100
statements, then the statement itself. -/
def print_program_go (fuel : Nat) (statements : List Statement) (i : Nat) (p : Printer) :
    GeneratorResult Printer :=
  match statements with
  | [] => .ok p
  | stmt :: rest => do
      let p := if i > 0 then p.print_statement_separator else p
      p.check_asi_hazard stmt
      if i % 100 = 0 then p.check_memory_limits else pure ()
      let p := print_statement fuel stmt p
      print_program_go fuel rest (i + 1) p

/-- Prints a complete program (`Printer::print_program`): validation, the
statement loop with periodic size checks, a final size check, and a final
newline for readable/pretty formats. -/
def Printer.print_program (p : Printer) (program : Program) :
    GeneratorResult (String × Printer) := do
  let p := { p with output := "", warnings := [] }
  validate_program program
  let p ← print_program_go (4 * program_size program + 8) program.body 0 p
  p.check_memory_limits
  let p :=
    match p.config.format with
    | .Readable => if program.body.isEmpty then p else p.print_newline_if_needed
    | .Pretty => if program.body.isEmpty then p else p.print_newline_if_needed
    | .Compact => p
  pure (p.output, p)

/-! ## Base-64 VLQ encoding (from `src/generator/source_maps.rs`) -/

/-- Base-64 digit encoding (`encode_base64_digit`): the alphabet
`A-Z a-z 0-9 + /`.  The source panics on values ≥ 64; that branch is
unreachable from `encode_vlq`, whose digits are always below 64, and is
modelled as `'?'`. -/
def encode_base64_digit (value : Nat) : Char :=
  if value ≤ 25 then Char.ofNat ('A'.toNat + value)
  else if value ≤ 51 then Char.ofNat ('a'.toNat + (value - 26))
  else if value ≤ 61 then Char.ofNat ('0'.toNat + (value - 52))
  else if value = 62 then '+'
  else if value = 63 then '/'
  else '?'

/-- The digit loop of `encode_vlq` on the non-negative packed value: emit
the low five bits (`vlq & 0x1f`, i.e. `vlq % 32`), set the continuation
bit (`digit |= 0x20`, i.e. `+ 32`) whenever the shifted rest
(`vlq >> 5`, i.e. `vlq / 32`) is non-zero, and continue on the rest. -/
def vlq_digits_go : Nat → Nat → List Nat
  | 0, _ => []
  | fuel + 1, vlq =>
      let digit := vlq % 32
      let rest := vlq / 32
      if rest = 0 then [digit]
      else (digit + 32) :: vlq_digits_go fuel rest

/-- Digit list of a packed VLQ value; the fuel `vlq + 1` strictly exceeds
the loop count, since the shifted rest decreases strictly. -/
def vlq_digits (vlq : Nat) : List Nat :=
  vlq_digits_go (vlq + 1) vlq

/-- Signed VLQ encoding (`encode_vlq`): the sign goes into the least
significant bit (`(value.abs() << 1) | sign`), then the packed value is
emitted five bits at a time through the base-64 alphabet.  The source
computes on `i32`; this model is exact wherever `value << 1` cannot
overflow, i.e. for `|value| < 2^30`, and the theorems about it restrict
to that range. -/
def encode_vlq (value : Int) : String :=
  let sign : Nat := if value < 0 then 1 else 0
  let vlq : Nat := 2 * value.natAbs + sign
  String.mk ((vlq_digits vlq).map encode_base64_digit)

/-- Modelled from the spec: base-64 digit decoding, the inverse of the
alphabet `A-Z a-z 0-9 + /` described in §4.4 of the spec.  Used only to
state the round-trip property of `encode_vlq`. -/
def decode_base64_digit (c : Char) : Option Nat :=
  if 'A' ≤ c ∧ c ≤ 'Z' then some (c.toNat - 'A'.toNat)
  else if 'a' ≤ c ∧ c ≤ 'z' then some (c.toNat - 'a'.toNat + 26)
  else if '0' ≤ c ∧ c ≤ '9' then some (c.toNat - '0'.toNat + 52)
  else if c = '+' then some 62
  else if c = '/' then some 63
  else none

/-- Modelled from the spec: reassemble the packed natural from 6-bit
digits, low group first, requiring the continuation bit (bit 5) on every
digit except the last, per the Source Maps v3 VLQ scheme of §4.4. -/
def vlq_digits_to_nat : List Nat → Option Nat
  | [] => none
  | [d] => if d < 32 then some d else none
  | d :: rest =>
      if 32 ≤ d ∧ d < 64 then
        (vlq_digits_to_nat rest).map (fun n => (d - 32) + 32 * n)
      else none

/-- Modelled from the spec: full VLQ decoding — map characters through
the base-64 alphabet, reassemble the packed value, and recover the signed
integer from the sign bit in the least significant position. -/
def decode_vlq (s : String) : Option Int := do
  let digits ← s.data.mapM decode_base64_digit
  let n ← vlq_digits_to_nat digits
  if n % 2 = 1 then pure (-(n / 2 : Nat) : Int) else pure ((n / 2 : Nat) : Int)

/-- Decidable equality for `Except`, used to evaluate concrete analyzer
and printer results inside proofs. -/
instance {ε α : Type} [DecidableEq ε] [DecidableEq α] :
    DecidableEq (Except ε α) := fun x y =>
  match x, y with
  | .ok a, .ok b =>
      if h : a = b then isTrue (by rw [h])
      else isFalse (by intro hc; cases hc; exact h rfl)
  | .error a, .error b =>
      if h : a = b then isTrue (by rw [h])
      else isFalse (by intro hc; cases hc; exact h rfl)
  | .ok _, .error _ => isFalse (by intro hc; cases hc)
  | .error _, .ok _ => isFalse (by intro hc; cases hc)

/-! ## Concrete inputs and auxiliary definitions used by the theorems -/

/-- Identifier expression shorthand. -/
def identE (s : String) : Expression := .Identifier ⟨s⟩

/-- Number-literal expression shorthand. -/
def numberE (n : Int) : Expression := .Literal (.Number ⟨n⟩)

/-- A `let x = n;` statement. -/
def letStmt (x : String) (n : Int) : Statement :=
  .VariableDeclaration [.mk (.Identifier ⟨x⟩) (some (numberE n))] .Let

/-- The spec's running example `function f(a,b){return a+b*2;}`. -/
def c1prog : Program :=
  ⟨[.FunctionDeclaration (some ⟨"f"⟩) [.Identifier ⟨"a"⟩, .Identifier ⟨"b"⟩]
      (.mk [.ReturnStatement (some (.BinaryExpression (identE "a") .Add
        (.BinaryExpression (identE "b") .Multiply (numberE 2))))]) false false],
   .Script⟩

/-- `{ let x = 1; { let y = 2; x; } }`: a cross-block reference with no
function boundary between the declaring and the referencing scope. -/
def c2prog : Program :=
  ⟨[.BlockStatement [letStmt "x" 1,
      .BlockStatement [letStmt "y" 2, .ExpressionStatement (identE "x")]]],
   .Script⟩

/-- `let x = 1; let x = 2;`: a same-block redeclaration. -/
def c3prog : Program := ⟨[letStmt "x" 1, letStmt "x" 2], .Script⟩

/-- `function f(){} function g(){eval;}`: the bare `eval` sits in `g`,
whose body scope is created second (scope 2). -/
def c4prog : Program :=
  ⟨[.FunctionDeclaration (some ⟨"f"⟩) [] (.mk []) false false,
    .FunctionDeclaration (some ⟨"g"⟩) []
      (.mk [.ExpressionStatement (identE "eval")]) false false],
   .Script⟩

/-- `let x = 5;` (scenario 1 of the spec). -/
def c5prog : Program := ⟨[letStmt "x" 5], .Script⟩

/-- The expression statement for the tree `(a**b)**c`. -/
def c6prog : Program :=
  ⟨[.ExpressionStatement (.BinaryExpression
      (.BinaryExpression (identE "a") .Exponentiation (identE "b"))
      .Exponentiation (identE "c"))], .Script⟩

/-- The string literal `it's "hi"`: one single quote, two double quotes. -/
def c7lit : StringLiteral := ⟨"it's \"hi\""⟩

/-- The expression statement printing the literal `it's "hi"`. -/
def c7prog : Program := ⟨[.ExpressionStatement (.Literal (.String c7lit))], .Script⟩

/-- The analysis result of a program under the default configuration
(`analyze_ast` returns `Ok` on every path; the error arm is unreachable
and maps to an empty analysis). -/
def getAnalysis (p : Program) : SemanticAnalysis :=
  match analyze_ast p AnalyzerConfig.default with
  | .ok r => r
  | .error _ =>
      { symbol_table := SymbolTable.new
        scope_tree := ScopeTree.new .Global
        semantic_flags := { unsafe_scopes := [], unsafe_symbols := [], global_references := [] }
        metadata := { scope_count := 0, symbol_count := 0, capture_count := 0
                      export_count := 0, analysis_time_ms := 0 } }

/-- Modelled from the spec (§4.1): whether the walk from the scope `from_`
up the parent chain to the scope `decl` crosses at least one
function/arrow scope (the analyzer gives arrow functions `Function`
scopes).  The fuel bounds the walk, as the parent chains of an analyzer
scope tree are acyclic; callers pass one more than the number of scopes. -/
def path_crosses_function (t : ScopeTree) : Nat → ScopeId → ScopeId → Bool
  | 0, _, _ => false
  | fuel + 1, from_, decl =>
      if from_ = decl then false
      else
        match t.get_scope from_ with
        | some s =>
            decide (s.scope_type = .Function) ||
            (match s.parent_id with
             | some p => path_crosses_function t fuel p decl
             | none => false)
        | none => false

/-- The symbol-table entry that the analysis of `c2prog` produces for
`x`: captured, declared in scope 1, referenced from scope 2. -/
def c2xPair : SymbolId × Symbol :=
  (0, { id := 0, name := "x", symbol_type := .Variable .Let, scope_id := 1
        references := [{ location := { line := 1, column := 0, offset := 0 }
                         reference_type := .Read, scope_id := 2 }]
        is_captured := true, is_exported := false, is_renamable := true })

/-- A minimal symbol used by the witness contexts. -/
def xSymbol : Symbol :=
  { id := 0, name := "x", symbol_type := .Variable .Let, scope_id := 0
    references := [], is_captured := false, is_exported := false
    is_renamable := true }

/-- A minimal scope-builder context with `x` bound in the global scope. -/
def c3ctx : Ctx :=
  { current_scope := 0
    scope_tree := ScopeTree.new .Global
    symbol_table := { symbols := [(0, xSymbol)]
                      scope_bindings := [(0, [("x", 0)])]
                      next_symbol_id := 1 }
    semantic_flags := { unsafe_scopes := [], unsafe_symbols := [], global_references := [] }
    config := AnalyzerConfig.default
    current_location := { line := 1, column := 0, offset := 0 } }

/-- A minimal semantic-analysis context. -/
def emptySemCtx : SemCtx :=
  { current_scope := 0
    scope_tree := ScopeTree.new .Global
    symbol_table := SymbolTable.new
    semantic_flags := { unsafe_scopes := [], unsafe_symbols := [], global_references := [] }
    config := AnalyzerConfig.default
    strict_mode := false
    in_arrow_function := false }

/-- A semantic context with `x` bound in scope 0. -/
def boundSemCtx : SemCtx :=
  { emptySemCtx with
    symbol_table := { symbols := [(0, xSymbol)]
                      scope_bindings := [(0, [("x", 0)])]
                      next_symbol_id := 1 } }

/-- A two-scope tree: a function scope 1 under the global root 0. -/
def twoScopeTree : ScopeTree :=
  { scopes :=
      [(0, { id := 0, scope_type := .Global, parent_id := none,
             children := [1], bindings := [], is_safe := true }),
       (1, { id := 1, scope_type := .Function, parent_id := some 0,
             children := [], bindings := [], is_safe := false })],
    root_scope_id := 0,
    next_scope_id := 2 }

/-- A semantic context whose scope 1 (child of the root) is recorded as
`EvalUsage`. -/
def propSemCtx : SemCtx :=
  { emptySemCtx with
    scope_tree := twoScopeTree
    semantic_flags := { unsafe_scopes := [(1, .EvalUsage)], unsafe_symbols := [],
                        global_references := [] } }

/-- Output of the printer under the default configuration, projected to
the generated string. -/
def printedDefault (prog : Program) : GeneratorResult String :=
  ((Printer.new GeneratorConfig.default).print_program prog).map (·.1)

/-- The default generator configuration with the readable output format. -/
def readableCfg : GeneratorConfig := { GeneratorConfig.default with format := .Readable }

/-- An identifier name of 10485759 characters: printing it as a statement
gives exactly `MAX_OUTPUT_SIZE` bytes before the readable format's
trailing newline. -/
def c8big : String := String.mk (List.replicate 10485759 'a')

/-- The single-statement program printing the huge identifier. -/
def c8prog : Program := ⟨[.ExpressionStatement (identE c8big)], .Script⟩

/-- The relation the analyzer actually maintains between `is_captured` and
the recorded references: the flag is set exactly when some reference lives
in a scope other than the declaring scope (no function-boundary condition). -/
def symbol_capture_ok (pr : SymbolId × Symbol) : Prop :=
  pr.2.is_captured = true ↔ ∃ r ∈ pr.2.references, r.scope_id ≠ pr.2.scope_id

/-- The capture invariant for a whole symbol list. -/
def symbols_ok (symbols : List (SymbolId × Symbol)) : Prop :=
  ∀ pr ∈ symbols, symbol_capture_ok pr


/-! # Theorems -/

set_option maxHeartbeats 1600000



/-! ## Lemmas about association lists -/

/-- Membership after `alInsert`: an element is an old entry or the
inserted pair. -/
theorem mem_alInsert {α β : Type} [DecidableEq α] {l : List (α × β)} {key : α}
    {value : β} {x : α × β} (h : x ∈ alInsert l key value) :
    x ∈ l ∨ x = (key, value) := by
  induction l with
  | nil => simpa [alInsert] using h
  | cons hd tl ih =>
      obtain ⟨k, v⟩ := hd
      by_cases hk : k = key
      · subst hk
        simp [alInsert] at h
        rcases h with h | h
        · exact Or.inr (by simp [h])
        · exact Or.inl (by simp [h])
      · simp [alInsert, hk] at h
        rcases h with h | h
        · exact Or.inl (by simp [h])
        · rcases ih h with h' | h'
          · exact Or.inl (by simp [h'])
          · exact Or.inr h'

/-- Membership after `alModify`: an element is an old entry or an old
entry with its value passed through `f`. -/
theorem mem_alModify {α β : Type} [DecidableEq α] {l : List (α × β)} {key : α}
    {f : β → β} {x : α × β} (h : x ∈ alModify l key f) :
    x ∈ l ∨ ∃ y ∈ l, x = (y.1, f y.2) := by
  induction l with
  | nil => simpa [alModify] using h
  | cons hd tl ih =>
      obtain ⟨k, v⟩ := hd
      by_cases hk : k = key
      · subst hk
        simp [alModify] at h
        rcases h with h | h
        · exact Or.inr ⟨(k, v), by simp, by simp [h]⟩
        · exact Or.inl (by simp [h])
      · simp [alModify, hk] at h
        rcases h with h | h
        · exact Or.inl (by simp [h])
        · rcases ih h with h' | h'
          · exact Or.inl (by simp [h'])
          · obtain ⟨y, hy, hx⟩ := h'
            exact Or.inr ⟨y, by simp [hy], hx⟩

/-- Lookup after `alModify`: the modified key reads through `f`, other
keys are untouched. -/
theorem alGet_alModify {α β : Type} [DecidableEq α] (l : List (α × β)) (key : α)
    (f : β → β) (q : α) :
    alGet (alModify l key f) q = if q = key then (alGet l key).map f else alGet l q := by
  induction l with
  | nil => simp [alGet, alModify]
  | cons hd tl ih =>
      obtain ⟨k, v⟩ := hd
      by_cases hk : k = key
      · subst hk
        by_cases hq : k = q
        · subst hq; simp [alGet, alModify]
        · simp only [alGet, alModify, if_pos rfl, if_neg hq]
          rw [if_neg (fun h => hq h.symm)]
      · by_cases hq : k = q
        · subst hq
          simp only [alGet, alModify, if_neg hk, if_pos rfl]
          simp
        · simp only [alGet, alModify, if_neg hk, if_neg hq]
          exact ih

/-- Lookup after `alInsert`: the inserted key reads the new value, other
keys are untouched. -/
theorem alGet_alInsert {α β : Type} [DecidableEq α] (l : List (α × β)) (key : α)
    (value : β) (q : α) :
    alGet (alInsert l key value) q = if q = key then some value else alGet l q := by
  induction l with
  | nil =>
      simp only [alInsert, alGet]
      by_cases hq : key = q
      · subst hq; simp
      · rw [if_neg hq, if_neg (fun h => hq h.symm)]
  | cons hd tl ih =>
      obtain ⟨k, v⟩ := hd
      by_cases hk : k = key
      · subst hk
        by_cases hq : k = q
        · subst hq; simp [alGet, alInsert]
        · simp only [alInsert, alGet, if_pos rfl, if_neg hq]
          rw [if_neg (fun h => hq h.symm)]
      · by_cases hq : k = q
        · subst hq
          simp only [alInsert, alGet, if_neg hk, if_pos rfl]
          simp
        · simp only [alInsert, alGet, if_neg hk, if_neg hq]
          exact ih

/-- `alContains` after `alInsert`: the inserted key is present, other
keys as before. -/
theorem alContains_alInsert {α β : Type} [DecidableEq α] (l : List (α × β))
    (key : α) (value : β) (q : α) :
    alContains (alInsert l key value) q =
      if q = key then true else alContains l q := by
  simp only [alContains, alGet_alInsert]
  split <;> simp

/-! ## One-step unfolding equations for the fuelled traversals

The equation compiler does not produce usable equations for several of the
fuelled definitions (their bodies mix the fuel match with nested
constructor patterns), so the proofs below use these hand-stated one-step
unfoldings, each of which holds definitionally. -/

/-- One-step unfolding of `hoist_statement_declarations` at successor fuel. -/
theorem hoist_statement_declarations_succ (fuel : Nat) (statement : Statement) (ctx : Ctx) :
    hoist_statement_declarations (fuel + 1) statement ctx =
      match statement with
      | .VariableDeclaration declarations kind =>
          match kind with
          | .Var => hoist_declarator_list declarations ctx
          | _ => ctx
      | .FunctionDeclaration id _ _ _ _ =>
          match id with
          | some function_id =>
              (declare_symbol function_id.name .Function ctx.current_scope ctx).2
          | none => ctx
      | .BlockStatement body => hoist_statement_list fuel body ctx
      | .IfStatement _ consequent alternate =>
          let ctx := hoist_statement_declarations fuel consequent ctx
          match alternate with
          | some alt => hoist_statement_declarations fuel alt ctx
          | none => ctx
      | .WhileStatement _ body => hoist_statement_declarations fuel body ctx
      | .ForStatement _ _ _ body => hoist_statement_declarations fuel body ctx
      | _ => ctx
  := rfl

/-- One-step unfolding of `hoist_statement_list` at successor fuel. -/
theorem hoist_statement_list_succ (fuel : Nat) (statements : List Statement) (ctx : Ctx) :
    hoist_statement_list (fuel + 1) statements ctx =
      match statements with
      | [] => ctx
      | stmt :: rest => hoist_statement_list fuel rest (hoist_statement_declarations fuel stmt ctx)
  := rfl

/-- One-step unfolding of `analyze_statement` at successor fuel. -/
theorem analyze_statement_succ (fuel : Nat) (statement : Statement) (ctx : Ctx) :
    analyze_statement (fuel + 1) statement ctx =
      match statement with
      | .VariableDeclaration declarations kind =>
          analyze_variable_declaration fuel declarations kind ctx
      | .FunctionDeclaration id params body _ _ =>
          analyze_function_declaration fuel id params body ctx
      | .ClassDeclaration id super_class body =>
          analyze_class_declaration fuel id super_class body ctx
      | .ExpressionStatement expression => analyze_expression fuel expression ctx
      | .BlockStatement body => analyze_block_statement fuel body ctx
      | .ReturnStatement argument =>
          match argument with
          | some expr => analyze_expression fuel expr ctx
          | none => ctx
      | .IfStatement test consequent alternate =>
          let ctx := analyze_expression fuel test ctx
          let ctx := analyze_statement fuel consequent ctx
          match alternate with
          | some alt => analyze_statement fuel alt ctx
          | none => ctx
      | .WhileStatement test body =>
          analyze_statement fuel body (analyze_expression fuel test ctx)
      | .ForStatement init test update body =>
          analyze_for_statement fuel init test update body ctx
      | .ImportDeclaration specifiers _ =>
          analyze_import_declaration specifiers ctx
      | .ExportNamedDeclaration declaration _ _ =>
          match declaration with
          | some decl =>
              mark_last_declaration_as_exported (analyze_statement fuel decl ctx)
          | none => ctx
  := rfl

/-- One-step unfolding of `analyze_statement_list` at successor fuel. -/
theorem analyze_statement_list_succ (fuel : Nat) (statements : List Statement) (ctx : Ctx) :
    analyze_statement_list (fuel + 1) statements ctx =
      match statements with
      | [] => ctx
      | stmt :: rest => analyze_statement_list fuel rest (analyze_statement fuel stmt ctx)
  := rfl

/-- One-step unfolding of `analyze_variable_declaration` at successor fuel. -/
theorem analyze_variable_declaration_succ (fuel : Nat) (declarations : List VariableDeclarator) (kind : VariableDeclarationKind) (ctx : Ctx) :
    analyze_variable_declaration (fuel + 1) declarations kind ctx =
      match declarations with
      | [] => ctx
      | .mk pat init_opt :: rest =>
          let var_kind : VariableKind :=
            match kind with
            | .Var => .Var
            | .Let => .Let
            | .Const => .Const
          let ctx :=
            match kind with
            | .Var => ctx
            | _ => analyze_pattern_binding pat var_kind ctx
          let ctx :=
            match init_opt with
            | some init => analyze_expression fuel init ctx
            | none => ctx
          analyze_variable_declaration fuel rest kind ctx
  := rfl

/-- One-step unfolding of `analyze_function_declaration` at successor fuel. -/
theorem analyze_function_declaration_succ (fuel : Nat) (_id : Option Identifier) (params : List Pattern) (body : BlockStatement) (ctx : Ctx) :
    analyze_function_declaration (fuel + 1) _id params body ctx =
      match body with
      | .mk body_statements =>
          let (function_scope_id, ctx) :=
            create_scope .Function (some ctx.current_scope) ctx
          let previous_scope := ctx.current_scope
          let ctx := { ctx with current_scope := function_scope_id }
          let ctx := hoist_statement_list fuel body_statements ctx
          let ctx := analyze_param_list fuel params ctx
          let ctx := analyze_statement_list fuel body_statements ctx
          { ctx with current_scope := previous_scope }
  := rfl

/-- One-step unfolding of `analyze_param_list` at successor fuel. -/
theorem analyze_param_list_succ (fuel : Nat) (params : List Pattern) (ctx : Ctx) :
    analyze_param_list (fuel + 1) params ctx =
      match params with
      | [] => ctx
      | param :: rest => analyze_param_list fuel rest (analyze_pattern_binding param .Var ctx)
  := rfl

/-- One-step unfolding of `analyze_class_declaration` at successor fuel. -/
theorem analyze_class_declaration_succ (fuel : Nat) (id : Option Identifier) (super_class : Option Expression) (body : ClassBody) (ctx : Ctx) :
    analyze_class_declaration (fuel + 1) id super_class body ctx =
      match body with
      | .mk elements =>
          let ctx :=
            match id with
            | some class_id => (declare_symbol class_id.name .Class ctx.current_scope ctx).2
            | none => ctx
          let ctx :=
            match super_class with
            | some super_expr => analyze_expression fuel super_expr ctx
            | none => ctx
          let (class_scope_id, ctx) := create_scope .Class (some ctx.current_scope) ctx
          let previous_scope := ctx.current_scope
          let ctx := { ctx with current_scope := class_scope_id }
          let ctx := analyze_class_element_list fuel elements ctx
          { ctx with current_scope := previous_scope }
  := rfl

/-- One-step unfolding of `analyze_class_element` at successor fuel. -/
theorem analyze_class_element_succ (fuel : Nat) (element : ClassElement) (ctx : Ctx) :
    analyze_class_element (fuel + 1) element ctx =
      match element with
      | .PropertyDefinition _ value _ _ =>
          match value with
          | some expr => analyze_expression fuel expr ctx
          | none => ctx
      | .MethodDefinition _ value _ _ _ => analyze_function_expression fuel value ctx
  := rfl

/-- One-step unfolding of `analyze_class_element_list` at successor fuel. -/
theorem analyze_class_element_list_succ (fuel : Nat) (elements : List ClassElement) (ctx : Ctx) :
    analyze_class_element_list (fuel + 1) elements ctx =
      match elements with
      | [] => ctx
      | element :: rest => analyze_class_element_list fuel rest (analyze_class_element fuel element ctx)
  := rfl

/-- One-step unfolding of `analyze_block_statement` at successor fuel. -/
theorem analyze_block_statement_succ (fuel : Nat) (body : List Statement) (ctx : Ctx) :
    analyze_block_statement (fuel + 1) body ctx =
      let needs_block_scope := body.any fun stmt =>
        match stmt with
        | .VariableDeclaration _ .Let => true
        | .VariableDeclaration _ .Const => true
        | _ => false
      if needs_block_scope then
        let (block_scope_id, ctx) := create_scope .Block (some ctx.current_scope) ctx
        let previous_scope := ctx.current_scope
        let ctx := { ctx with current_scope := block_scope_id }
        let ctx := hoist_statement_list fuel body ctx
        let ctx := analyze_statement_list fuel body ctx
        { ctx with current_scope := previous_scope }
      else
        analyze_statement_list fuel body ctx
  := rfl

/-- One-step unfolding of `analyze_for_statement` at successor fuel. -/
theorem analyze_for_statement_succ (fuel : Nat) (init : Option ForInit) (test : Option Expression) (update : Option Expression) (body : Statement) (ctx : Ctx) :
    analyze_for_statement (fuel + 1) init test update body ctx =
      let needs_loop_scope :=
        match init with
        | some (.VariableDeclaration _ .Let) => true
        | some (.VariableDeclaration _ .Const) => true
        | _ => false
      if needs_loop_scope then
        let (loop_scope_id, ctx) := create_scope .Block (some ctx.current_scope) ctx
        let previous_scope := ctx.current_scope
        let ctx := { ctx with current_scope := loop_scope_id }
        let ctx := analyze_for_parts fuel init test update body ctx
        { ctx with current_scope := previous_scope }
      else
        analyze_for_parts fuel init test update body ctx
  := rfl

/-- One-step unfolding of `analyze_for_parts` at successor fuel. -/
theorem analyze_for_parts_succ (fuel : Nat) (init : Option ForInit) (test : Option Expression) (update : Option Expression) (body : Statement) (ctx : Ctx) :
    analyze_for_parts (fuel + 1) init test update body ctx =
      let ctx :=
        match init with
        | some for_init => analyze_for_init fuel for_init ctx
        | none => ctx
      let ctx :=
        match test with
        | some test_expr => analyze_expression fuel test_expr ctx
        | none => ctx
      let ctx :=
        match update with
        | some update_expr => analyze_expression fuel update_expr ctx
        | none => ctx
      analyze_statement fuel body ctx
  := rfl

/-- One-step unfolding of `analyze_for_init` at successor fuel. -/
theorem analyze_for_init_succ (fuel : Nat) (init : ForInit) (ctx : Ctx) :
    analyze_for_init (fuel + 1) init ctx =
      match init with
      | .VariableDeclaration declarations kind =>
          analyze_variable_declaration fuel declarations kind ctx
      | .Expression expr => analyze_expression fuel expr ctx
  := rfl

/-- One-step unfolding of `analyze_expression` at successor fuel. -/
theorem analyze_expression_succ (fuel : Nat) (expression : Expression) (ctx : Ctx) :
    analyze_expression (fuel + 1) expression ctx =
      match expression with
      | .Identifier id => reference_symbol id.name .Read ctx
      | .BinaryExpression left _ right =>
          analyze_expression fuel right (analyze_expression fuel left ctx)
      | .UnaryExpression _ argument _ => analyze_expression fuel argument ctx
      | .AssignmentExpression left _ right =>
          analyze_expression fuel right (analyze_assignment_target fuel left ctx)
      | .CallExpression callee arguments =>
          analyze_expression_list fuel arguments (analyze_call_callee fuel callee ctx)
      | .FunctionExpression func_expr => analyze_function_expression fuel func_expr ctx
      | .ArrowFunctionExpression params body _ => analyze_arrow_function fuel params body ctx
      | .MemberExpression object property _ =>
          analyze_member_property fuel property (analyze_expression fuel object ctx)
      | .Literal _ => ctx
      | _ => ctx
  := rfl

/-- One-step unfolding of `analyze_assignment_target` at successor fuel. -/
theorem analyze_assignment_target_succ (fuel : Nat) (left : Expression) (ctx : Ctx) :
    analyze_assignment_target (fuel + 1) left ctx =
      match left with
      | .Identifier id => reference_symbol id.name .Write ctx
      | other => analyze_expression fuel other ctx
  := rfl

/-- One-step unfolding of `analyze_call_callee` at successor fuel. -/
theorem analyze_call_callee_succ (fuel : Nat) (callee : Expression) (ctx : Ctx) :
    analyze_call_callee (fuel + 1) callee ctx =
      match callee with
      | .Identifier id => reference_symbol id.name .Call ctx
      | other => analyze_expression fuel other ctx
  := rfl

/-- One-step unfolding of `analyze_member_property` at successor fuel. -/
theorem analyze_member_property_succ (fuel : Nat) (property : Expression) (ctx : Ctx) :
    analyze_member_property (fuel + 1) property ctx =
      match property with
      | .Identifier id => reference_symbol id.name .PropertyAccess ctx
      | other => analyze_expression fuel other ctx
  := rfl

/-- One-step unfolding of `analyze_expression_list` at successor fuel. -/
theorem analyze_expression_list_succ (fuel : Nat) (expressions : List Expression) (ctx : Ctx) :
    analyze_expression_list (fuel + 1) expressions ctx =
      match expressions with
      | [] => ctx
      | expr :: rest => analyze_expression_list fuel rest (analyze_expression fuel expr ctx)
  := rfl

/-- One-step unfolding of `analyze_function_expression` at successor fuel. -/
theorem analyze_function_expression_succ (fuel : Nat) (func_expr : FunctionExpression) (ctx : Ctx) :
    analyze_function_expression (fuel + 1) func_expr ctx =
      match func_expr with
      | .mk _ params body _ _ =>
          match body with
          | .mk body_statements =>
              let (function_scope_id, ctx) :=
                create_scope .Function (some ctx.current_scope) ctx
              let previous_scope := ctx.current_scope
              let ctx := { ctx with current_scope := function_scope_id }
              let ctx := hoist_statement_list fuel body_statements ctx
              let ctx := analyze_param_list fuel params ctx
              let ctx := analyze_statement_list fuel body_statements ctx
              { ctx with current_scope := previous_scope }
  := rfl

/-- One-step unfolding of `analyze_arrow_function` at successor fuel. -/
theorem analyze_arrow_function_succ (fuel : Nat) (params : List Pattern) (body : ArrowFunctionBody) (ctx : Ctx) :
    analyze_arrow_function (fuel + 1) params body ctx =
      let (function_scope_id, ctx) := create_scope .Function (some ctx.current_scope) ctx
      let previous_scope := ctx.current_scope
      let ctx := { ctx with current_scope := function_scope_id }
      let ctx :=
        match body with
        | .BlockStatement (.mk block_statements) => hoist_statement_list fuel block_statements ctx
        | _ => ctx
      let ctx := analyze_param_list fuel params ctx
      let ctx :=
        match body with
        | .Expression expr => analyze_expression fuel expr ctx
        | .BlockStatement (.mk block_statements) => analyze_statement_list fuel block_statements ctx
      { ctx with current_scope := previous_scope }
  := rfl

/-- One-step unfolding of `analyze_statement_semantics` at successor fuel. -/
theorem analyze_statement_semantics_succ (fuel : Nat) (statement : Statement) (sctx : SemCtx) :
    analyze_statement_semantics (fuel + 1) statement sctx =
      match statement with
      | .VariableDeclaration declarations _ =>
          analyze_declarator_inits_semantics fuel declarations sctx
      | .FunctionDeclaration _ _ body _ _ =>
          match body with
          | .mk body_statements =>
              match find_child_scope_of_type sctx.current_scope .Function sctx with
              | some function_scope =>
                  let previous_scope := sctx.current_scope
                  let previous_arrow_state := sctx.in_arrow_function
                  let sctx := { sctx with current_scope := function_scope
                                          in_arrow_function := false }
                  let sctx := analyze_statement_list_semantics fuel body_statements sctx
                  { sctx with current_scope := previous_scope
                              in_arrow_function := previous_arrow_state }
              | none => sctx
      | .ClassDeclaration _ super_class body =>
          match body with
          | .mk elements =>
              let sctx :=
                match super_class with
                | some super_expr => analyze_expression_semantics fuel super_expr sctx
                | none => sctx
              match find_child_scope_of_type sctx.current_scope .Class sctx with
              | some class_scope =>
                  let previous_scope := sctx.current_scope
                  let sctx := { sctx with current_scope := class_scope }
                  let sctx := analyze_class_element_list_semantics fuel elements sctx
                  { sctx with current_scope := previous_scope }
              | none => sctx
      | .ExpressionStatement expression => analyze_expression_semantics fuel expression sctx
      | .BlockStatement body =>
          match find_child_scope_of_type sctx.current_scope .Block sctx with
          | some scope_id =>
              let previous_scope := sctx.current_scope
              let sctx := { sctx with current_scope := scope_id }
              let sctx := analyze_statement_list_semantics fuel body sctx
              { sctx with current_scope := previous_scope }
          | none => analyze_statement_list_semantics fuel body sctx
      | .ReturnStatement argument =>
          match argument with
          | some expr => analyze_expression_semantics fuel expr sctx
          | none => sctx
      | .IfStatement test consequent alternate =>
          let sctx := analyze_expression_semantics fuel test sctx
          let sctx := analyze_statement_semantics fuel consequent sctx
          match alternate with
          | some alt => analyze_statement_semantics fuel alt sctx
          | none => sctx
      | .WhileStatement test body =>
          analyze_statement_semantics fuel body (analyze_expression_semantics fuel test sctx)
      | .ForStatement init test update body =>
          match find_child_scope_of_type sctx.current_scope .Block sctx with
          | some scope_id =>
              let previous_scope := sctx.current_scope
              let sctx := { sctx with current_scope := scope_id }
              let sctx := analyze_for_parts_semantics fuel init test update body sctx
              { sctx with current_scope := previous_scope }
          | none => analyze_for_parts_semantics fuel init test update body sctx
      | .ImportDeclaration _ _ => sctx
      | .ExportNamedDeclaration declaration _ _ =>
          match declaration with
          | some decl => analyze_statement_semantics fuel decl sctx
          | none => sctx
  := rfl

/-- One-step unfolding of `analyze_statement_list_semantics` at successor fuel. -/
theorem analyze_statement_list_semantics_succ (fuel : Nat) (statements : List Statement) (sctx : SemCtx) :
    analyze_statement_list_semantics (fuel + 1) statements sctx =
      match statements with
      | [] => sctx
      | stmt :: rest =>
          analyze_statement_list_semantics fuel rest (analyze_statement_semantics fuel stmt sctx)
  := rfl

/-- One-step unfolding of `analyze_declarator_inits_semantics` at successor fuel. -/
theorem analyze_declarator_inits_semantics_succ (fuel : Nat) (declarations : List VariableDeclarator) (sctx : SemCtx) :
    analyze_declarator_inits_semantics (fuel + 1) declarations sctx =
      match declarations with
      | [] => sctx
      | .mk _ init_opt :: rest =>
          let sctx :=
            match init_opt with
            | some init => analyze_expression_semantics fuel init sctx
            | none => sctx
          analyze_declarator_inits_semantics fuel rest sctx
  := rfl

/-- One-step unfolding of `analyze_class_element_semantics` at successor fuel. -/
theorem analyze_class_element_semantics_succ (fuel : Nat) (element : ClassElement) (sctx : SemCtx) :
    analyze_class_element_semantics (fuel + 1) element sctx =
      match element with
      | .PropertyDefinition _ value _ _ =>
          match value with
          | some expr => analyze_expression_semantics fuel expr sctx
          | none => sctx
      | .MethodDefinition _ value _ _ _ =>
          analyze_function_expression_semantics fuel value sctx
  := rfl

/-- One-step unfolding of `analyze_class_element_list_semantics` at successor fuel. -/
theorem analyze_class_element_list_semantics_succ (fuel : Nat) (elements : List ClassElement) (sctx : SemCtx) :
    analyze_class_element_list_semantics (fuel + 1) elements sctx =
      match elements with
      | [] => sctx
      | element :: rest =>
          analyze_class_element_list_semantics fuel rest (analyze_class_element_semantics fuel element sctx)
  := rfl

/-- One-step unfolding of `analyze_for_parts_semantics` at successor fuel. -/
theorem analyze_for_parts_semantics_succ (fuel : Nat) (init : Option ForInit) (test : Option Expression) (update : Option Expression) (body : Statement) (sctx : SemCtx) :
    analyze_for_parts_semantics (fuel + 1) init test update body sctx =
      let sctx :=
        match init with
        | some for_init => analyze_for_init_semantics fuel for_init sctx
        | none => sctx
      let sctx :=
        match test with
        | some test_expr => analyze_expression_semantics fuel test_expr sctx
        | none => sctx
      let sctx :=
        match update with
        | some update_expr => analyze_expression_semantics fuel update_expr sctx
        | none => sctx
      analyze_statement_semantics fuel body sctx
  := rfl

/-- One-step unfolding of `analyze_for_init_semantics` at successor fuel. -/
theorem analyze_for_init_semantics_succ (fuel : Nat) (init : ForInit) (sctx : SemCtx) :
    analyze_for_init_semantics (fuel + 1) init sctx =
      match init with
      | .VariableDeclaration declarations _ =>
          analyze_declarator_inits_semantics fuel declarations sctx
      | .Expression expr => analyze_expression_semantics fuel expr sctx
  := rfl

/-- One-step unfolding of `analyze_expression_semantics` at successor fuel. -/
theorem analyze_expression_semantics_succ (fuel : Nat) (expression : Expression) (sctx : SemCtx) :
    analyze_expression_semantics (fuel + 1) expression sctx =
      match expression with
      | .Identifier id =>
          if id.name = "eval" then
            mark_scope_unsafe_and_symbols sctx.current_scope .EvalUsage sctx
          else sctx
      | .CallExpression callee arguments =>
          let sctx := check_eval_callee callee sctx
          let sctx := analyze_expression_semantics fuel callee sctx
          analyze_expression_list_semantics fuel arguments sctx
      | .ThisExpression =>
          if sctx.in_arrow_function then sctx
          else mark_scope_unsafe_and_symbols sctx.current_scope .DynamicThis sctx
      | .BinaryExpression left _ right =>
          analyze_expression_semantics fuel right (analyze_expression_semantics fuel left sctx)
      | .UnaryExpression _ argument _ => analyze_expression_semantics fuel argument sctx
      | .AssignmentExpression left _ right =>
          analyze_expression_semantics fuel right (analyze_expression_semantics fuel left sctx)
      | .MemberExpression object property computed =>
          let sctx := analyze_expression_semantics fuel object sctx
          if computed then
            let sctx := analyze_expression_semantics fuel property sctx
            check_indirect_global_access object sctx
          else
            analyze_member_property_semantics fuel property sctx
      | .FunctionExpression func_expr =>
          analyze_function_expression_semantics fuel func_expr sctx
      | .ArrowFunctionExpression _ body _ =>
          match find_child_scope_of_type sctx.current_scope .Function sctx with
          | some function_scope =>
              let previous_scope := sctx.current_scope
              let previous_arrow_state := sctx.in_arrow_function
              let sctx := { sctx with current_scope := function_scope
                                      in_arrow_function := true }
              let sctx :=
                match body with
                | .Expression expr => analyze_expression_semantics fuel expr sctx
                | .BlockStatement (.mk block_statements) =>
                    analyze_statement_list_semantics fuel block_statements sctx
              { sctx with current_scope := previous_scope
                          in_arrow_function := previous_arrow_state }
          | none => sctx
      | .ConditionalExpression test consequent alternate =>
          let sctx := analyze_expression_semantics fuel test sctx
          let sctx := analyze_expression_semantics fuel consequent sctx
          analyze_expression_semantics fuel alternate sctx
      | .Literal _ => sctx
      | _ => sctx
  := rfl

/-- One-step unfolding of `analyze_member_property_semantics` at successor fuel. -/
theorem analyze_member_property_semantics_succ (fuel : Nat) (property : Expression) (sctx : SemCtx) :
    analyze_member_property_semantics (fuel + 1) property sctx =
      match property with
      | .Identifier _ => sctx
      | other => analyze_expression_semantics fuel other sctx
  := rfl

/-- One-step unfolding of `analyze_expression_list_semantics` at successor fuel. -/
theorem analyze_expression_list_semantics_succ (fuel : Nat) (expressions : List Expression) (sctx : SemCtx) :
    analyze_expression_list_semantics (fuel + 1) expressions sctx =
      match expressions with
      | [] => sctx
      | expr :: rest =>
          analyze_expression_list_semantics fuel rest (analyze_expression_semantics fuel expr sctx)
  := rfl

/-- One-step unfolding of `analyze_function_expression_semantics` at successor fuel. -/
theorem analyze_function_expression_semantics_succ (fuel : Nat) (func_expr : FunctionExpression) (sctx : SemCtx) :
    analyze_function_expression_semantics (fuel + 1) func_expr sctx =
      match func_expr with
      | .mk _ _ body _ _ =>
          match body with
          | .mk body_statements =>
              match find_child_scope_of_type sctx.current_scope .Function sctx with
              | some function_scope =>
                  let previous_scope := sctx.current_scope
                  let previous_arrow_state := sctx.in_arrow_function
                  let sctx := { sctx with current_scope := function_scope
                                          in_arrow_function := false }
                  let sctx := analyze_statement_list_semantics fuel body_statements sctx
                  { sctx with current_scope := previous_scope
                              in_arrow_function := previous_arrow_state }
              | none => sctx
  := rfl

/-- One-step unfolding of `print_statement` at successor fuel. -/
theorem print_statement_succ (fuel : Nat) (stmt : Statement) (p : Printer) :
    print_statement (fuel + 1) stmt p =
      match stmt with
      | .VariableDeclaration declarations kind =>
          print_variable_declaration fuel declarations kind p
      | .FunctionDeclaration id params body is_async is_generator =>
          print_function_declaration fuel id params body is_async is_generator p
      | .ExpressionStatement expression => print_expression_statement fuel expression p
      | .BlockStatement body => print_block_statement fuel body p
      | .ReturnStatement argument => print_return_statement fuel argument p
      | _ => p.write "/* STMT */"
  := rfl

/-- One-step unfolding of `print_variable_declaration` at successor fuel. -/
theorem print_variable_declaration_succ (fuel : Nat) (declarations : List VariableDeclarator) (kind : VariableDeclarationKind) (p : Printer) :
    print_variable_declaration (fuel + 1) declarations kind p =
      let p :=
        match kind with
        | .Var => p.write "var"
        | .Let => p.write "let"
        | .Const => p.write "const"
      let p := p.print_space_if_needed
      let p := print_declarator_list fuel declarations 0 p
      p.print_semicolon_if_needed
  := rfl

/-- One-step unfolding of `print_declarator_list` at successor fuel. -/
theorem print_declarator_list_succ (fuel : Nat) (declarations : List VariableDeclarator) (i : Nat) (p : Printer) :
    print_declarator_list (fuel + 1) declarations i p =
      match declarations with
      | [] => p
      | declarator :: rest =>
          let p := if i > 0 then (p.write ",").print_space_if_needed else p
          let p := print_variable_declarator fuel declarator p
          print_declarator_list fuel rest (i + 1) p
  := rfl

/-- One-step unfolding of `print_variable_declarator` at successor fuel. -/
theorem print_variable_declarator_succ (fuel : Nat) (declarator : VariableDeclarator) (p : Printer) :
    print_variable_declarator (fuel + 1) declarator p =
      match declarator with
      | .mk id init =>
          let p := p.print_pattern id
          match init with
          | some init_expr =>
              let p := p.print_assignment_operator
              print_expression fuel init_expr .Assignment p
          | none => p
  := rfl

/-- One-step unfolding of `print_function_declaration` at successor fuel. -/
theorem print_function_declaration_succ (fuel : Nat) (id : Option Identifier) (params : List Pattern) (body : BlockStatement) (is_async : Bool) (is_generator : Bool) (p : Printer) :
    print_function_declaration (fuel + 1) id params body is_async is_generator p =
      match body with
      | .mk body_statements =>
          let p := if is_async then (p.write "async").print_space_if_needed else p
          let p := p.write "function"
          let p := if is_generator then p.write "*" else p
          let p :=
            match id with
            | some id_node => p.print_space_if_needed.print_identifier id_node
            | none => p
          let p := p.write "("
          let p := p.print_parameter_list params
          let p := p.write ")"
          print_block_statement_body fuel body_statements p
  := rfl

/-- One-step unfolding of `print_expression_statement` at successor fuel. -/
theorem print_expression_statement_succ (fuel : Nat) (expression : Expression) (p : Printer) :
    print_expression_statement (fuel + 1) expression p =
      let needs_wrapping :=
        match expression with
        | .ObjectExpression _ => true
        | .FunctionExpression _ => true
        | _ => false
      let p := if needs_wrapping then p.write "(" else p
      let p := print_expression fuel expression .Sequence p
      let p := if needs_wrapping then p.write ")" else p
      p.print_semicolon_if_needed
  := rfl

/-- One-step unfolding of `print_block_statement` at successor fuel. -/
theorem print_block_statement_succ (fuel : Nat) (body : List Statement) (p : Printer) :
    print_block_statement (fuel + 1) body p =
      print_block_statement_body fuel body p
  := rfl

/-- One-step unfolding of `print_block_statement_body` at successor fuel. -/
theorem print_block_statement_body_succ (fuel : Nat) (body : List Statement) (p : Printer) :
    print_block_statement_body (fuel + 1) body p =
      let p := p.write "\x7b"
      let p :=
        if body.isEmpty then p
        else
          let p := p.print_newline_if_needed
          let p := { p with indent_level := p.indent_level + 1 }
          let p := print_block_body_list fuel body p
          let p := { p with indent_level := p.indent_level - 1 }
          p.print_indent_if_needed
      p.write "\x7d"
  := rfl

/-- One-step unfolding of `print_block_body_list` at successor fuel. -/
theorem print_block_body_list_succ (fuel : Nat) (body : List Statement) (p : Printer) :
    print_block_body_list (fuel + 1) body p =
      match body with
      | [] => p
      | stmt :: rest =>
          let p := p.print_indent_if_needed
          let p := print_statement fuel stmt p
          let p := p.print_newline_if_needed
          print_block_body_list fuel rest p
  := rfl

/-- One-step unfolding of `print_return_statement` at successor fuel. -/
theorem print_return_statement_succ (fuel : Nat) (argument : Option Expression) (p : Printer) :
    print_return_statement (fuel + 1) argument p =
      let p := p.write "return"
      let p := { p with prev_token := some .Identifier }
      let p :=
        match argument with
        | some arg =>
            let p := p.print_space_if_needed
            print_expression fuel arg .Sequence p
        | none => p
      p.print_semicolon_if_needed
  := rfl

/-- One-step unfolding of `print_expression` at successor fuel. -/
theorem print_expression_succ (fuel : Nat) (expr : Expression) (parent_precedence : Precedence) (p : Printer) :
    print_expression (fuel + 1) expr parent_precedence p =
      match expr with
      | .Identifier id => p.print_identifier id
      | .Literal lit => p.print_literal lit
      | .BinaryExpression left operator right =>
          print_binary_expression fuel left operator right parent_precedence p
      | .TemplateLiteral quasis expressions =>
          print_template_literal fuel quasis expressions p
      | .ThisExpression => p.print_this_expression
      | _ => p.write "/* EXPR */"
  := rfl

/-- One-step unfolding of `print_binary_expression` at successor fuel. -/
theorem print_binary_expression_succ (fuel : Nat) (left : Expression) (operator : BinaryOperator) (right : Expression) (parent_precedence : Precedence) (p : Printer) :
    print_binary_expression (fuel + 1) left operator right parent_precedence p =
      let precedence := get_binary_operator_precedence operator
      let needs_parens := precedence.val < parent_precedence.val
      let p := if needs_parens then p.write "(" else p
      let p := print_expression fuel left precedence p
      let p := p.print_binary_operator operator
      let p := print_expression fuel right precedence p
      if needs_parens then p.write ")" else p
  := rfl

/-- One-step unfolding of `print_template_literal` at successor fuel. -/
theorem print_template_literal_succ (fuel : Nat) (quasis : List TemplateElement) (expressions : List Expression) (p : Printer) :
    print_template_literal (fuel + 1) quasis expressions p =
      let p := p.write "`"
      let p := print_template_quasis fuel quasis 0 expressions p
      p.write "`"
  := rfl

/-- One-step unfolding of `print_template_quasis` at successor fuel. -/
theorem print_template_quasis_succ (fuel : Nat) (quasis : List TemplateElement) (i : Nat) (expressions : List Expression) (p : Printer) :
    print_template_quasis (fuel + 1) quasis i expressions p =
      match quasis with
      | [] => p
      | quasi :: rest =>
          let p := p.write (escape_template_element quasi.value)
          let p :=
            if h : quasi.tail = false ∧ i < expressions.length then
              let p := p.write "$\x7b"
              let p := print_expression fuel (expressions.get ⟨i, h.2⟩) .Sequence p
              p.write "\x7d"
            else p
          print_template_quasis fuel rest (i + 1) expressions p
  := rfl


/-! ## The capture invariant (claim C2) -/

/-- A freshly declared symbol satisfies the capture invariant. -/
theorem symbol_capture_ok_fresh (id : SymbolId) (sym : Symbol)
    (hc : sym.is_captured = false) (hr : sym.references = []) :
    symbol_capture_ok (id, sym) := by
  constructor
  · intro h; rw [hc] at h; cases h
  · rintro ⟨r, hrm, -⟩; rw [hr] at hrm; cases hrm

/-- `declare_symbol` preserves the capture invariant. -/
theorem symbols_ok_declare (name : String) (symbol_type : SymbolType)
    (scope_id : ScopeId) (ctx : Ctx) (h : symbols_ok ctx.symbol_table.symbols) :
    symbols_ok (declare_symbol name symbol_type scope_id ctx).2.symbol_table.symbols := by
  have fresh : symbols_ok
      (declare_symbol.declare_symbol_fresh name symbol_type scope_id ctx).2.symbol_table.symbols := by
    unfold declare_symbol.declare_symbol_fresh
    intro pr hm
    simp only [] at hm
    rcases mem_alInsert hm with hm' | hm'
    · exact h pr hm'
    · subst hm'; exact symbol_capture_ok_fresh _ _ rfl rfl
  unfold declare_symbol
  split
  · split
    · exact h
    · exact fresh
  · exact fresh

/-- `reference_symbol` preserves the capture invariant. -/
theorem symbols_ok_reference (name : String) (reference_type : ReferenceType)
    (ctx : Ctx) (h : symbols_ok ctx.symbol_table.symbols) :
    symbols_ok (reference_symbol name reference_type ctx).symbol_table.symbols := by
  unfold reference_symbol
  split
  · intro pr hm
    simp only [] at hm
    rcases mem_alModify hm with hm' | hm'
    · exact h pr hm'
    · obtain ⟨y, hy, hx⟩ := hm'
      have hold := h y hy
      subst hx
      simp only [symbol_capture_ok] at hold ⊢
      by_cases hs : y.2.scope_id = ctx.current_scope
      · rw [if_neg (by simp [hs])]
        simp only [List.mem_append, List.mem_singleton]
        constructor
        · intro hc
          obtain ⟨r, hrm, hrne⟩ := hold.mp hc
          exact ⟨r, Or.inl hrm, hrne⟩
        · rintro ⟨r, hrm | hrm, hrne⟩
          · exact hold.mpr ⟨r, hrm, hrne⟩
          · subst hrm; simp [hs] at hrne
      · rw [if_pos (by simp [hs])]
        simp only [List.mem_append, List.mem_singleton]
        constructor
        · intro _
          refine ⟨{ location := ctx.current_location,
                    reference_type := reference_type,
                    scope_id := ctx.current_scope }, Or.inr rfl, ?_⟩
          simpa using fun hh => hs hh.symm
        · intro _; simp
  · exact h

/-- `mark_last_declaration_as_exported` preserves the capture invariant
(it only touches `is_exported`/`is_renamable`). -/
theorem symbols_ok_mark_exported (ctx : Ctx)
    (h : symbols_ok ctx.symbol_table.symbols) :
    symbols_ok (mark_last_declaration_as_exported ctx).symbol_table.symbols := by
  unfold mark_last_declaration_as_exported
  split
  · split
    · intro pr hm
      simp only [] at hm
      rcases mem_alModify hm with hm' | hm'
      · exact h pr hm'
      · obtain ⟨y, hy, hx⟩ := hm'
        have hold := h y hy
        subst hx
        simpa [symbol_capture_ok] using hold
    · exact h
  · exact h

/-- `create_scope` does not touch the symbol table. -/
theorem create_scope_symbol_table (scope_type : ScopeType)
    (parent_id : Option ScopeId) (ctx : Ctx) :
    (create_scope scope_type parent_id ctx).2.symbol_table = ctx.symbol_table := rfl

/-- `hoist_pattern_declaration` preserves the capture invariant. -/
theorem symbols_ok_hoist_pattern (pattern : Pattern) (ctx : Ctx)
    (h : symbols_ok ctx.symbol_table.symbols) :
    symbols_ok (hoist_pattern_declaration pattern ctx).symbol_table.symbols := by
  cases pattern with
  | Identifier id =>
      simpa [hoist_pattern_declaration] using
        symbols_ok_declare id.name (.Variable .Var) ctx.current_scope ctx h
  | _ => simpa [hoist_pattern_declaration] using h

/-- `hoist_declarator_list` preserves the capture invariant. -/
theorem symbols_ok_hoist_declarator_list (declarations : List VariableDeclarator)
    (ctx : Ctx) (h : symbols_ok ctx.symbol_table.symbols) :
    symbols_ok (hoist_declarator_list declarations ctx).symbol_table.symbols := by
  induction declarations generalizing ctx with
  | nil => simpa [hoist_declarator_list] using h
  | cons d rest ih =>
      rw [hoist_declarator_list]
      exact ih _ (symbols_ok_hoist_pattern d.id ctx h)

mutual

/-- `hoist_statement_declarations` preserves the capture invariant. -/
theorem symbols_ok_hoist_statement (fuel : Nat) (statement : Statement) (ctx : Ctx)
    (h : symbols_ok ctx.symbol_table.symbols) :
    symbols_ok (hoist_statement_declarations fuel statement ctx).symbol_table.symbols := by
  match fuel with
  | 0 => exact h
  | fuel + 1 =>
      rw [hoist_statement_declarations_succ]
      cases statement with
      | VariableDeclaration declarations kind =>
          cases kind with
          | Var => exact symbols_ok_hoist_declarator_list declarations ctx h
          | Let => exact h
          | Const => exact h
      | FunctionDeclaration id params body is_async is_generator =>
          cases id with
          | some function_id =>
              exact symbols_ok_declare function_id.name .Function ctx.current_scope ctx h
          | none => exact h
      | BlockStatement body =>
          exact symbols_ok_hoist_statement_list fuel body ctx h
      | IfStatement test consequent alternate =>
          cases alternate with
          | some alt =>
              exact symbols_ok_hoist_statement fuel alt _
                (symbols_ok_hoist_statement fuel consequent ctx h)
          | none => exact symbols_ok_hoist_statement fuel consequent ctx h
      | WhileStatement test body =>
          exact symbols_ok_hoist_statement fuel body ctx h
      | ForStatement init test update body =>
          exact symbols_ok_hoist_statement fuel body ctx h
      | ClassDeclaration id super_class body => exact h
      | ExpressionStatement expression => exact h
      | ReturnStatement argument => exact h
      | ImportDeclaration specifiers source => exact h
      | ExportNamedDeclaration declaration specifiers source => exact h
termination_by fuel

/-- `hoist_statement_list` preserves the capture invariant. -/
theorem symbols_ok_hoist_statement_list (fuel : Nat) (statements : List Statement)
    (ctx : Ctx) (h : symbols_ok ctx.symbol_table.symbols) :
    symbols_ok (hoist_statement_list fuel statements ctx).symbol_table.symbols := by
  match fuel with
  | 0 => exact h
  | fuel + 1 =>
      rw [hoist_statement_list_succ]
      cases statements with
      | nil => exact h
      | cons stmt rest =>
          exact symbols_ok_hoist_statement_list fuel rest _
            (symbols_ok_hoist_statement fuel stmt ctx h)
termination_by fuel

end

/-- `analyze_pattern_binding` preserves the capture invariant. -/
theorem symbols_ok_pattern_binding (pattern : Pattern) (var_kind : VariableKind)
    (ctx : Ctx) (h : symbols_ok ctx.symbol_table.symbols) :
    symbols_ok (analyze_pattern_binding pattern var_kind ctx).symbol_table.symbols := by
  cases pattern with
  | Identifier id =>
      simpa [analyze_pattern_binding] using
        symbols_ok_declare id.name (.Variable var_kind) ctx.current_scope ctx h
  | _ => simpa [analyze_pattern_binding] using h

/-- `analyze_import_declaration` preserves the capture invariant. -/
theorem symbols_ok_import (specifiers : List ImportSpecifier) (ctx : Ctx)
    (h : symbols_ok ctx.symbol_table.symbols) :
    symbols_ok (analyze_import_declaration specifiers ctx).symbol_table.symbols := by
  induction specifiers generalizing ctx with
  | nil => simpa [analyze_import_declaration] using h
  | cons specifier rest ih =>
      rw [analyze_import_declaration.eq_def]
      cases specifier with
      | ImportDefaultSpecifier local_ => exact ih _ (symbols_ok_declare _ _ _ _ h)
      | ImportNamespaceSpecifier local_ => exact ih _ (symbols_ok_declare _ _ _ _ h)
      | ImportSpecifier imported local_ => exact ih _ (symbols_ok_declare _ _ _ _ h)

mutual

/-- `analyze_statement` preserves the capture invariant. -/
theorem so_statement (fuel : Nat) (statement : Statement) (ctx : Ctx)
    (h : symbols_ok ctx.symbol_table.symbols) :
    symbols_ok (analyze_statement fuel statement ctx).symbol_table.symbols := by
  match fuel with
  | 0 => exact h
  | fuel + 1 =>
      rw [analyze_statement_succ]
      cases statement with
      | VariableDeclaration declarations kind =>
          exact so_variable_declaration fuel declarations kind ctx h
      | FunctionDeclaration id params body is_async is_generator =>
          exact so_function_declaration fuel id params body ctx h
      | ClassDeclaration id super_class body =>
          exact so_class_declaration fuel id super_class body ctx h
      | ExpressionStatement expression =>
          exact so_expression fuel expression ctx h
      | BlockStatement body =>
          exact so_block_statement fuel body ctx h
      | ReturnStatement argument =>
          cases argument with
          | some expr => exact so_expression fuel expr ctx h
          | none => exact h
      | IfStatement test consequent alternate =>
          cases alternate with
          | some alt =>
              exact so_statement fuel alt _
                (so_statement fuel consequent _ (so_expression fuel test ctx h))
          | none =>
              exact so_statement fuel consequent _ (so_expression fuel test ctx h)
      | WhileStatement test body =>
          exact so_statement fuel body _ (so_expression fuel test ctx h)
      | ForStatement init test update body =>
          exact so_for_statement fuel init test update body ctx h
      | ImportDeclaration specifiers source =>
          exact symbols_ok_import specifiers ctx h
      | ExportNamedDeclaration declaration specifiers source =>
          cases declaration with
          | some decl =>
              exact symbols_ok_mark_exported _ (so_statement fuel decl ctx h)
          | none => exact h
termination_by fuel

/-- `analyze_statement_list` preserves the capture invariant. -/
theorem so_statement_list (fuel : Nat) (statements : List Statement) (ctx : Ctx)
    (h : symbols_ok ctx.symbol_table.symbols) :
    symbols_ok (analyze_statement_list fuel statements ctx).symbol_table.symbols := by
  match fuel with
  | 0 => exact h
  | fuel + 1 =>
      rw [analyze_statement_list_succ]
      cases statements with
      | nil => exact h
      | cons stmt rest =>
          exact so_statement_list fuel rest _ (so_statement fuel stmt ctx h)
termination_by fuel

/-- `analyze_variable_declaration` preserves the capture invariant. -/
theorem so_variable_declaration (fuel : Nat) (declarations : List VariableDeclarator)
    (kind : VariableDeclarationKind) (ctx : Ctx)
    (h : symbols_ok ctx.symbol_table.symbols) :
    symbols_ok (analyze_variable_declaration fuel declarations kind ctx).symbol_table.symbols := by
  match fuel with
  | 0 => exact h
  | fuel + 1 =>
      rw [analyze_variable_declaration_succ]
      match declarations with
      | [] => exact h
      | .mk pat init_opt :: rest =>
          have h1 : symbols_ok ((match kind with
              | VariableDeclarationKind.Var => ctx
              | _ => analyze_pattern_binding pat
                  (match kind with
                   | .Var => VariableKind.Var
                   | .Let => VariableKind.Let
                   | .Const => VariableKind.Const) ctx).symbol_table.symbols) := by
            cases kind with
            | Var => exact h
            | Let => exact symbols_ok_pattern_binding pat _ ctx h
            | Const => exact symbols_ok_pattern_binding pat _ ctx h
          cases init_opt with
          | some init =>
              exact so_variable_declaration fuel rest kind _ (so_expression fuel init _ h1)
          | none => exact so_variable_declaration fuel rest kind _ h1
termination_by fuel

/-- `analyze_function_declaration` preserves the capture invariant. -/
theorem so_function_declaration (fuel : Nat) (id : Option Identifier) (params : List Pattern)
    (body : BlockStatement) (ctx : Ctx)
    (h : symbols_ok ctx.symbol_table.symbols) :
    symbols_ok (analyze_function_declaration fuel id params body ctx).symbol_table.symbols := by
  match fuel with
  | 0 => exact h
  | fuel + 1 =>
      match body with
      | .mk body_statements =>
          rw [analyze_function_declaration_succ]
          exact so_statement_list fuel body_statements _
            (so_param_list fuel params _
              (symbols_ok_hoist_statement_list fuel body_statements _ h))
termination_by fuel

/-- `analyze_param_list` preserves the capture invariant. -/
theorem so_param_list (fuel : Nat) (params : List Pattern) (ctx : Ctx)
    (h : symbols_ok ctx.symbol_table.symbols) :
    symbols_ok (analyze_param_list fuel params ctx).symbol_table.symbols := by
  match fuel with
  | 0 => exact h
  | fuel + 1 =>
      rw [analyze_param_list_succ]
      cases params with
      | nil => exact h
      | cons param rest =>
          exact so_param_list fuel rest _ (symbols_ok_pattern_binding param .Var ctx h)
termination_by fuel

/-- `analyze_class_declaration` preserves the capture invariant. -/
theorem so_class_declaration (fuel : Nat) (id : Option Identifier)
    (super_class : Option Expression) (body : ClassBody) (ctx : Ctx)
    (h : symbols_ok ctx.symbol_table.symbols) :
    symbols_ok (analyze_class_declaration fuel id super_class body ctx).symbol_table.symbols := by
  match fuel with
  | 0 => exact h
  | fuel + 1 =>
      match body with
      | .mk elements =>
          rw [analyze_class_declaration_succ]
          have h1 : symbols_ok ((match id with
              | some class_id => (declare_symbol class_id.name .Class ctx.current_scope ctx).2
              | none => ctx).symbol_table.symbols) := by
            cases id with
            | some class_id => exact symbols_ok_declare _ _ _ _ h
            | none => exact h
          cases super_class with
          | some super_expr =>
              exact so_class_element_list fuel elements _ (so_expression fuel super_expr _ h1)
          | none => exact so_class_element_list fuel elements _ h1
termination_by fuel

/-- `analyze_class_element` preserves the capture invariant. -/
theorem so_class_element (fuel : Nat) (element : ClassElement) (ctx : Ctx)
    (h : symbols_ok ctx.symbol_table.symbols) :
    symbols_ok (analyze_class_element fuel element ctx).symbol_table.symbols := by
  match fuel with
  | 0 => exact h
  | fuel + 1 =>
      rw [analyze_class_element_succ]
      cases element with
      | PropertyDefinition key value is_static is_private =>
          cases value with
          | some expr => exact so_expression fuel expr ctx h
          | none => exact h
      | MethodDefinition key value kind is_static is_private =>
          exact so_function_expression fuel value ctx h
termination_by fuel

/-- `analyze_class_element_list` preserves the capture invariant. -/
theorem so_class_element_list (fuel : Nat) (elements : List ClassElement) (ctx : Ctx)
    (h : symbols_ok ctx.symbol_table.symbols) :
    symbols_ok (analyze_class_element_list fuel elements ctx).symbol_table.symbols := by
  match fuel with
  | 0 => exact h
  | fuel + 1 =>
      rw [analyze_class_element_list_succ]
      cases elements with
      | nil => exact h
      | cons element rest =>
          exact so_class_element_list fuel rest _ (so_class_element fuel element ctx h)
termination_by fuel

/-- `analyze_block_statement` preserves the capture invariant. -/
theorem so_block_statement (fuel : Nat) (body : List Statement) (ctx : Ctx)
    (h : symbols_ok ctx.symbol_table.symbols) :
    symbols_ok (analyze_block_statement fuel body ctx).symbol_table.symbols := by
  match fuel with
  | 0 => exact h
  | fuel + 1 =>
      rw [analyze_block_statement_succ]
      cases hb : body.any (fun stmt =>
        match stmt with
        | Statement.VariableDeclaration _ VariableDeclarationKind.Let => true
        | Statement.VariableDeclaration _ VariableDeclarationKind.Const => true
        | _ => false) with
      | false =>
          simp only [hb]
          exact so_statement_list fuel body ctx h
      | true =>
          simp only [hb]
          exact so_statement_list fuel body _ (symbols_ok_hoist_statement_list fuel body _ h)
termination_by fuel

/-- `analyze_for_statement` preserves the capture invariant. -/
theorem so_for_statement (fuel : Nat) (init : Option ForInit) (test : Option Expression)
    (update : Option Expression) (body : Statement) (ctx : Ctx)
    (h : symbols_ok ctx.symbol_table.symbols) :
    symbols_ok (analyze_for_statement fuel init test update body ctx).symbol_table.symbols := by
  match fuel with
  | 0 => exact h
  | fuel + 1 =>
      match init with
      | none => exact so_for_parts fuel none test update body ctx h
      | some (.Expression e) => exact so_for_parts fuel _ test update body ctx h
      | some (.VariableDeclaration decls kind) =>
          cases kind with
          | Var => exact so_for_parts fuel _ test update body ctx h
          | Let => exact so_for_parts fuel _ test update body _ h
          | Const => exact so_for_parts fuel _ test update body _ h
termination_by fuel

/-- `analyze_for_parts` preserves the capture invariant. -/
theorem so_for_parts (fuel : Nat) (init : Option ForInit) (test : Option Expression)
    (update : Option Expression) (body : Statement) (ctx : Ctx)
    (h : symbols_ok ctx.symbol_table.symbols) :
    symbols_ok (analyze_for_parts fuel init test update body ctx).symbol_table.symbols := by
  match fuel with
  | 0 => exact h
  | fuel + 1 =>
      rw [analyze_for_parts_succ]
      cases init with
      | some fi =>
          cases test with
          | some te =>
              cases update with
              | some ue =>
                  exact so_statement fuel body _ (so_expression fuel ue _
                    (so_expression fuel te _ (so_for_init fuel fi ctx h)))
              | none =>
                  exact so_statement fuel body _
                    (so_expression fuel te _ (so_for_init fuel fi ctx h))
          | none =>
              cases update with
              | some ue =>
                  exact so_statement fuel body _
                    (so_expression fuel ue _ (so_for_init fuel fi ctx h))
              | none => exact so_statement fuel body _ (so_for_init fuel fi ctx h)
      | none =>
          cases test with
          | some te =>
              cases update with
              | some ue =>
                  exact so_statement fuel body _ (so_expression fuel ue _
                    (so_expression fuel te ctx h))
              | none => exact so_statement fuel body _ (so_expression fuel te ctx h)
          | none =>
              cases update with
              | some ue => exact so_statement fuel body _ (so_expression fuel ue ctx h)
              | none => exact so_statement fuel body ctx h
termination_by fuel

/-- `analyze_for_init` preserves the capture invariant. -/
theorem so_for_init (fuel : Nat) (init : ForInit) (ctx : Ctx)
    (h : symbols_ok ctx.symbol_table.symbols) :
    symbols_ok (analyze_for_init fuel init ctx).symbol_table.symbols := by
  match fuel with
  | 0 => exact h
  | fuel + 1 =>
      cases init with
      | VariableDeclaration declarations kind =>
          exact so_variable_declaration fuel declarations kind ctx h
      | Expression expr => exact so_expression fuel expr ctx h
termination_by fuel

/-- `analyze_expression` preserves the capture invariant. -/
theorem so_expression (fuel : Nat) (expression : Expression) (ctx : Ctx)
    (h : symbols_ok ctx.symbol_table.symbols) :
    symbols_ok (analyze_expression fuel expression ctx).symbol_table.symbols := by
  match fuel with
  | 0 => exact h
  | fuel + 1 =>
      rw [analyze_expression_succ]
      cases expression with
      | Identifier id => exact symbols_ok_reference id.name .Read ctx h
      | BinaryExpression left operator right =>
          exact so_expression fuel right _ (so_expression fuel left ctx h)
      | UnaryExpression operator argument prefix_flag =>
          exact so_expression fuel argument ctx h
      | AssignmentExpression left operator right =>
          exact so_expression fuel right _ (so_assignment_target fuel left ctx h)
      | CallExpression callee arguments =>
          exact so_expression_list fuel arguments _ (so_call_callee fuel callee ctx h)
      | FunctionExpression func_expr =>
          exact so_function_expression fuel func_expr ctx h
      | ArrowFunctionExpression params body is_async =>
          exact so_arrow_function fuel params body ctx h
      | MemberExpression object property computed =>
          exact so_member_property fuel property _ (so_expression fuel object ctx h)
      | Literal lit => exact h
      | UpdateExpression operator argument prefix_flag => exact h
      | ObjectExpression properties => exact h
      | ArrayExpression elements => exact h
      | TemplateLiteral quasis expressions => exact h
      | ConditionalExpression test consequent alternate => exact h
      | ThisExpression => exact h
termination_by fuel

/-- `analyze_assignment_target` preserves the capture invariant. -/
theorem so_assignment_target (fuel : Nat) (left : Expression) (ctx : Ctx)
    (h : symbols_ok ctx.symbol_table.symbols) :
    symbols_ok (analyze_assignment_target fuel left ctx).symbol_table.symbols := by
  match fuel with
  | 0 => exact h
  | fuel + 1 =>
      cases left with
      | Identifier id => exact symbols_ok_reference id.name .Write ctx h
      | _ => exact so_expression fuel _ ctx h
termination_by fuel

/-- `analyze_call_callee` preserves the capture invariant. -/
theorem so_call_callee (fuel : Nat) (callee : Expression) (ctx : Ctx)
    (h : symbols_ok ctx.symbol_table.symbols) :
    symbols_ok (analyze_call_callee fuel callee ctx).symbol_table.symbols := by
  match fuel with
  | 0 => exact h
  | fuel + 1 =>
      cases callee with
      | Identifier id => exact symbols_ok_reference id.name .Call ctx h
      | _ => exact so_expression fuel _ ctx h
termination_by fuel

/-- `analyze_member_property` preserves the capture invariant. -/
theorem so_member_property (fuel : Nat) (property : Expression) (ctx : Ctx)
    (h : symbols_ok ctx.symbol_table.symbols) :
    symbols_ok (analyze_member_property fuel property ctx).symbol_table.symbols := by
  match fuel with
  | 0 => exact h
  | fuel + 1 =>
      cases property with
      | Identifier id => exact symbols_ok_reference id.name .PropertyAccess ctx h
      | _ => exact so_expression fuel _ ctx h
termination_by fuel

/-- `analyze_expression_list` preserves the capture invariant. -/
theorem so_expression_list (fuel : Nat) (expressions : List Expression) (ctx : Ctx)
    (h : symbols_ok ctx.symbol_table.symbols) :
    symbols_ok (analyze_expression_list fuel expressions ctx).symbol_table.symbols := by
  match fuel with
  | 0 => exact h
  | fuel + 1 =>
      rw [analyze_expression_list_succ]
      cases expressions with
      | nil => exact h
      | cons expr rest =>
          exact so_expression_list fuel rest _ (so_expression fuel expr ctx h)
termination_by fuel

/-- `analyze_function_expression` preserves the capture invariant. -/
theorem so_function_expression (fuel : Nat) (func_expr : FunctionExpression) (ctx : Ctx)
    (h : symbols_ok ctx.symbol_table.symbols) :
    symbols_ok (analyze_function_expression fuel func_expr ctx).symbol_table.symbols := by
  match fuel with
  | 0 => exact h
  | fuel + 1 =>
      match func_expr with
      | .mk id params body is_async is_generator =>
          match body with
          | .mk body_statements =>
              exact so_statement_list fuel body_statements _
                (so_param_list fuel params _
                  (symbols_ok_hoist_statement_list fuel body_statements _ h))
termination_by fuel

/-- `analyze_arrow_function` preserves the capture invariant. -/
theorem so_arrow_function (fuel : Nat) (params : List Pattern) (body : ArrowFunctionBody)
    (ctx : Ctx) (h : symbols_ok ctx.symbol_table.symbols) :
    symbols_ok (analyze_arrow_function fuel params body ctx).symbol_table.symbols := by
  match fuel with
  | 0 => exact h
  | fuel + 1 =>
      cases body with
      | Expression expr =>
          exact so_expression fuel expr _ (so_param_list fuel params _ h)
      | BlockStatement block =>
          cases block with
          | mk block_statements =>
              exact so_statement_list fuel block_statements _
                (so_param_list fuel params _
                  (symbols_ok_hoist_statement_list fuel block_statements _ h))
termination_by fuel

end

/-- `analyze_scopes` preserves the capture invariant. -/
theorem symbols_ok_analyze_scopes (ast : Program) (ctx : Ctx)
    (h : symbols_ok ctx.symbol_table.symbols) :
    symbols_ok (analyze_scopes ast ctx).symbol_table.symbols := by
  rw [analyze_scopes]
  exact so_statement_list _ ast.body _ (symbols_ok_hoist_statement_list _ ast.body ctx h)

/-! ## The semantic pass and the capture invariant

The semantic pass only ever modifies a symbol through
`mark_symbols_of_scope`, which touches `is_renamable` alone, so the
capture invariant survives the whole pass. -/

/-- `mark_symbols_of_scope` preserves the capture invariant. -/
theorem symbols_ok_mark_symbols (reason : UnsafeReason)
    (bindings : List (String × SymbolId)) (sctx : SemCtx)
    (h : symbols_ok sctx.symbol_table.symbols) :
    symbols_ok (mark_symbols_of_scope reason bindings sctx).symbol_table.symbols := by
  induction bindings generalizing sctx with
  | nil => simpa [mark_symbols_of_scope] using h
  | cons b rest ih =>
      obtain ⟨n, symbol_id⟩ := b
      rw [mark_symbols_of_scope]
      refine ih _ ?_
      intro pr hm
      simp only [] at hm
      rcases mem_alModify hm with hm' | hm'
      · exact h pr hm'
      · obtain ⟨y, hy, hx⟩ := hm'
        have hold := h y hy
        subst hx
        simpa [symbol_capture_ok] using hold

/-- `mark_scope_unsafe_and_symbols` preserves the capture invariant. -/
theorem symbols_ok_mark_scope (scope_id : ScopeId) (reason : UnsafeReason)
    (sctx : SemCtx) (h : symbols_ok sctx.symbol_table.symbols) :
    symbols_ok (mark_scope_unsafe_and_symbols scope_id reason sctx).symbol_table.symbols := by
  rw [mark_scope_unsafe_and_symbols]
  split
  · exact symbols_ok_mark_symbols _ _ _ h
  · exact h

/-- `check_eval_callee` preserves the capture invariant. -/
theorem symbols_ok_check_eval (callee : Expression) (sctx : SemCtx)
    (h : symbols_ok sctx.symbol_table.symbols) :
    symbols_ok (check_eval_callee callee sctx).symbol_table.symbols := by
  cases callee with
  | Identifier id =>
      rw [check_eval_callee]
      split
      · exact symbols_ok_mark_scope _ _ _ h
      · exact h
  | _ => exact h

/-- `check_indirect_global_access` preserves the capture invariant. -/
theorem symbols_ok_check_indirect (object : Expression) (sctx : SemCtx)
    (h : symbols_ok sctx.symbol_table.symbols) :
    symbols_ok (check_indirect_global_access object sctx).symbol_table.symbols := by
  cases object with
  | Identifier obj_id =>
      rw [check_indirect_global_access]
      split
      · exact symbols_ok_mark_scope _ _ _ h
      · exact h
  | _ => exact h

mutual

/-- `analyze_statement_semantics` preserves the capture invariant. -/
theorem sem_statement (fuel : Nat) (statement : Statement) (sctx : SemCtx)
    (h : symbols_ok sctx.symbol_table.symbols) :
    symbols_ok (analyze_statement_semantics fuel statement sctx).symbol_table.symbols := by
  match fuel with
  | 0 => exact h
  | fuel + 1 =>
      rw [analyze_statement_semantics_succ]
      cases statement with
      | VariableDeclaration declarations kind =>
          exact sem_declarator_inits fuel declarations sctx h
      | FunctionDeclaration id params body is_async is_generator =>
          match body with
          | .mk body_statements =>
              show symbols_ok ((match find_child_scope_of_type sctx.current_scope
                  .Function sctx with
                | some function_scope =>
                    let previous_scope := sctx.current_scope
                    let previous_arrow_state := sctx.in_arrow_function
                    let sctx := { sctx with current_scope := function_scope,
                                            in_arrow_function := false }
                    let sctx := analyze_statement_list_semantics fuel body_statements sctx
                    { sctx with current_scope := previous_scope,
                                in_arrow_function := previous_arrow_state }
                | none => sctx).symbol_table.symbols)
              cases hf : find_child_scope_of_type sctx.current_scope .Function sctx with
              | some function_scope =>
                  exact sem_statement_list fuel body_statements _ h
              | none => exact h
      | ClassDeclaration id super_class body =>
          match body with
          | .mk elements =>
              have key : ∀ s : SemCtx, symbols_ok s.symbol_table.symbols →
                  symbols_ok ((match find_child_scope_of_type s.current_scope .Class s with
                    | some class_scope =>
                        let previous_scope := s.current_scope
                        let s := { s with current_scope := class_scope }
                        let s := analyze_class_element_list_semantics fuel elements s
                        { s with current_scope := previous_scope }
                    | none => s).symbol_table.symbols) := by
                intro s hs
                cases hf : find_child_scope_of_type s.current_scope .Class s with
                | some class_scope => exact sem_class_element_list fuel elements _ hs
                | none => exact hs
              cases super_class with
              | some super_expr => exact key _ (sem_expression fuel super_expr sctx h)
              | none => exact key sctx h
      | ExpressionStatement expression => exact sem_expression fuel expression sctx h
      | BlockStatement body =>
          show symbols_ok ((match find_child_scope_of_type sctx.current_scope
              .Block sctx with
            | some scope_id =>
                let previous_scope := sctx.current_scope
                let sctx := { sctx with current_scope := scope_id }
                let sctx := analyze_statement_list_semantics fuel body sctx
                { sctx with current_scope := previous_scope }
            | none => analyze_statement_list_semantics fuel body sctx).symbol_table.symbols)
          cases hf : find_child_scope_of_type sctx.current_scope .Block sctx with
          | some scope_id => exact sem_statement_list fuel body _ h
          | none => exact sem_statement_list fuel body sctx h
      | ReturnStatement argument =>
          cases argument with
          | some expr => exact sem_expression fuel expr sctx h
          | none => exact h
      | IfStatement test consequent alternate =>
          cases alternate with
          | some alt =>
              exact sem_statement fuel alt _
                (sem_statement fuel consequent _ (sem_expression fuel test sctx h))
          | none =>
              exact sem_statement fuel consequent _ (sem_expression fuel test sctx h)
      | WhileStatement test body =>
          exact sem_statement fuel body _ (sem_expression fuel test sctx h)
      | ForStatement init test update body =>
          show symbols_ok ((match find_child_scope_of_type sctx.current_scope
              .Block sctx with
            | some scope_id =>
                let previous_scope := sctx.current_scope
                let sctx := { sctx with current_scope := scope_id }
                let sctx := analyze_for_parts_semantics fuel init test update body sctx
                { sctx with current_scope := previous_scope }
            | none =>
                analyze_for_parts_semantics fuel init test update body sctx).symbol_table.symbols)
          cases hf : find_child_scope_of_type sctx.current_scope .Block sctx with
          | some scope_id => exact sem_for_parts fuel init test update body _ h
          | none => exact sem_for_parts fuel init test update body sctx h
      | ImportDeclaration specifiers source => exact h
      | ExportNamedDeclaration declaration specifiers source =>
          cases declaration with
          | some decl => exact sem_statement fuel decl sctx h
          | none => exact h
termination_by fuel

/-- `analyze_statement_list_semantics` preserves the capture invariant. -/
theorem sem_statement_list (fuel : Nat) (statements : List Statement) (sctx : SemCtx)
    (h : symbols_ok sctx.symbol_table.symbols) :
    symbols_ok (analyze_statement_list_semantics fuel statements sctx).symbol_table.symbols := by
  match fuel with
  | 0 => exact h
  | fuel + 1 =>
      rw [analyze_statement_list_semantics_succ]
      cases statements with
      | nil => exact h
      | cons stmt rest =>
          exact sem_statement_list fuel rest _ (sem_statement fuel stmt sctx h)
termination_by fuel

/-- `analyze_declarator_inits_semantics` preserves the capture invariant. -/
theorem sem_declarator_inits (fuel : Nat) (declarations : List VariableDeclarator)
    (sctx : SemCtx) (h : symbols_ok sctx.symbol_table.symbols) :
    symbols_ok (analyze_declarator_inits_semantics fuel declarations sctx).symbol_table.symbols := by
  match fuel with
  | 0 => exact h
  | fuel + 1 =>
      rw [analyze_declarator_inits_semantics_succ]
      match declarations with
      | [] => exact h
      | .mk pat init_opt :: rest =>
          cases init_opt with
          | some init =>
              exact sem_declarator_inits fuel rest _ (sem_expression fuel init sctx h)
          | none => exact sem_declarator_inits fuel rest sctx h
termination_by fuel

/-- `analyze_class_element_semantics` preserves the capture invariant. -/
theorem sem_class_element (fuel : Nat) (element : ClassElement) (sctx : SemCtx)
    (h : symbols_ok sctx.symbol_table.symbols) :
    symbols_ok (analyze_class_element_semantics fuel element sctx).symbol_table.symbols := by
  match fuel with
  | 0 => exact h
  | fuel + 1 =>
      rw [analyze_class_element_semantics_succ]
      cases element with
      | PropertyDefinition key value is_static is_private =>
          cases value with
          | some expr => exact sem_expression fuel expr sctx h
          | none => exact h
      | MethodDefinition key value kind is_static is_private =>
          exact sem_function_expression fuel value sctx h
termination_by fuel

/-- `analyze_class_element_list_semantics` preserves the capture invariant. -/
theorem sem_class_element_list (fuel : Nat) (elements : List ClassElement) (sctx : SemCtx)
    (h : symbols_ok sctx.symbol_table.symbols) :
    symbols_ok (analyze_class_element_list_semantics fuel elements sctx).symbol_table.symbols := by
  match fuel with
  | 0 => exact h
  | fuel + 1 =>
      rw [analyze_class_element_list_semantics_succ]
      cases elements with
      | nil => exact h
      | cons element rest =>
          exact sem_class_element_list fuel rest _ (sem_class_element fuel element sctx h)
termination_by fuel

/-- `analyze_for_parts_semantics` preserves the capture invariant. -/
theorem sem_for_parts (fuel : Nat) (init : Option ForInit) (test : Option Expression)
    (update : Option Expression) (body : Statement) (sctx : SemCtx)
    (h : symbols_ok sctx.symbol_table.symbols) :
    symbols_ok (analyze_for_parts_semantics fuel init test update body sctx).symbol_table.symbols := by
  match fuel with
  | 0 => exact h
  | fuel + 1 =>
      rw [analyze_for_parts_semantics_succ]
      cases init with
      | some fi =>
          cases test with
          | some te =>
              cases update with
              | some ue =>
                  exact sem_statement fuel body _ (sem_expression fuel ue _
                    (sem_expression fuel te _ (sem_for_init fuel fi sctx h)))
              | none =>
                  exact sem_statement fuel body _
                    (sem_expression fuel te _ (sem_for_init fuel fi sctx h))
          | none =>
              cases update with
              | some ue =>
                  exact sem_statement fuel body _
                    (sem_expression fuel ue _ (sem_for_init fuel fi sctx h))
              | none => exact sem_statement fuel body _ (sem_for_init fuel fi sctx h)
      | none =>
          cases test with
          | some te =>
              cases update with
              | some ue =>
                  exact sem_statement fuel body _ (sem_expression fuel ue _
                    (sem_expression fuel te sctx h))
              | none => exact sem_statement fuel body _ (sem_expression fuel te sctx h)
          | none =>
              cases update with
              | some ue => exact sem_statement fuel body _ (sem_expression fuel ue sctx h)
              | none => exact sem_statement fuel body sctx h
termination_by fuel

/-- `analyze_for_init_semantics` preserves the capture invariant. -/
theorem sem_for_init (fuel : Nat) (init : ForInit) (sctx : SemCtx)
    (h : symbols_ok sctx.symbol_table.symbols) :
    symbols_ok (analyze_for_init_semantics fuel init sctx).symbol_table.symbols := by
  match fuel with
  | 0 => exact h
  | fuel + 1 =>
      cases init with
      | VariableDeclaration declarations kind =>
          exact sem_declarator_inits fuel declarations sctx h
      | Expression expr => exact sem_expression fuel expr sctx h
termination_by fuel

/-- `analyze_expression_semantics` preserves the capture invariant. -/
theorem sem_expression (fuel : Nat) (expression : Expression) (sctx : SemCtx)
    (h : symbols_ok sctx.symbol_table.symbols) :
    symbols_ok (analyze_expression_semantics fuel expression sctx).symbol_table.symbols := by
  match fuel with
  | 0 => exact h
  | fuel + 1 =>
      rw [analyze_expression_semantics_succ]
      cases expression with
      | Identifier id =>
          show symbols_ok ((if id.name = "eval" then
              mark_scope_unsafe_and_symbols sctx.current_scope .EvalUsage sctx
            else sctx).symbol_table.symbols)
          split
          · exact symbols_ok_mark_scope _ _ _ h
          · exact h
      | CallExpression callee arguments =>
          exact sem_expression_list fuel arguments _
            (sem_expression fuel callee _ (symbols_ok_check_eval callee sctx h))
      | ThisExpression =>
          show symbols_ok ((if sctx.in_arrow_function = true then sctx
            else mark_scope_unsafe_and_symbols sctx.current_scope
              .DynamicThis sctx).symbol_table.symbols)
          split
          · exact h
          · exact symbols_ok_mark_scope _ _ _ h
      | BinaryExpression left operator right =>
          exact sem_expression fuel right _ (sem_expression fuel left sctx h)
      | UnaryExpression operator argument prefix_flag =>
          exact sem_expression fuel argument sctx h
      | AssignmentExpression left operator right =>
          exact sem_expression fuel right _ (sem_expression fuel left sctx h)
      | MemberExpression object property computed =>
          cases computed with
          | true =>
              exact symbols_ok_check_indirect object _
                (sem_expression fuel property _ (sem_expression fuel object sctx h))
          | false =>
              exact sem_member_property fuel property _ (sem_expression fuel object sctx h)
      | FunctionExpression func_expr =>
          exact sem_function_expression fuel func_expr sctx h
      | ArrowFunctionExpression params body is_async =>
          show symbols_ok ((match find_child_scope_of_type sctx.current_scope
              .Function sctx with
            | some function_scope =>
                let previous_scope := sctx.current_scope
                let previous_arrow_state := sctx.in_arrow_function
                let sctx := { sctx with current_scope := function_scope,
                                        in_arrow_function := true }
                let sctx :=
                  match body with
                  | .Expression expr => analyze_expression_semantics fuel expr sctx
                  | .BlockStatement (.mk block_statements) =>
                      analyze_statement_list_semantics fuel block_statements sctx
                { sctx with current_scope := previous_scope,
                            in_arrow_function := previous_arrow_state }
            | none => sctx).symbol_table.symbols)
          cases hf : find_child_scope_of_type sctx.current_scope .Function sctx with
          | some function_scope =>
              cases body with
              | Expression expr => exact sem_expression fuel expr _ h
              | BlockStatement block =>
                  cases block with
                  | mk block_statements => exact sem_statement_list fuel block_statements _ h
          | none => exact h
      | ConditionalExpression test consequent alternate =>
          exact sem_expression fuel alternate _
            (sem_expression fuel consequent _ (sem_expression fuel test sctx h))
      | Literal lit => exact h
      | UpdateExpression operator argument prefix_flag => exact h
      | ObjectExpression properties => exact h
      | ArrayExpression elements => exact h
      | TemplateLiteral quasis expressions => exact h
termination_by fuel

/-- `analyze_member_property_semantics` preserves the capture invariant. -/
theorem sem_member_property (fuel : Nat) (property : Expression) (sctx : SemCtx)
    (h : symbols_ok sctx.symbol_table.symbols) :
    symbols_ok (analyze_member_property_semantics fuel property sctx).symbol_table.symbols := by
  match fuel with
  | 0 => exact h
  | fuel + 1 =>
      cases property with
      | Identifier id => exact h
      | _ => exact sem_expression fuel _ sctx h
termination_by fuel

/-- `analyze_expression_list_semantics` preserves the capture invariant. -/
theorem sem_expression_list (fuel : Nat) (expressions : List Expression) (sctx : SemCtx)
    (h : symbols_ok sctx.symbol_table.symbols) :
    symbols_ok (analyze_expression_list_semantics fuel expressions sctx).symbol_table.symbols := by
  match fuel with
  | 0 => exact h
  | fuel + 1 =>
      rw [analyze_expression_list_semantics_succ]
      cases expressions with
      | nil => exact h
      | cons expr rest =>
          exact sem_expression_list fuel rest _ (sem_expression fuel expr sctx h)
termination_by fuel

/-- `analyze_function_expression_semantics` preserves the capture invariant. -/
theorem sem_function_expression (fuel : Nat) (func_expr : FunctionExpression) (sctx : SemCtx)
    (h : symbols_ok sctx.symbol_table.symbols) :
    symbols_ok (analyze_function_expression_semantics fuel func_expr sctx).symbol_table.symbols := by
  match fuel with
  | 0 => exact h
  | fuel + 1 =>
      match func_expr with
      | .mk id params body is_async is_generator =>
          match body with
          | .mk body_statements =>
              rw [analyze_function_expression_semantics_succ]
              show symbols_ok ((match find_child_scope_of_type sctx.current_scope
                  .Function sctx with
                | some function_scope =>
                    let previous_scope := sctx.current_scope
                    let previous_arrow_state := sctx.in_arrow_function
                    let sctx := { sctx with current_scope := function_scope,
                                            in_arrow_function := false }
                    let sctx := analyze_statement_list_semantics fuel body_statements sctx
                    { sctx with current_scope := previous_scope,
                                in_arrow_function := previous_arrow_state }
                | none => sctx).symbol_table.symbols)
              cases hf : find_child_scope_of_type sctx.current_scope .Function sctx with
              | some function_scope => exact sem_statement_list fuel body_statements _ h
              | none => exact h
termination_by fuel

end

/-- `propagate_upward_go` preserves the capture invariant. -/
theorem symbols_ok_propagate_go (fuel : Nat) (scope_id : ScopeId) (sctx : SemCtx)
    (h : symbols_ok sctx.symbol_table.symbols) :
    symbols_ok (propagate_upward_go fuel scope_id sctx).symbol_table.symbols := by
  induction fuel generalizing scope_id sctx with
  | zero => exact h
  | succ fuel ih =>
      rw [propagate_upward_go]
      split
      · split
        · split
          · split
            · split
              · exact ih _ _ h
              · exact ih _ _ (symbols_ok_mark_scope _ _ _ h)
            · split
              · exact ih _ _ h
              · exact ih _ _ (symbols_ok_mark_scope _ _ _ h)
            · exact h
            · exact h
            · split
              · exact ih _ _ h
              · exact ih _ _ (symbols_ok_mark_scope _ _ _ h)
            · split
              · exact ih _ _ h
              · exact ih _ _ (symbols_ok_mark_scope _ _ _ h)
          · exact h
        · exact h
      · exact h

/-- `propagate_keys` preserves the capture invariant. -/
theorem symbols_ok_propagate_keys (keys : List ScopeId) (sctx : SemCtx)
    (h : symbols_ok sctx.symbol_table.symbols) :
    symbols_ok (propagate_keys keys sctx).symbol_table.symbols := by
  induction keys generalizing sctx with
  | nil => simpa [propagate_keys] using h
  | cons scope_id rest ih =>
      rw [propagate_keys]
      exact ih _ (symbols_ok_propagate_go _ _ _ h)

/-- `analyze_semantics` preserves the capture invariant. -/
theorem symbols_ok_analyze_semantics (ast : Program) (sctx : SemCtx)
    (h : symbols_ok sctx.symbol_table.symbols) :
    symbols_ok (analyze_semantics ast sctx).symbol_table.symbols := by
  rw [analyze_semantics]
  exact symbols_ok_propagate_keys _ _ (sem_statement_list _ ast.body sctx h)

/-- The capture invariant holds of every `analyze_ast` result: the
analysis starts from an empty symbol table and every phase preserves the
invariant. -/
theorem symbols_ok_analyze_ast (ast : Program) (config : AnalyzerConfig)
    (r : SemanticAnalysis) (h : analyze_ast ast config = .ok r) :
    symbols_ok r.symbol_table.symbols := by
  rw [analyze_ast] at h
  rw [← Except.ok.inj h]
  exact symbols_ok_analyze_semantics _ _
    (symbols_ok_analyze_scopes _ _ (by intro pr hm; cases hm))

/-! ## Effects of `mark_scope_unsafe` (claim C4) -/

/-- `mark_symbols_of_scope` does not change the unsafe-scope map. -/
theorem mark_symbols_unsafe_scopes (reason : UnsafeReason)
    (bindings : List (String × SymbolId)) (sctx : SemCtx) :
    (mark_symbols_of_scope reason bindings sctx).semantic_flags.unsafe_scopes =
      sctx.semantic_flags.unsafe_scopes := by
  induction bindings generalizing sctx with
  | nil => rw [mark_symbols_of_scope]
  | cons b rest ih =>
      obtain ⟨n, symbol_id⟩ := b
      rw [mark_symbols_of_scope]
      rw [ih]

/-- `mark_scope_unsafe_and_symbols` records the reason for the scope. -/
theorem mark_unsafe_records (scope_id : ScopeId) (reason : UnsafeReason)
    (sctx : SemCtx) :
    alGet (mark_scope_unsafe_and_symbols scope_id reason sctx).semantic_flags.unsafe_scopes
      scope_id = some reason := by
  rw [mark_scope_unsafe_and_symbols]
  split
  · rw [mark_symbols_unsafe_scopes]
    simp [alGet_alInsert]
  · simp [alGet_alInsert]

/-- Symbols that already read as unrenamable stay unrenamable through
`mark_symbols_of_scope` (the pass only ever clears the flag). -/
theorem mark_symbols_keeps_false (reason : UnsafeReason)
    (bindings : List (String × SymbolId)) (sctx : SemCtx) (sid : SymbolId)
    (h : ∀ sym, alGet sctx.symbol_table.symbols sid = some sym →
      sym.is_renamable = false) :
    ∀ sym, alGet (mark_symbols_of_scope reason bindings sctx).symbol_table.symbols sid =
      some sym → sym.is_renamable = false := by
  induction bindings generalizing sctx with
  | nil => rw [mark_symbols_of_scope]; exact h
  | cons b rest ih =>
      obtain ⟨n, symbol_id⟩ := b
      rw [mark_symbols_of_scope]
      refine ih _ ?_
      intro sym hget
      simp only [alGet_alModify] at hget
      by_cases hq : sid = symbol_id
      · rw [if_pos hq] at hget
        cases hal : alGet sctx.symbol_table.symbols symbol_id with
        | none => rw [hal] at hget; cases hget
        | some old => rw [hal] at hget; cases hget; rfl
      · rw [if_neg hq] at hget
        exact h sym hget

/-- Every symbol listed in the marked scope's bindings reads as
unrenamable after `mark_symbols_of_scope`. -/
theorem mark_symbols_sets_false (reason : UnsafeReason)
    (bindings : List (String × SymbolId)) (sctx : SemCtx) (sid : SymbolId)
    (hmem : sid ∈ bindings.map (·.2)) :
    ∀ sym, alGet (mark_symbols_of_scope reason bindings sctx).symbol_table.symbols sid =
      some sym → sym.is_renamable = false := by
  induction bindings generalizing sctx with
  | nil => cases hmem
  | cons b rest ih =>
      obtain ⟨n, symbol_id⟩ := b
      rw [mark_symbols_of_scope]
      simp only [List.map_cons, List.mem_cons] at hmem
      by_cases hq : sid = symbol_id
      · refine mark_symbols_keeps_false _ _ _ _ ?_
        intro sym hget
        simp only [alGet_alModify, if_pos hq] at hget
        cases hal : alGet sctx.symbol_table.symbols symbol_id with
        | none => rw [hal] at hget; cases hget
        | some old => rw [hal] at hget; cases hget; rfl
      · rcases hmem with hmem | hmem
        · exact absurd hmem hq
        · exact ih _ hmem

/-- `mark_scope_unsafe_and_symbols` makes every symbol bound in the scope
unrenamable. -/
theorem mark_unsafe_sets_false (scope_id : ScopeId) (reason : UnsafeReason)
    (sctx : SemCtx) (bindings : List (String × SymbolId)) (sid : SymbolId)
    (hb : alGet sctx.symbol_table.scope_bindings scope_id = some bindings)
    (hmem : sid ∈ bindings.map (·.2)) :
    ∀ sym, alGet
      (mark_scope_unsafe_and_symbols scope_id reason sctx).symbol_table.symbols sid =
      some sym → sym.is_renamable = false := by
  rw [mark_scope_unsafe_and_symbols]
  simp only [hb]
  exact mark_symbols_sets_false reason bindings _ sid hmem

/-- Marking preserves and adds membership in the unsafe-scope map. -/
theorem alContains_mark (p : ScopeId) (reason : UnsafeReason) (sctx : SemCtx)
    (q : ScopeId) (h : q = p ∨ alContains sctx.semantic_flags.unsafe_scopes q = true) :
    alContains (mark_scope_unsafe_and_symbols p reason sctx).semantic_flags.unsafe_scopes
      q = true := by
  rw [mark_scope_unsafe_and_symbols]
  split
  · rw [mark_symbols_unsafe_scopes]
    simp only [alContains_alInsert]
    rcases h with h | h
    · rw [if_pos h]
    · split
      · rfl
      · exact h
  · simp only [alContains_alInsert]
    rcases h with h | h
    · rw [if_pos h]
    · split
      · rfl
      · exact h

/-- An unsafe-scope entry survives `propagate_upward_go` (the loop only
ever inserts). -/
theorem propagate_go_contains_mono (fuel : Nat) (s : ScopeId) (sctx : SemCtx)
    (q : ScopeId) (h : alContains sctx.semantic_flags.unsafe_scopes q = true) :
    alContains (propagate_upward_go fuel s sctx).semantic_flags.unsafe_scopes q = true := by
  induction fuel generalizing s sctx with
  | zero => exact h
  | succ fuel ih =>
      rw [propagate_upward_go]
      split
      · split
        · split
          · split
            · split
              · exact ih _ _ h
              · exact ih _ _ (alContains_mark _ _ _ _ (Or.inr h))
            · split
              · exact ih _ _ h
              · exact ih _ _ (alContains_mark _ _ _ _ (Or.inr h))
            · exact h
            · exact h
            · split
              · exact ih _ _ h
              · exact ih _ _ (alContains_mark _ _ _ _ (Or.inr h))
            · split
              · exact ih _ _ h
              · exact ih _ _ (alContains_mark _ _ _ _ (Or.inr h))
          · exact h
        · exact h
      · exact h

/-- One upward step: a scope recorded as `EvalUsage` with a parent leaves
the parent recorded in the unsafe-scope map after propagation. -/
theorem propagate_go_marks_parent (fuel : Nat) (s parent : ScopeId)
    (sctx : SemCtx) (scope : Scope)
    (hg : sctx.scope_tree.get_scope s = some scope)
    (hp : scope.parent_id = some parent)
    (ha : alGet sctx.semantic_flags.unsafe_scopes s = some .EvalUsage) :
    alContains (propagate_upward_go (fuel + 1) s sctx).semantic_flags.unsafe_scopes
      parent = true := by
  rw [propagate_upward_go]
  simp only [hg, hp, ha]
  split
  · exact propagate_go_contains_mono _ _ _ _ (by assumption)
  · exact propagate_go_contains_mono _ _ _ _ (alContains_mark _ _ _ _ (Or.inl rfl))

/-! ## Escape counting (claim C7) -/

/-- Length of the escaped form: every character costs one, plus one more
for each character that needs a backslash under the delimiter `q`. -/
theorem escape_string_go_length (q : Char) (l : List Char) :
    (escape_string_go q l).length =
      l.length + l.countP (fun c =>
        decide (c = '\n') || decide (c = '\r') || decide (c = '\t') ||
        decide (c = '\\') || decide (c = q)) := by
  induction l with
  | nil => rfl
  | cons ch rest ih =>
      rw [escape_string_go, String.length_append, ih, List.countP_cons]
      have hn : ("\\n" : String).length = 2 := rfl
      have hr : ("\\r" : String).length = 2 := rfl
      have ht : ("\\t" : String).length = 2 := rfl
      have hb : ("\\\\" : String).length = 2 := rfl
      have hs1 : ∀ c : Char, (String.singleton c).length = 1 := fun c => rfl
      have hs2 : ∀ c : Char,
          (String.singleton '\\' ++ String.singleton c).length = 2 := fun c => by
        rw [String.length_append, hs1, hs1]
      by_cases h1 : ch = '\n'
      · simp [h1, hn]; omega
      · by_cases h2 : ch = '\r'
        · simp [h1, h2, hr]; omega
        · by_cases h3 : ch = '\t'
          · simp [h1, h2, h3, ht]; omega
          · by_cases h4 : ch = '\\'
            · simp [h1, h2, h3, h4, hb]; omega
            · by_cases h5 : ch = q
              · subst h5
                simp [h1, h2, h3, h4, hs2]; omega
              · simp [h1, h2, h3, h4, h5, hs1]; omega

/-- A disjoint split of `countP` over a disjunction. -/
theorem countP_or_disjoint {α : Type} (p q : α → Bool) (l : List α)
    (h : ∀ a ∈ l, ¬(p a = true ∧ q a = true)) :
    l.countP (fun a => p a || q a) = l.countP p + l.countP q := by
  induction l with
  | nil => rfl
  | cons a rest ih =>
      simp only [List.countP_cons]
      rw [ih (fun x hx => h x (List.mem_cons_of_mem a hx))]
      have ha := h a (List.mem_cons_self a rest)
      cases hp : p a <;> cases hq : q a <;> simp_all <;> omega

/-! ## VLQ round trip (claim C9) -/

/-- Every encoded digit decodes back through the base-64 alphabet. -/
theorem decode_encode_base64_digit : ∀ d < 64,
    decode_base64_digit (encode_base64_digit d) = some d := by decide

/-- All digits produced by the VLQ digit loop are below 64. -/
theorem vlq_digits_go_lt (fuel vlq : Nat) :
    ∀ d ∈ vlq_digits_go fuel vlq, d < 64 := by
  induction fuel generalizing vlq with
  | zero => intro d hd; cases hd
  | succ fuel ih =>
      intro d hd
      rw [vlq_digits_go] at hd
      split at hd
      · simp only [List.mem_singleton] at hd
        have : vlq % 32 < 32 := Nat.mod_lt _ (by omega)
        omega
      · rcases List.mem_cons.mp hd with hd | hd
        · have : vlq % 32 < 32 := Nat.mod_lt _ (by omega)
          omega
        · exact ih _ _ hd

/-- Mapping back through the alphabet recovers a digit list below 64. -/
theorem mapM_decode_encode (l : List Nat) (h : ∀ d ∈ l, d < 64) :
    (l.map encode_base64_digit).mapM decode_base64_digit = some l := by
  induction l with
  | nil => rfl
  | cons d rest ih =>
      simp only [List.map_cons, List.mapM_cons]
      rw [decode_encode_base64_digit d (h d (List.mem_cons_self d rest)),
        ih (fun x hx => h x (List.mem_cons_of_mem d hx))]
      rfl

/-- The VLQ digit loop is inverted by the digit reassembly of §4.4:
low five bits first, continuation bit on every digit but the last. -/
theorem vlq_digits_go_to_nat (fuel vlq : Nat) (h : vlq < fuel) :
    vlq_digits_to_nat (vlq_digits_go fuel vlq) = some vlq := by
  induction fuel generalizing vlq with
  | zero => omega
  | succ fuel ih =>
      rw [vlq_digits_go]
      by_cases hr : vlq / 32 = 0
      · rw [if_pos hr]
        have hlt : vlq < 32 := by omega
        simp [vlq_digits_to_nat, Nat.mod_eq_of_lt hlt, hlt]
      · rw [if_neg hr]
        have h32 : 32 ≤ vlq := by
          by_contra hcon
          exact hr (Nat.div_eq_of_lt (by omega))
        have hrest : vlq / 32 < fuel := by
          have : vlq / 32 < vlq := Nat.div_lt_self (by omega) (by omega)
          omega
        have ihr := ih (vlq / 32) hrest
        cases hgo : vlq_digits_go fuel (vlq / 32) with
        | nil => rw [hgo] at ihr; cases ihr
        | cons t ts =>
            rw [hgo] at ihr
            have hd32 : vlq % 32 < 32 := Nat.mod_lt _ (by omega)
            rw [vlq_digits_to_nat]
            rw [if_pos (by omega)]
            rw [ihr]
            simp only [Option.map_some']
            congr 1
            · omega
            · intro hx
              cases hx

/-- `vlq_digits` is inverted by the digit reassembly. -/
theorem vlq_digits_to_nat_digits (vlq : Nat) :
    vlq_digits_to_nat (vlq_digits vlq) = some vlq :=
  vlq_digits_go_to_nat (vlq + 1) vlq (Nat.lt_succ_self vlq)

/-! ## Claim theorems -/

/-- C1, counterexample.  On the spec's own example program, whose analysis
marks `f`, `a` and `b` renamable, `rename_identifiers` (the pass 1
placeholder) returns zero renames and an empty mapping, contradicting the
claimed `renamed_count > 0` and non-empty mapping. -/
theorem c1_rename_identifiers_counterexample :
    (getAnalysis c1prog).symbol_table.symbols.map
      (fun pr => (pr.2.name, pr.2.is_renamable)) =
        [("f", true), ("a", true), ("b", true)] ∧
    rename_identifiers c1prog (getAnalysis c1prog).symbol_table
      TransformerConfig.default =
      .ok { renamed_count := 0, mapping := []
            warnings := ["Identifier renaming not yet fully implemented"] } := by
  exact ⟨by decide, rfl⟩

/-- C1, amended.  Identifier renaming is an unimplemented placeholder: for
every abstract syntax tree, symbol table and configuration it returns zero
renames, an empty rename map and a fixed warning; no name from the
`a, b, …, z, aa, …` sequence is ever assigned. -/
theorem c1_rename_identifiers_is_placeholder (ast : Program)
    (symbol_table : SymbolTable) (config : TransformerConfig) :
    rename_identifiers ast symbol_table config =
      .ok { renamed_count := 0, mapping := []
            warnings := ["Identifier renaming not yet fully implemented"] } := rfl

/-- C2, counterexample.  In `{ let x = 1; { let y = 2; x; } }` the symbol
`x` is declared in scope 1 and referenced from the nested block scope 2;
no function scope lies on the parent path from 2 to 1, yet `is_captured`
is set — the analyzer marks every cross-scope reference as a capture, with
no function/arrow-boundary condition. -/
theorem c2_capture_set_without_function_boundary :
    (getAnalysis c2prog).symbol_table.symbols.head? = some c2xPair ∧
    c2xPair.2.is_captured = true ∧
    c2xPair.2.scope_id = 1 ∧
    c2xPair.2.references.map (fun r => r.scope_id) = [2] ∧
    (∀ r ∈ c2xPair.2.references,
      path_crosses_function (getAnalysis c2prog).scope_tree
        ((getAnalysis c2prog).scope_tree.scopes.length + 1)
        r.scope_id c2xPair.2.scope_id = false) := by
  refine ⟨by decide, rfl, rfl, rfl, ?_⟩
  decide

/-- C2, amended.  For every symbol in an `analyze_ast` result,
`is_captured` is true exactly when some recorded reference lives in a
scope different from the declaring scope — any cross-scope reference
counts, with no function/arrow-boundary condition. -/
theorem c2_capture_iff_cross_scope_reference (ast : Program)
    (config : AnalyzerConfig) (r : SemanticAnalysis)
    (h : analyze_ast ast config = .ok r) :
    ∀ pr ∈ r.symbol_table.symbols,
      pr.2.is_captured = true ↔ ∃ ref ∈ pr.2.references, ref.scope_id ≠ pr.2.scope_id :=
  fun pr hm => symbols_ok_analyze_ast ast config r h pr hm

/-- Witness for the amended C2 at the concrete program `c2prog` and its
`x` symbol. -/
theorem c2_capture_iff_cross_scope_reference_witness :
    c2xPair.2.is_captured = true ↔
      ∃ ref ∈ c2xPair.2.references, ref.scope_id ≠ c2xPair.2.scope_id :=
  c2_capture_iff_cross_scope_reference c2prog AnalyzerConfig.default
    (getAnalysis c2prog) (by decide) c2xPair (by decide)

/-- C3, counterexample.  Analyzing `let x = 1; let x = 2;` does not abort:
`analyze_ast` returns `Ok`, and the symbol table holds a single `x` whose
id was silently reused for the second declaration. -/
theorem c3_redeclaration_not_an_error :
    analyze_ast c3prog AnalyzerConfig.default = .ok (getAnalysis c3prog) ∧
    (getAnalysis c3prog).symbol_table.symbols.map (fun pr => pr.2.name) = ["x"] ∧
    (getAnalysis c3prog).symbol_table.next_symbol_id = 1 := by
  refine ⟨by decide, by decide, by decide⟩

/-- C3, amended.  Redeclaring a name already bound in the scope is not an
error: `declare_symbol` returns the existing symbol id and leaves the
context unchanged. -/
theorem c3_redeclaration_reuses_symbol (name : String)
    (symbol_type : SymbolType) (scope_id : ScopeId) (ctx : Ctx)
    (bindings : List (String × SymbolId)) (existing : SymbolId)
    (h1 : alGet ctx.symbol_table.scope_bindings scope_id = some bindings)
    (h2 : alGet bindings name = some existing) :
    declare_symbol name symbol_type scope_id ctx = (existing, ctx) := by
  simp [declare_symbol, h1, h2]

/-- Witness for the amended C3: redeclaring `x` in a context that already
binds it. -/
theorem c3_redeclaration_reuses_symbol_witness :
    declare_symbol "x" (.Variable .Let) 0 c3ctx = (0, c3ctx) :=
  c3_redeclaration_reuses_symbol "x" (.Variable .Let) 0 c3ctx [("x", 0)] 0 rfl rfl

/-- C4, counterexample.  In `function f(){} function g(){eval;}` the bare
`eval` sits in `g`, whose body scope is scope 2 (the second `Function`
child of the root), yet the analysis marks scopes 1 and 0: the semantic
pass re-locates statement scopes with `find_child_scope_of_type`, which
always returns the first child of the requested type, so `g`'s body is
analyzed against `f`'s scope and scope 2 is never marked. -/
theorem c4_eval_marks_wrong_sibling_scope :
    (getAnalysis c4prog).semantic_flags.unsafe_scopes =
      [(1, .EvalUsage), (0, .EvalUsage)] ∧
    ((getAnalysis c4prog).scope_tree.get_scope 2).map
      (fun s => (s.scope_type, s.parent_id)) = some (.Function, some 0) ∧
    alGet (getAnalysis c4prog).symbol_table.scope_bindings 0 =
      some [("f", 0), ("g", 1)] ∧
    alContains (getAnalysis c4prog).semantic_flags.unsafe_scopes 2 = false := by
  refine ⟨by decide, by decide, by decide, by decide⟩

/-- C4, amended.  What the code actually does: (1) a bare `eval`
identifier marks the scope the semantic pass currently believes it is in
with `EvalUsage`; (2) `mark_scope_unsafe` records the reason for that
scope; (3) it makes every symbol bound in that scope unrenamable; and
(4) one step of upward propagation records a parent of an
`EvalUsage` scope (propagation continues only for `EvalUsage`,
`WithStatement`, `ExternalDependency` and `Unknown` reasons and can stop
at an ancestor already marked `DynamicThis`/`IndirectAccess`). -/
theorem c4_eval_marking_mechanism :
    (∀ (fuel : Nat) (id : Identifier) (sctx : SemCtx), id.name = "eval" →
      analyze_expression_semantics (fuel + 1) (.Identifier id) sctx =
        mark_scope_unsafe_and_symbols sctx.current_scope .EvalUsage sctx) ∧
    (∀ (scope_id : ScopeId) (reason : UnsafeReason) (sctx : SemCtx),
      alGet (mark_scope_unsafe_and_symbols scope_id reason sctx).semantic_flags.unsafe_scopes
        scope_id = some reason) ∧
    (∀ (scope_id : ScopeId) (reason : UnsafeReason) (sctx : SemCtx)
        (bindings : List (String × SymbolId)) (sid : SymbolId) (sym : Symbol),
      alGet sctx.symbol_table.scope_bindings scope_id = some bindings →
      sid ∈ bindings.map (fun b => b.2) →
      alGet (mark_scope_unsafe_and_symbols scope_id reason sctx).symbol_table.symbols sid =
        some sym →
      sym.is_renamable = false) ∧
    (∀ (fuel : Nat) (s parent : ScopeId) (sctx : SemCtx) (scope : Scope),
      sctx.scope_tree.get_scope s = some scope →
      scope.parent_id = some parent →
      alGet sctx.semantic_flags.unsafe_scopes s = some .EvalUsage →
      alContains (propagate_upward_go (fuel + 1) s sctx).semantic_flags.unsafe_scopes
        parent = true) := by
  refine ⟨?_, mark_unsafe_records, ?_, propagate_go_marks_parent⟩
  · intro fuel id sctx hn
    show (if id.name = "eval" then
        mark_scope_unsafe_and_symbols sctx.current_scope .EvalUsage sctx
      else sctx) = mark_scope_unsafe_and_symbols sctx.current_scope .EvalUsage sctx
    rw [if_pos hn]
  · intro scope_id reason sctx bindings sid sym hb hmem hget
    exact mark_unsafe_sets_false scope_id reason sctx bindings sid hb hmem sym hget

/-- Witness for the amended C4: each hypothesis-bearing conjunct applied
at a concrete context. -/
theorem c4_eval_marking_mechanism_witness :
    (analyze_expression_semantics 1 (.Identifier ⟨"eval"⟩) boundSemCtx =
      mark_scope_unsafe_and_symbols boundSemCtx.current_scope .EvalUsage boundSemCtx) ∧
    ({ xSymbol with is_renamable := false }).is_renamable = false ∧
    alContains (propagate_upward_go 1 1 propSemCtx).semantic_flags.unsafe_scopes 0 = true := by
  refine ⟨c4_eval_marking_mechanism.1 0 ⟨"eval"⟩ boundSemCtx rfl, ?_, ?_⟩
  · exact c4_eval_marking_mechanism.2.2.1 0 .EvalUsage boundSemCtx [("x", 0)] 0
      { xSymbol with is_renamable := false } rfl (by decide) (by decide)
  · exact c4_eval_marking_mechanism.2.2.2 0 1 0 propSemCtx
      { id := 1, scope_type := .Function, parent_id := some 0,
        children := [], bindings := [], is_safe := false } (by decide) rfl rfl

/-- C10, confirmed.  With the default configuration all five transformer
passes are enabled and all five are placeholders, so `transform_ast`
returns `Ok`, the transformed tree is the input tree unchanged, every
statistics counter is zero, the identifier mapping is empty and the
warnings are exactly the five placeholder warnings. -/
theorem c10_transformer_is_identity (ast : Program) (analysis : SemanticAnalysis) :
    transform_ast ast analysis = .ok
      { transformed_ast := ast
        stats := TransformationStats.default
        identifier_mapping := []
        warnings := ["Identifier renaming not yet fully implemented",
          "Dead code elimination not yet fully implemented",
          "Expression simplification not yet fully implemented",
          "Property minification not yet implemented",
          "Function minification not yet implemented"] } := rfl

/-- A disjoint split of the escape count: the delimiter is none of the
always-escaped characters, so its count separates out. -/
theorem countP_escape_split (q : Char) (hn : q ≠ '\n') (hcr : q ≠ '\r')
    (htb : q ≠ '\t') (hbs : q ≠ '\\') (l : List Char) :
    l.countP (fun c => decide (c = '\n') || decide (c = '\r') || decide (c = '\t') ||
        decide (c = '\\') || decide (c = q)) =
      l.countP (fun c => decide (c = '\n') || decide (c = '\r') || decide (c = '\t') ||
        decide (c = '\\')) + l.countP (fun c => decide (c = q)) := by
  induction l with
  | nil => rfl
  | cons a rest ih =>
      simp only [List.countP_cons, ih]
      by_cases ha : a = q
      · subst ha
        simp [hn, hcr, htb, hbs]
        try omega
      · by_cases hsp : (decide (a = '\n') || decide (a = '\r') || decide (a = '\t') ||
            decide (a = '\\')) = true
        · simp only [ha, decide_eq_true_eq] at *
          simp [hsp]
          try omega
        · simp only [ha, decide_eq_true_eq] at *
          simp [hsp]
          try omega

/-- C7, amended.  Under the default (Auto) quote strategy the printer
counts the occurrences of each quote character and picks the delimiter
whose escaped form is never longer than the alternative's, with ties
broken toward the single quote (not the claimed double quote). -/
theorem c7_quote_choice_minimizes_escapes (content : String) :
    (escape_string content (choose_quote_character GeneratorConfig.default content)).length ≤
      (escape_string content
        (if choose_quote_character GeneratorConfig.default content = '\'' then '"'
         else '\'')).length ∧
    (content.data.countP (fun c => c = '\'') ≤ content.data.countP (fun c => c = '"') →
      choose_quote_character GeneratorConfig.default content = '\'') := by
  have hch : choose_quote_character GeneratorConfig.default content =
      if content.data.countP (fun c => c = '\'') ≤ content.data.countP (fun c => c = '"')
      then '\'' else '"' := rfl
  constructor
  · by_cases hc : content.data.countP (fun c => c = '\'') ≤
        content.data.countP (fun c => c = '"')
    · rw [hch, if_pos hc]
      rw [show (if ('\'' : Char) = '\'' then '"' else '\'') = '"' from rfl]
      rw [escape_string, escape_string, escape_string_go_length, escape_string_go_length]
      rw [countP_escape_split '\'' (by decide) (by decide) (by decide) (by decide),
        countP_escape_split '"' (by decide) (by decide) (by decide) (by decide)]
      omega
    · rw [hch, if_neg hc]
      rw [show (if ('"' : Char) = '\'' then '"' else '\'') = '\'' from rfl]
      rw [escape_string, escape_string, escape_string_go_length, escape_string_go_length]
      rw [countP_escape_split '\'' (by decide) (by decide) (by decide) (by decide),
        countP_escape_split '"' (by decide) (by decide) (by decide) (by decide)]
      omega
  · intro hle
    rw [hch, if_pos hle]

/-- C5, confirmed.  Printing the AST of `let x = 5;` under the default
configuration (Compact format, Auto semicolons, Auto quotes) produces
exactly `let x=5;`: keyword, one space, identifier, bare `=`, canonical
number, trailing semicolon. -/
theorem c5_let_statement_prints_compactly :
    printedDefault c5prog = .ok "let x=5;" := by decide

/-- C6, counterexample.  The printer emits the tree of `(a**b)**c` as
`a**b**c;`: the left operand is an exponentiation of the same precedence
as its parent and `print_binary_expression` parenthesizes only on
strictly lower precedence, so the parentheses the claim requires are not
emitted (and the output re-parses as `a**(b**c)`). -/
theorem c6_left_exponentiation_not_parenthesized :
    printedDefault c6prog = .ok "a**b**c;" := by decide

/-- C6, amended.  The printer's parenthesization rule is strict-less-than
on operator precedence: an equal-precedence left operand — here a nested
exponentiation under `**` — is printed without parentheses for all
identifier operands, while a strictly lower-precedence operand — `+`
under `*` — is parenthesized. -/
theorem c6_parenthesization_is_strict_precedence (a b c : String)
    (ha1 : ¬ a.isEmpty = true) (ha2 : (a.data.head?.getD '_').isAlpha = true)
    (hb1 : ¬ b.isEmpty = true) (hb2 : (b.data.head?.getD '_').isAlpha = true)
    (hc1 : ¬ c.isEmpty = true) (hc2 : (c.data.head?.getD '_').isAlpha = true)
    (hsum : a.length + b.length + c.length + 5 ≤ MAX_OUTPUT_SIZE) :
    printedDefault ⟨[.ExpressionStatement (.BinaryExpression
      (.BinaryExpression (.Identifier ⟨a⟩) .Exponentiation (.Identifier ⟨b⟩))
      .Exponentiation (.Identifier ⟨c⟩))], .Script⟩ =
      .ok (a ++ "**" ++ b ++ "**" ++ c ++ ";") ∧
    printedDefault ⟨[.ExpressionStatement (.BinaryExpression
      (.BinaryExpression (.Identifier ⟨a⟩) .Add (.Identifier ⟨b⟩))
      .Multiply (.Identifier ⟨c⟩))], .Script⟩ =
      .ok ("(" ++ a ++ "+" ++ b ++ ")" ++ "*" ++ c ++ ";") := by
  constructor
  · simp only [printedDefault, Printer.print_program, validate_program, validate_program_go,
      validate_statement, validate_expression, validate_identifier,
      print_program_go, print_statement, print_expression_statement,
      print_expression, print_binary_expression, get_binary_operator_precedence,
      Precedence.val, Printer.print_binary_operator,
      Printer.print_identifier, Printer.check_asi_hazard,
      Printer.check_memory_limits, Printer.print_semicolon_if_needed,
      Printer.needs_semicolon_for_asi, Printer.write, Printer.new,
      GeneratorConfig.default, program_size, stmt_list_size, stmt_size,
      expr_size]
    simp [ha1, ha2, hb1, hb2, hc1, hc2, Except.bind, bind, pure, Except.pure,
      Except.map, Functor.map, String.length_append]
    have hlen : ¬ MAX_OUTPUT_SIZE <
        a.length + "**".length + b.length + "**".length + c.length + ";".length := by
      have h2 : ("**" : String).length = 2 := rfl
      have h1 : (";" : String).length = 1 := rfl
      rw [h2, h1]
      simp only [MAX_OUTPUT_SIZE] at hsum ⊢
      omega
    rw [if_neg hlen]
  · simp only [printedDefault, Printer.print_program, validate_program, validate_program_go,
      validate_statement, validate_expression, validate_identifier,
      print_program_go, print_statement, print_expression_statement,
      print_expression, print_binary_expression, get_binary_operator_precedence,
      Precedence.val, Printer.print_binary_operator,
      Printer.print_identifier, Printer.check_asi_hazard,
      Printer.check_memory_limits, Printer.print_semicolon_if_needed,
      Printer.needs_semicolon_for_asi, Printer.write, Printer.new,
      GeneratorConfig.default, program_size, stmt_list_size, stmt_size,
      expr_size]
    simp [ha1, ha2, hb1, hb2, hc1, hc2, Except.bind, bind, pure, Except.pure,
      Except.map, Functor.map, String.length_append]
    have hlen : ¬ MAX_OUTPUT_SIZE <
        "(".length + a.length + "+".length + b.length + ")".length +
          "*".length + c.length + ";".length := by
      have hp1 : ("(" : String).length = 1 := rfl
      have hp2 : ("+" : String).length = 1 := rfl
      have hp3 : (")" : String).length = 1 := rfl
      have hp4 : ("*" : String).length = 1 := rfl
      have hp5 : (";" : String).length = 1 := rfl
      rw [hp1, hp2, hp3, hp4, hp5]
      simp only [MAX_OUTPUT_SIZE] at hsum ⊢
      omega
    rw [if_neg hlen]

/-- Witness for the amended C6 at the operand names `a`, `b`, `c`. -/
theorem c6_parenthesization_is_strict_precedence_witness :
    printedDefault ⟨[.ExpressionStatement (.BinaryExpression
      (.BinaryExpression (.Identifier ⟨"a"⟩) .Exponentiation (.Identifier ⟨"b"⟩))
      .Exponentiation (.Identifier ⟨"c"⟩))], .Script⟩ =
      .ok ("a" ++ "**" ++ "b" ++ "**" ++ "c" ++ ";") ∧
    printedDefault ⟨[.ExpressionStatement (.BinaryExpression
      (.BinaryExpression (.Identifier ⟨"a"⟩) .Add (.Identifier ⟨"b"⟩))
      .Multiply (.Identifier ⟨"c"⟩))], .Script⟩ =
      .ok ("(" ++ "a" ++ "+" ++ "b" ++ ")" ++ "*" ++ "c" ++ ";") :=
  c6_parenthesization_is_strict_precedence "a" "b" "c" (by decide) (by decide)
    (by decide) (by decide) (by decide) (by decide) (by decide)

/-- C7, counterexample.  For the literal with value `it's "hi"` (one
single quote, two double quotes) the printer picks the single-quote
delimiter — the one with fewer escapes — and emits `'it\'s "hi"';`, not
the double-quoted form the claim asserts. -/
theorem c7_single_quote_chosen_for_the_example :
    printedDefault c7prog = .ok "'it\\'s \"hi\"';" ∧
    choose_quote_character GeneratorConfig.default c7lit.value = '\'' := by
  refine ⟨by decide, by decide⟩

/-- Witness for the amended C7 at the literal `it's "hi"`. -/
theorem c7_quote_choice_minimizes_escapes_witness :
    (escape_string c7lit.value
        (choose_quote_character GeneratorConfig.default c7lit.value)).length ≤
      (escape_string c7lit.value
        (if choose_quote_character GeneratorConfig.default c7lit.value = '\'' then '"'
         else '\'')).length ∧
    choose_quote_character GeneratorConfig.default c7lit.value = '\'' :=
  ⟨(c7_quote_choice_minimizes_escapes c7lit.value).1,
   (c7_quote_choice_minimizes_escapes c7lit.value).2 (by decide)⟩

/-- Newline emission does not change the printer configuration. -/
theorem newline_preserves_config (p : Printer) :
    (Printer.print_newline_if_needed p).config = p.config := by
  rw [Printer.print_newline_if_needed]
  split
  · rfl
  · split <;> rfl

/-- Printing a single identifier statement in the readable format:
the identifier, a semicolon, and — after the final size check — a
trailing newline. -/
theorem print_single_ident_readable (name : String) (h1 : ¬ name.isEmpty = true)
    (h2 : (name.data.head?.getD '_').isAlpha = true) :
    (Printer.new readableCfg).print_program
      ⟨[.ExpressionStatement (.Identifier ⟨name⟩)], .Script⟩ =
      if MAX_OUTPUT_SIZE < name.length + 1 then
        .error (.OutputSizeLimitExceeded (name.length + 1) MAX_OUTPUT_SIZE)
      else .ok (name ++ ";" ++ "\n",
        { config := readableCfg, output := name ++ ";" ++ "\n",
          warnings := [], prev_token := some .Identifier, indent_level := 0 }) := by
  simp only [Printer.print_program, validate_program, validate_program_go,
    validate_statement, validate_expression, validate_identifier,
    print_program_go, print_statement, print_expression_statement,
    print_expression, Printer.print_identifier, Printer.check_asi_hazard,
    Printer.check_memory_limits, Printer.print_semicolon_if_needed,
    Printer.needs_semicolon_for_asi, Printer.write, Printer.new,
    Printer.print_newline_if_needed,
    readableCfg, GeneratorConfig.default, program_size, stmt_list_size, stmt_size,
    expr_size]
  simp [h1, h2, Except.bind, bind, pure, Except.pure, Except.map, Functor.map,
    String.length_append]
  have hsemi : (";" : String).length = 1 := rfl
  simp only [hsemi]
  by_cases hlen : MAX_OUTPUT_SIZE < name.length + 1
  · simp [hlen]
  · simp [hlen]

/-- C8, counterexample.  Printing a 10485759-character identifier
statement in the readable format passes the final size check at exactly
`MAX_OUTPUT_SIZE` bytes, and the trailing newline is appended after that
check: `print_program` returns `Ok` with an output strictly larger than
the 10 MiB cap. -/
theorem c8_ok_output_can_exceed_cap :
    ∃ s p', (Printer.new readableCfg).print_program c8prog = .ok (s, p') ∧
      MAX_OUTPUT_SIZE < s.length := by
  have hdata : c8big.data = List.replicate 10485759 'a' := rfl
  have hlen : c8big.length = 10485759 := by
    show c8big.data.length = 10485759
    rw [hdata, List.length_replicate]
  have hne : ¬ c8big.isEmpty = true := by
    rw [String.isEmpty_iff]
    intro hcon
    have hcl := congrArg String.length hcon
    rw [hlen] at hcl
    simp at hcl
  have hhead : (c8big.data.head?.getD '_').isAlpha = true := by
    rw [hdata]
    rw [show (10485759 : Nat) = 10485758 + 1 by norm_num]
    rw [List.replicate_succ]
    rfl
  have hp := print_single_ident_readable c8big hne hhead
  rw [hlen] at hp
  rw [if_neg (by norm_num [MAX_OUTPUT_SIZE])] at hp
  refine ⟨_, _, hp, ?_⟩
  rw [String.length_append, String.length_append, hlen]
  have hsemi : (";" : String).length = 1 := rfl
  have hnl : ("\n" : String).length = 1 := rfl
  rw [hsemi, hnl]
  norm_num [MAX_OUTPUT_SIZE]

/-- C8, amended.  In the compact output format — which appends nothing
after the final size check — every `Ok` result of `print_program` is a
string of at most `MAX_OUTPUT_SIZE` bytes; the periodic and final
checks surface `OutputSizeLimitExceeded` otherwise.  (The readable and
pretty formats append a newline after the final check, which is the
boundary case refuting the original claim.) -/
theorem c8_compact_ok_is_within_cap (p : Printer) (program : Program)
    (s : String) (p' : Printer)
    (h : p.print_program program = .ok (s, p'))
    (hc : p'.config.format = .Compact) :
    s.length ≤ MAX_OUTPUT_SIZE := by
  rw [Printer.print_program] at h
  simp only [bind, Except.bind, pure, Except.pure] at h
  cases hv : validate_program program with
  | error e => rw [hv] at h; cases h
  | ok u =>
      rw [hv] at h
      cases hgo : print_program_go (4 * program_size program + 8) program.body 0
          { p with output := "", warnings := [] } with
      | error e => rw [hgo] at h; cases h
      | ok p1 =>
          rw [hgo] at h
          simp only [Printer.check_memory_limits] at h
          by_cases hlen : MAX_OUTPUT_SIZE < p1.output.length
          · rw [if_pos hlen] at h; cases h
          · rw [if_neg hlen] at h
            cases hfmt : p1.config.format with
            | Compact =>
                rw [hfmt] at h
                have hinj := Except.ok.inj h
                have hs : p1.output = s := congrArg Prod.fst hinj
                rw [← hs]
                omega
            | Readable =>
                rw [hfmt] at h
                have hinj := Except.ok.inj h
                have hp' : (if program.body.isEmpty then p1
                    else p1.print_newline_if_needed) = p' := congrArg Prod.snd hinj
                have hcfg : p'.config = p1.config := by
                  rw [← hp']
                  split
                  · rfl
                  · exact newline_preserves_config p1
                rw [hcfg, hfmt] at hc
                cases hc
            | Pretty =>
                rw [hfmt] at h
                have hinj := Except.ok.inj h
                have hp' : (if program.body.isEmpty then p1
                    else p1.print_newline_if_needed) = p' := congrArg Prod.snd hinj
                have hcfg : p'.config = p1.config := by
                  rw [← hp']
                  split
                  · rfl
                  · exact newline_preserves_config p1
                rw [hcfg, hfmt] at hc
                cases hc

/-- Witness for the amended C8: the compact default configuration on
`let x = 5;`. -/
theorem c8_compact_ok_is_within_cap_witness :
    ("let x=5;" : String).length ≤ MAX_OUTPUT_SIZE :=
  c8_compact_ok_is_within_cap (Printer.new GeneratorConfig.default) c5prog
    "let x=5;"
    { config := GeneratorConfig.default, output := "let x=5;",
      warnings := [], prev_token := some .Number, indent_level := 0 }
    (by decide) (by decide)

/-- C9, confirmed.  `encode_vlq` realizes the Source Maps v3 VLQ scheme:
decoding — alphabet inversion, 5-bit low-first reassembly with the
continuation bit in bit 5 of every digit but the last, sign in the least
significant bit — recovers the integer, and the alphabet facts of the
claim hold (`0 ↦ "A"`, `1 ↦ "C"`, `-1 ↦ "D"`).  The range hypotheses
mirror the `i32` arithmetic of the source, which this model is exact for
only below `2^30` in magnitude. -/
theorem c9_vlq_encoding_follows_source_maps_v3 (v : Int)
    (h1 : -(2 ^ 30) < v) (h2 : v < 2 ^ 30) :
    decode_vlq (encode_vlq v) = some v ∧
    encode_vlq 0 = "A" ∧ encode_vlq 1 = "C" ∧ encode_vlq (-1) = "D" := by
  refine ⟨?_, rfl, rfl, rfl⟩
  rw [encode_vlq, decode_vlq]
  have hm := mapM_decode_encode
    (vlq_digits (2 * v.natAbs + if v < 0 then 1 else 0))
    (by rw [vlq_digits]; exact vlq_digits_go_lt _ _)
  have ht := vlq_digits_to_nat_digits (2 * v.natAbs + if v < 0 then 1 else 0)
  simp only [bind, Option.bind]
  simp only [hm, ht]
  by_cases hv : v < 0
  · rw [if_pos hv]
    have hmod : (2 * v.natAbs + 1) % 2 = 1 := by omega
    rw [if_pos hmod]
    simp only [pure]
    congr 1
    have : (2 * v.natAbs + 1) / 2 = v.natAbs := by omega
    rw [this]
    omega
  · rw [if_neg hv]
    have hmod : ¬ (2 * v.natAbs + 0) % 2 = 1 := by omega
    rw [if_neg hmod]
    simp only [pure]
    congr 1
    have : (2 * v.natAbs + 0) / 2 = v.natAbs := by omega
    rw [this]
    omega

/-- Witness for C9 at `v = 123456`. -/
theorem c9_vlq_encoding_follows_source_maps_v3_witness :
    decode_vlq (encode_vlq 123456) = some 123456 ∧
    encode_vlq 0 = "A" ∧ encode_vlq 1 = "C" ∧ encode_vlq (-1) = "D" :=
  c9_vlq_encoding_follows_source_maps_v3 123456 (by decide) (by decide)

end Rjs
